import Mathlib

/-!
# MAVLink parameter engine (`src/core/mavlink_parameters.cpp`)

A shallow embedding of `MAVLinkParameters`: the two work queues, the parameter
cache and the shared timeout, with every member function of the source file as
a function from the state before the call to the state after it together with
the list of calls made on the outside world (user callbacks, `send_message`,
the three timeout calls on the parent system), in the order the source makes
them.

* A `std::string` and a `char[]` are lists of bytes (`List Nat`).
* A callback is `Option Nat`: `none` is the null `std::function`, `some cb`
  a callback with identity `cb`; each invocation is recorded in the call list.
* `LogErr()` output is not modelled.
* What `mavlink_parameters.h` and the MAVLink headers declare and the source
  file only uses (`ParamValue`, `PARAM_ID_LEN`, the addressing ids) is a
  parameter of the development, bundled in `Deps`.
-/

namespace MAVLinkParameters

/-- The enumerators of `MAVLinkParameters::Result` that the source file uses. -/
inductive Result
  | SUCCESS
  | TIMEOUT
  | CONNECTION_ERROR
  | WRONG_TYPE
  | PARAM_NAME_TOO_LONG
  deriving DecidableEq, Repr

/-- MAVLink `PARAM_VALUE` after `mavlink_msg_param_value_decode`; the 4-byte
`float param_value` slot is kept as its raw bits. -/
structure mavlink_param_value_t where
  param_value : Nat
  param_count : Nat
  param_index : Nat
  param_id : List Nat
  param_type : Nat
  deriving DecidableEq, Repr

/-- MAVLink `PARAM_EXT_VALUE` after decoding; `param_value` is the 128-byte slot. -/
structure mavlink_param_ext_value_t where
  param_count : Nat
  param_index : Nat
  param_id : List Nat
  param_value : List Nat
  param_type : Nat
  deriving DecidableEq, Repr

/-- MAVLink `PARAM_EXT_ACK` after decoding. -/
structure mavlink_param_ext_ack_t where
  param_id : List Nat
  param_value : List Nat
  param_type : Nat
  param_result : Nat
  deriving DecidableEq, Repr

/-- MAVLink enum `PARAM_ACK`: the request was accepted. -/
def PARAM_ACK_ACCEPTED : Nat := 0

/-- MAVLink enum `PARAM_ACK`: the request is still being processed. -/
def PARAM_ACK_IN_PROGRESS : Nat := 3

/-- MAVLink enum `MAV_COMPONENT`: the camera component. -/
def MAV_COMP_ID_CAMERA : Nat := 100

/-- The four outgoing messages that `do_work` packs, with the arguments of the
`mavlink_msg_*_pack` call (sender ids, target ids, then the payload). -/
inductive mavlink_message_t
  | param_ext_set (system_id component_id target_system target_component : Nat)
      (param_id : List Nat) (param_value : List Nat) (param_type : Nat)
  | param_set (system_id component_id target_system target_component : Nat)
      (param_id : List Nat) (param_value : Nat) (param_type : Nat)
  | param_ext_request_read (system_id component_id target_system target_component : Nat)
      (param_id : List Nat) (param_index : Int)
  | param_request_read (system_id component_id target_system target_component : Nat)
      (param_id : List Nat) (param_index : Int)
  deriving DecidableEq, Repr

/-- What the source file uses and does not define, for a parameter value type
`PV` (the class `ParamValue` of `mavlink_parameters.h`): the constant
`PARAM_ID_LEN`, the default constructed `ParamValue`, its member functions
called by the engine, and the ids used to address outgoing messages
(`GCSClient::system_id`, `GCSClient::component_id`, `_parent.get_system_id()`,
`_parent.get_autopilot_id()`). -/
structure Deps (PV : Type) where
  PARAM_ID_LEN : Nat
  empty_param : PV
  is_same_type : PV → PV → Bool
  set_from_mavlink_param_value : mavlink_param_value_t → PV
  set_from_mavlink_param_ext_value : mavlink_param_ext_value_t → PV
  get_4_float_bytes : PV → Nat
  get_mav_param_type : PV → Nat
  get_128_bytes : PV → List Nat
  get_mav_param_ext_type : PV → Nat
  gcs_system_id : Nat
  gcs_component_id : Nat
  get_system_id : Nat
  get_autopilot_id : Nat

/-- C `strncmp(s1, s2, n)` on byte strings: at most `n` positions are compared,
the comparison stops at the first difference or at a NUL. A list stands for the
bytes of the buffer followed by NUL bytes (the terminator of `c_str()`, the zero
padding of a fixed-width identifier). -/
def strncmp : List Nat → List Nat → Nat → Int
  | _, _, 0 => 0
  | s1, s2, n + 1 =>
    if s1.headD 0 ≠ s2.headD 0 then (s1.headD 0 : Int) - (s2.headD 0 : Int)
    else if s1.headD 0 = 0 then 0
    else strncmp s1.tail s2.tail n

/-- C `strncpy(dst, src, n)` (the macro `STRNCPY`) into a zeroed buffer, read
back as the `n` bytes of `dst`: the bytes of `src` up to its first NUL, cut at
`n` bytes, padded with NUL bytes up to `n`. -/
def STRNCPY : List Nat → Nat → List Nat
  | _, 0 => []
  | [], n + 1 => 0 :: STRNCPY [] n
  | c :: cs, n + 1 => if c = 0 then List.replicate (n + 1) 0 else c :: STRNCPY cs n

/-- The struct `SetParamWork` of the header, as the source file fills it. -/
structure SetParamWork (PV : Type) where
  callback : Option Nat
  param_name : List Nat
  param_value : PV
  extended : Bool
  already_requested : Bool
  deriving DecidableEq, Repr

/-- The struct `GetParamWork` of the header, as the source file fills it. -/
structure GetParamWork (PV : Type) where
  callback : Option Nat
  param_name : List Nat
  param_value_type : PV
  extended : Bool
  already_requested : Bool
  deriving DecidableEq, Repr

/-- Modelled from the spec: the timeout registration kept by the parent system
(`register_timeout_handler`, `refresh_timeout_handler`,
`unregister_timeout_handler` are members of `SystemImpl`, which is not in the
source file). Spec §3: a single outstanding timeout token shared by both
queues; arming or re-arming replaces any previous timeout under the same
cookie. The token is either armed or not; the deadline itself is real time and
is not modelled. -/
structure TimeoutRegistration where
  armed : Bool
  deriving DecidableEq, Repr

/-- Modelled from the spec: `_parent.register_timeout_handler(..., 0.5, &_timeout_cookie)`
arms the shared timeout, replacing any previous one under the cookie (§3). -/
def register_timeout_handler (_t : TimeoutRegistration) : TimeoutRegistration :=
  { armed := true }

/-- Modelled from the spec: `_parent.refresh_timeout_handler(_timeout_cookie)`
re-arms the shared timeout (§3 "re-arming", §4.3 "refresh (re-arm) the timeout"). -/
def refresh_timeout_handler (_t : TimeoutRegistration) : TimeoutRegistration :=
  { armed := true }

/-- Modelled from the spec: `_parent.unregister_timeout_handler(_timeout_cookie)`
disarms the shared timeout (§4.3 "disarm timeout"). -/
def unregister_timeout_handler (_t : TimeoutRegistration) : TimeoutRegistration :=
  { armed := false }

/-- Modelled from the spec: the scheduler of the parent system fires an armed
timeout once its time has elapsed (§4.3 "Timeout firing"); the token that fired
is no longer outstanding. -/
def timeout_elapsed (_t : TimeoutRegistration) : TimeoutRegistration :=
  { armed := false }

/-- Modelled from the spec: `LockedQueue<T>::push_back` (`locked_queue.h` is not
in the source file), §4.2: appends. -/
def push_back {T : Type} (q : List T) (item : T) : List T :=
  q ++ [item]

/-- Modelled from the spec: `LockedQueue<T>::pop_front`, §4.2: ends the borrow
and removes the head. (`borrow_front` itself, none on an empty queue and
otherwise a handle on the head, is the `match` on the queue in each function
below; a write through the handle replaces the head.) -/
def pop_front {T : Type} (q : List T) : List T :=
  q.tail

/-- Modelled from the spec: `LockedQueue<T>::return_front`, §4.2: ends the
borrow, head and order unchanged. -/
def return_front {T : Type} (q : List T) : List T :=
  q

/-- The lookup `_cache.find(name)` in the `std::map<std::string, ParamValue>`,
kept as a list of key and value pairs with each key at most once. -/
def cache_find {PV : Type} : List (List Nat × PV) → List Nat → Option PV
  | [], _ => none
  | (k, v) :: rest, name => if k = name then some v else cache_find rest name

/-- The assignment `_cache[name] = value`: replaces the value of an existing
key, inserts the key otherwise. -/
def cache_assign {PV : Type} : List (List Nat × PV) → List Nat → PV → List (List Nat × PV)
  | [], name, value => [(name, value)]
  | (k, v) :: rest, name, value =>
    if k = name then (k, value) :: rest else (k, v) :: cache_assign rest name value

/-- The data members of `MAVLinkParameters` together with the timeout
registration that its `_timeout_cookie` refers to. -/
structure State (PV : Type) where
  _set_param_queue : List (SetParamWork PV)
  _get_param_queue : List (GetParamWork PV)
  _cache : List (List Nat × PV)
  _timeout : TimeoutRegistration
  deriving DecidableEq, Repr

/-- The engine after construction: both queues empty, cache empty, no timeout. -/
def State.init (PV : Type) : State PV :=
  { _set_param_queue := [], _get_param_queue := [], _cache := [], _timeout := { armed := false } }

/-- A call made by the engine on its surroundings. `send_message` carries the
value the transport returned. -/
inductive Effect (PV : Type)
  | set_callback (cb : Nat) (result : Result)
  | get_callback (cb : Nat) (result : Result) (value : PV)
  | send_message (message : mavlink_message_t) (ok : Bool)
  | register_timeout_handler
  | refresh_timeout_handler
  | unregister_timeout_handler
  deriving DecidableEq, Repr

/-- The statement `if (callback) { callback(result); }` of a set callback. -/
def call_set {PV : Type} (callback : Option Nat) (result : Result) : List (Effect PV) :=
  match callback with
  | some cb => [Effect.set_callback cb result]
  | none => []

/-- The statement `if (callback) { callback(result, value); }` of a get callback. -/
def call_get {PV : Type} (callback : Option Nat) (result : Result) (value : PV) :
    List (Effect PV) :=
  match callback with
  | some cb => [Effect.get_callback cb result value]
  | none => []

/-- `MAVLinkParameters::set_param_async` (source lines 30-56). -/
def set_param_async {PV : Type} (D : Deps PV) (s : State PV) (name : List Nat) (value : PV)
    (callback : Option Nat) (extended : Bool) : State PV × List (Effect PV) :=
  if name.length > D.PARAM_ID_LEN then
    (s, call_set callback Result.PARAM_NAME_TOO_LONG)
  else
    let new_work : SetParamWork PV :=
      { callback := callback, param_name := name, param_value := value,
        extended := extended, already_requested := false }
    ({ s with _set_param_queue := push_back s._set_param_queue new_work }, [])

/-- `MAVLinkParameters::get_param_async` (source lines 69-101). -/
def get_param_async {PV : Type} (D : Deps PV) (s : State PV) (name : List Nat) (value_type : PV)
    (callback : Option Nat) (extended : Bool) : State PV × List (Effect PV) :=
  if name.length > D.PARAM_ID_LEN then
    (s, call_get callback Result.PARAM_NAME_TOO_LONG D.empty_param)
  else
    match cache_find s._cache name with
    | some cached => (s, call_get callback Result.SUCCESS cached)
    | none =>
      let new_work : GetParamWork PV :=
        { callback := callback, param_name := name, param_value_type := value_type,
          extended := extended, already_requested := false }
      ({ s with _get_param_queue := push_back s._get_param_queue new_work }, [])

/-- The message packed for the head of the set queue (source lines 125-153). -/
def set_message {PV : Type} (D : Deps PV) (w : SetParamWork PV) : mavlink_message_t :=
  if w.extended then
    mavlink_message_t.param_ext_set D.gcs_system_id D.gcs_component_id D.get_system_id
      MAV_COMP_ID_CAMERA (STRNCPY w.param_name D.PARAM_ID_LEN)
      (D.get_128_bytes w.param_value) (D.get_mav_param_ext_type w.param_value)
  else
    mavlink_message_t.param_set D.gcs_system_id D.gcs_component_id D.get_system_id
      D.get_autopilot_id (STRNCPY w.param_name D.PARAM_ID_LEN)
      (D.get_4_float_bytes w.param_value) (D.get_mav_param_type w.param_value)

/-- The message packed for the head of the get queue (source lines 181-211). -/
def get_message {PV : Type} (D : Deps PV) (w : GetParamWork PV) : mavlink_message_t :=
  if w.extended then
    mavlink_message_t.param_ext_request_read D.gcs_system_id D.gcs_component_id D.get_system_id
      MAV_COMP_ID_CAMERA (STRNCPY w.param_name D.PARAM_ID_LEN) (-1)
  else
    mavlink_message_t.param_request_read D.gcs_system_id D.gcs_component_id D.get_system_id
      D.get_autopilot_id (STRNCPY w.param_name D.PARAM_ID_LEN) (-1)

/-- The second half of `MAVLinkParameters::do_work` (source lines 178-236): the
head of the get queue. -/
def do_work_get {PV : Type} (D : Deps PV) (send_message : mavlink_message_t → Bool)
    (s : State PV) : State PV × List (Effect PV) :=
  match s._get_param_queue with
  | [] => (s, [])
  | get_param_work :: rest =>
    if !get_param_work.already_requested then
      let message := get_message D get_param_work
      if !send_message message then
        ({ s with _get_param_queue := pop_front (get_param_work :: rest) },
          Effect.send_message message false ::
            call_get get_param_work.callback Result.CONNECTION_ERROR D.empty_param)
      else
        ({ s with
            _get_param_queue :=
              return_front ({ get_param_work with already_requested := true } :: rest),
            _timeout := register_timeout_handler s._timeout },
          [Effect.send_message message true, Effect.register_timeout_handler])
    else
      ({ s with _get_param_queue := return_front (get_param_work :: rest) }, [])

/-- `MAVLinkParameters::do_work` (source lines 119-237). `send_message` is the
answer of `_parent.send_message` during this call. A failed send of the set
request returns from the function (line 161) before the get queue is looked at. -/
def do_work {PV : Type} (D : Deps PV) (send_message : mavlink_message_t → Bool)
    (s : State PV) : State PV × List (Effect PV) :=
  match s._set_param_queue with
  | [] => do_work_get D send_message s
  | set_param_work :: rest =>
    if !set_param_work.already_requested then
      let message := set_message D set_param_work
      if !send_message message then
        ({ s with _set_param_queue := pop_front (set_param_work :: rest) },
          Effect.send_message message false ::
            call_set set_param_work.callback Result.CONNECTION_ERROR)
      else
        let s1 : State PV :=
          { s with
            _set_param_queue :=
              return_front ({ set_param_work with already_requested := true } :: rest),
            _timeout := register_timeout_handler s._timeout }
        let r := do_work_get D send_message s1
        (r.1, [Effect.send_message message true, Effect.register_timeout_handler] ++ r.2)
    else
      do_work_get D send_message
        { s with _set_param_queue := return_front (set_param_work :: rest) }

/-- `MAVLinkParameters::reset_cache` (source lines 239-242). -/
def reset_cache {PV : Type} (s : State PV) : State PV × List (Effect PV) :=
  ({ s with _cache := [] }, [])

/-- `MAVLinkParameters::process_param_value` (source lines 244-311). -/
def process_param_value {PV : Type} (D : Deps PV) (s : State PV)
    (param_value : mavlink_param_value_t) : State PV × List (Effect PV) :=
  match s._get_param_queue with
  | get_param_work :: rest =>
    if get_param_work.already_requested then
      if strncmp get_param_work.param_name param_value.param_id D.PARAM_ID_LEN = 0 then
        let value := D.set_from_mavlink_param_value param_value
        if D.is_same_type value get_param_work.param_value_type then
          ({ s with
              _cache := cache_assign s._cache get_param_work.param_name value,
              _timeout := unregister_timeout_handler s._timeout,
              _get_param_queue := pop_front (get_param_work :: rest) },
            call_get get_param_work.callback Result.SUCCESS value ++
              [Effect.unregister_timeout_handler])
        else
          ({ s with
              _timeout := unregister_timeout_handler s._timeout,
              _get_param_queue := pop_front (get_param_work :: rest) },
            call_get get_param_work.callback Result.WRONG_TYPE D.empty_param ++
              [Effect.unregister_timeout_handler])
      else
        ({ s with _get_param_queue := return_front (get_param_work :: rest) }, [])
    else
      ({ s with _get_param_queue := return_front (get_param_work :: rest) }, [])
  | [] =>
    match s._set_param_queue with
    | set_param_work :: rest =>
      if set_param_work.already_requested then
        if strncmp set_param_work.param_name param_value.param_id D.PARAM_ID_LEN = 0 then
          ({ s with
              _cache := cache_assign s._cache set_param_work.param_name
                set_param_work.param_value,
              _timeout := unregister_timeout_handler s._timeout,
              _set_param_queue := pop_front (set_param_work :: rest) },
            call_set set_param_work.callback Result.SUCCESS ++
              [Effect.unregister_timeout_handler])
        else
          ({ s with _set_param_queue := return_front (set_param_work :: rest) }, [])
      else
        ({ s with _set_param_queue := return_front (set_param_work :: rest) }, [])
    | [] => (s, [])

/-- `MAVLinkParameters::process_param_ext_value` (source lines 313-351). -/
def process_param_ext_value {PV : Type} (D : Deps PV) (s : State PV)
    (param_ext_value : mavlink_param_ext_value_t) : State PV × List (Effect PV) :=
  match s._get_param_queue with
  | get_param_work :: rest =>
    if get_param_work.already_requested then
      if strncmp get_param_work.param_name param_ext_value.param_id D.PARAM_ID_LEN = 0 then
        let value := D.set_from_mavlink_param_ext_value param_ext_value
        if D.is_same_type value get_param_work.param_value_type then
          ({ s with
              _cache := cache_assign s._cache get_param_work.param_name value,
              _timeout := unregister_timeout_handler s._timeout,
              _get_param_queue := pop_front (get_param_work :: rest) },
            call_get get_param_work.callback Result.SUCCESS value ++
              [Effect.unregister_timeout_handler])
        else
          ({ s with
              _timeout := unregister_timeout_handler s._timeout,
              _get_param_queue := pop_front (get_param_work :: rest) },
            call_get get_param_work.callback Result.WRONG_TYPE D.empty_param ++
              [Effect.unregister_timeout_handler])
      else
        ({ s with _get_param_queue := return_front (get_param_work :: rest) }, [])
    else
      ({ s with _get_param_queue := return_front (get_param_work :: rest) }, [])
  | [] => (s, [])

/-- `MAVLinkParameters::process_param_ext_ack` (source lines 353-403). -/
def process_param_ext_ack {PV : Type} (D : Deps PV) (s : State PV)
    (param_ext_ack : mavlink_param_ext_ack_t) : State PV × List (Effect PV) :=
  match s._set_param_queue with
  | set_param_work :: rest =>
    if set_param_work.already_requested then
      if strncmp set_param_work.param_name param_ext_ack.param_id D.PARAM_ID_LEN = 0 then
        if param_ext_ack.param_result = PARAM_ACK_ACCEPTED then
          ({ s with
              _cache := cache_assign s._cache set_param_work.param_name
                set_param_work.param_value,
              _timeout := unregister_timeout_handler s._timeout,
              _set_param_queue := pop_front (set_param_work :: rest) },
            call_set set_param_work.callback Result.SUCCESS ++
              [Effect.unregister_timeout_handler])
        else if param_ext_ack.param_result = PARAM_ACK_IN_PROGRESS then
          ({ s with
              _timeout := refresh_timeout_handler s._timeout,
              _set_param_queue := return_front (set_param_work :: rest) },
            [Effect.refresh_timeout_handler])
        else
          ({ s with
              _timeout := unregister_timeout_handler s._timeout,
              _set_param_queue := pop_front (set_param_work :: rest) },
            call_set set_param_work.callback Result.TIMEOUT ++
              [Effect.unregister_timeout_handler])
      else
        ({ s with _set_param_queue := return_front (set_param_work :: rest) }, [])
    else
      ({ s with _set_param_queue := return_front (set_param_work :: rest) }, [])
  | [] => (s, [])

/-- `MAVLinkParameters::receive_timeout` (source lines 405-441): the get queue
first, then the set queue. -/
def receive_timeout {PV : Type} (D : Deps PV) (s : State PV) : State PV × List (Effect PV) :=
  let r1 : State PV × List (Effect PV) :=
    match s._get_param_queue with
    | get_param_work :: rest =>
      if get_param_work.already_requested then
        ({ s with _get_param_queue := pop_front (get_param_work :: rest) },
          call_get get_param_work.callback Result.TIMEOUT D.empty_param)
      else
        ({ s with _get_param_queue := return_front (get_param_work :: rest) }, [])
    | [] => (s, [])
  match r1.1._set_param_queue with
  | set_param_work :: rest =>
    if set_param_work.already_requested then
      ({ r1.1 with _set_param_queue := pop_front (set_param_work :: rest) },
        r1.2 ++ call_set set_param_work.callback Result.TIMEOUT)
    else
      ({ r1.1 with _set_param_queue := return_front (set_param_work :: rest) }, r1.2)
  | [] => r1

/-- One operation on the engine, with its arguments. `do_work` carries the
answers of the transport to the sends of that call; `receive_timeout` is the
registered timeout handler being run by the scheduler. -/
inductive Op (PV : Type)
  | set_param_async (name : List Nat) (value : PV) (callback : Option Nat) (extended : Bool)
  | get_param_async (name : List Nat) (value_type : PV) (callback : Option Nat)
      (extended : Bool)
  | do_work (send_message : mavlink_message_t → Bool)
  | process_param_value (m : mavlink_param_value_t)
  | process_param_ext_value (m : mavlink_param_ext_value_t)
  | process_param_ext_ack (m : mavlink_param_ext_ack_t)
  | receive_timeout
  | reset_cache

/-- The effect of one operation. When the timeout handler runs, the timeout that
fired is no longer outstanding (`timeout_elapsed`). -/
def apply_op {PV : Type} (D : Deps PV) (s : State PV) : Op PV → State PV × List (Effect PV)
  | Op.set_param_async name value callback extended =>
    set_param_async D s name value callback extended
  | Op.get_param_async name value_type callback extended =>
    get_param_async D s name value_type callback extended
  | Op.do_work send_message => do_work D send_message s
  | Op.process_param_value m => process_param_value D s m
  | Op.process_param_ext_value m => process_param_ext_value D s m
  | Op.process_param_ext_ack m => process_param_ext_ack D s m
  | Op.receive_timeout => receive_timeout D { s with _timeout := timeout_elapsed s._timeout }
  | Op.reset_cache => reset_cache s

/-- The state after a sequence of operations, and all calls made, in order. -/
def run {PV : Type} (D : Deps PV) : State PV → List (Op PV) → State PV × List (Effect PV)
  | s, [] => (s, [])
  | s, op :: ops =>
    let r1 := apply_op D s op
    let r2 := run D r1.1 ops
    (r2.1, r1.2 ++ r2.2)

/-- A state the engine can be in: reached from the initial state by some
sequence of operations, with any arguments and any send outcomes. -/
def Reachable {PV : Type} (D : Deps PV) (s : State PV) : Prop :=
  ∃ ops : List (Op PV), (run D (State.init PV) ops).1 = s

/-- The head of a queue of set items is in flight. -/
def set_head_in_flight {PV : Type} (q : List (SetParamWork PV)) : Bool :=
  match q with
  | w :: _ => w.already_requested
  | [] => false

/-- The head of a queue of get items is in flight. -/
def get_head_in_flight {PV : Type} (q : List (GetParamWork PV)) : Bool :=
  match q with
  | w :: _ => w.already_requested
  | [] => false

/-- Modelled from the spec: the class `ParamValue` of `mavlink_parameters.h`
(§3 Typed Parameter Value): a type tag and a payload matching the tag. The tag
is kept as its MAVLink type number and the payload as raw bytes. -/
structure ParamValue where
  type_tag : Nat
  payload : List Nat
  deriving DecidableEq, Repr

/-- Modelled from the spec: an instance of the missing declarations on which the
engine is evaluated at concrete inputs. `is_same_type` compares the type tags
(§4.1), the decoders keep the tag and the slot of the message, the encoders give
them back (the extended one as a 128-byte slot, padded with NUL bytes),
identifiers are 16 bytes wide, the sender is 245:190 and the vehicle 1:1. -/
def deps16 : Deps ParamValue :=
  { PARAM_ID_LEN := 16
    empty_param := { type_tag := 0, payload := [] }
    is_same_type := fun a b => a.type_tag == b.type_tag
    set_from_mavlink_param_value := fun m =>
      { type_tag := m.param_type, payload := [m.param_value] }
    set_from_mavlink_param_ext_value := fun m =>
      { type_tag := m.param_type, payload := m.param_value }
    get_4_float_bytes := fun v => v.payload.headD 0
    get_mav_param_type := fun v => v.type_tag
    get_128_bytes := fun v => (v.payload ++ List.replicate 128 0).take 128
    get_mav_param_ext_type := fun v => v.type_tag
    gcs_system_id := 245
    gcs_component_id := 190
    get_system_id := 1
    get_autopilot_id := 1 }

/-- A transport on which every send succeeds. -/
def send_ok : mavlink_message_t → Bool :=
  fun _ => true

/-- A transport on which every send fails. -/
def send_fails : mavlink_message_t → Bool :=
  fun _ => false

/-- Every item behind the head of a queue is not in flight; `flag` reads
`already_requested`. -/
def tail_idle {T : Type} (flag : T → Bool) (q : List T) : Prop :=
  ∀ w ∈ q.tail, flag w = false

/-- Both queues have no in-flight item behind their head. -/
def queues_ok {PV : Type} (s : State PV) : Prop :=
  tail_idle (fun w => w.already_requested) s._set_param_queue ∧
  tail_idle (fun w => w.already_requested) s._get_param_queue

/-- A value of MAVLink type 9 (`MAV_PARAM_TYPE_REAL32`) with the given payload. -/
def real32 (bits : Nat) : ParamValue :=
  { type_tag := 9, payload := [bits] }

/-- A value of MAVLink type 6 (`MAV_PARAM_TYPE_INT32`) with the given payload. -/
def int32 (bits : Nat) : ParamValue :=
  { type_tag := 6, payload := [bits] }

/-- Two sets ("A", "B") and one get ("C") are submitted, then `do_work` runs on
a working transport. -/
def ops_two_sets_one_get : List (Op ParamValue) :=
  [Op.set_param_async [65] (real32 7) (some 1) false,
   Op.set_param_async [66] (real32 8) (some 2) false,
   Op.get_param_async [67] (real32 0) (some 3) false,
   Op.do_work send_ok]

/-- The state after `ops_two_sets_one_get`. -/
def state_two_sets_one_get : State ParamValue :=
  (run deps16 (State.init ParamValue) ops_two_sets_one_get).1

/-- A set of "A" and a get of "B" are submitted, `do_work` sends both requests,
then the `PARAM_VALUE` answering the get of "B" arrives. -/
def ops_get_answered_first : List (Op ParamValue) :=
  [Op.set_param_async [65] (real32 7) (some 1) false,
   Op.get_param_async [66] (real32 0) (some 2) false,
   Op.do_work send_ok,
   Op.process_param_value
     { param_value := 5, param_count := 1, param_index := 0, param_id := [66], param_type := 9 }]

/-- The state after `ops_get_answered_first`. -/
def state_get_answered_first : State ParamValue :=
  (run deps16 (State.init ParamValue) ops_get_answered_first).1

/-- A name of 17 bytes, one more than the identifier width of `deps16`. -/
def name17 : List Nat :=
  List.replicate 17 65

/-- The get item for "C" at the head of the get queue of `state_two_sets_one_get`. -/
def get_C_in_flight : GetParamWork ParamValue :=
  { callback := some 3, param_name := [67], param_value_type := real32 0, extended := false,
    already_requested := true }

/-- The set item for "A" at the head of the set queue, in flight. -/
def set_A_in_flight : SetParamWork ParamValue :=
  { callback := some 1, param_name := [65], param_value := real32 7, extended := false,
    already_requested := true }

/-- The set item for "B", waiting behind "A". -/
def set_B_waiting : SetParamWork ParamValue :=
  { callback := some 2, param_name := [66], param_value := real32 8, extended := false,
    already_requested := false }

/-- A `PARAM_VALUE` for the identifier `param_id` with the given type number and slot. -/
def param_value_msg (param_id : List Nat) (param_type : Nat) (bits : Nat) :
    mavlink_param_value_t :=
  { param_value := bits, param_count := 1, param_index := 0, param_id := param_id,
    param_type := param_type }

/-- A `PARAM_EXT_VALUE` for the identifier `param_id` with the given type number and slot. -/
def param_ext_value_msg (param_id : List Nat) (param_type : Nat) (bytes : List Nat) :
    mavlink_param_ext_value_t :=
  { param_count := 1, param_index := 0, param_id := param_id, param_value := bytes,
    param_type := param_type }

/-- A `PARAM_EXT_ACK` for the identifier `param_id` with the given result code. -/
def param_ext_ack_msg (param_id : List Nat) (param_result : Nat) : mavlink_param_ext_ack_t :=
  { param_id := param_id, param_value := [], param_type := 9, param_result := param_result }

/-- The outcome `r` of a handler resolves the head `w` of the get queue of `s`
with `result` and `value`: the callback of `w`, if not null, is invoked exactly
once, with `result` and `value`, the only other call is
`unregister_timeout_handler`, the timeout is not armed afterwards, the get queue
is what was behind the head and the set queue is the same. -/
def get_head_resolved {PV : Type} (s : State PV) (w : GetParamWork PV)
    (rest : List (GetParamWork PV)) (result : Result) (value : PV)
    (r : State PV × List (Effect PV)) : Prop :=
  (∀ cb : Nat, w.callback = some cb →
    r.2 = [Effect.get_callback cb result value, Effect.unregister_timeout_handler]) ∧
  (w.callback = none → r.2 = [Effect.unregister_timeout_handler]) ∧
  r.1._timeout.armed = false ∧
  r.1._get_param_queue = rest ∧
  r.1._set_param_queue = s._set_param_queue

/-- The outcome `r` of a handler resolves the head `w` of the set queue of `s`
with `result`: the callback of `w`, if not null, is invoked exactly once, with
`result`, the only other call is `unregister_timeout_handler`, the timeout is
not armed afterwards, the set queue is what was behind the head and the get
queue is the same. -/
def set_head_resolved {PV : Type} (s : State PV) (w : SetParamWork PV)
    (rest : List (SetParamWork PV)) (result : Result)
    (r : State PV × List (Effect PV)) : Prop :=
  (∀ cb : Nat, w.callback = some cb →
    r.2 = [Effect.set_callback cb result, Effect.unregister_timeout_handler]) ∧
  (w.callback = none → r.2 = [Effect.unregister_timeout_handler]) ∧
  r.1._timeout.armed = false ∧
  r.1._set_param_queue = rest ∧
  r.1._get_param_queue = s._get_param_queue

/-- The cache `after` is the cache `before` with `name` bound to `value` and
every other key as it was. -/
def cache_updated {PV : Type} (before after : List (List Nat × PV)) (name : List Nat)
    (value : PV) : Prop :=
  cache_find after name = some value ∧
  ∀ key : List Nat, key ≠ name → cache_find after key = cache_find before key

/-- Two sets ("A", "B") and one get ("C") are submitted; `do_work` has not run. -/
def state_submitted : State ParamValue :=
  (run deps16 (State.init ParamValue)
    [Op.set_param_async [65] (real32 7) (some 1) false,
     Op.set_param_async [66] (real32 8) (some 2) false,
     Op.get_param_async [67] (real32 0) (some 3) false]).1

/-- The set item for "A" as submitted, not yet requested. -/
def set_A_waiting : SetParamWork ParamValue :=
  { callback := some 1, param_name := [65], param_value := real32 7, extended := false,
    already_requested := false }

/-- The get item for "C" as submitted, not yet requested. -/
def get_C_waiting : GetParamWork ParamValue :=
  { callback := some 3, param_name := [67], param_value_type := real32 0, extended := false,
    already_requested := false }

/-- The set of "A" is in flight, the get queue holds the get of "C", not yet
requested ("B" is cached). -/
def state_get_waiting : State ParamValue :=
  (get_param_async deps16 state_get_answered_first [67] (real32 0) (some 3) false).1

/-- A transport that takes the write requests and fails the read requests. -/
def send_sets_only : mavlink_message_t → Bool
  | mavlink_message_t.param_ext_set _ _ _ _ _ _ _ => true
  | mavlink_message_t.param_set _ _ _ _ _ _ _ => true
  | mavlink_message_t.param_ext_request_read _ _ _ _ _ _ => false
  | mavlink_message_t.param_request_read _ _ _ _ _ _ => false

/-- A transport that fails the write requests and takes the read requests. -/
def send_gets_only : mavlink_message_t → Bool
  | mavlink_message_t.param_ext_set _ _ _ _ _ _ _ => false
  | mavlink_message_t.param_set _ _ _ _ _ _ _ => false
  | mavlink_message_t.param_ext_request_read _ _ _ _ _ _ => true
  | mavlink_message_t.param_request_read _ _ _ _ _ _ => true

/-- The ids of the set callbacks invoked in a list of calls, in order. -/
def set_callbacks_invoked {PV : Type} (e : List (Effect PV)) : List Nat :=
  e.filterMap (fun x =>
    match x with
    | Effect.set_callback cb _ => some cb
    | _ => none)

/-- The ids of the get callbacks invoked in a list of calls, in order. -/
def get_callbacks_invoked {PV : Type} (e : List (Effect PV)) : List Nat :=
  e.filterMap (fun x =>
    match x with
    | Effect.get_callback cb _ _ => some cb
    | _ => none)

/-- The ids of the callbacks (those that are not null) held by the items of a
set queue, in queue order. -/
def set_callbacks_pending {PV : Type} (q : List (SetParamWork PV)) : List Nat :=
  q.filterMap (fun w => w.callback)

/-- The ids of the callbacks (those that are not null) held by the items of a
get queue, in queue order. -/
def get_callbacks_pending {PV : Type} (q : List (GetParamWork PV)) : List Nat :=
  q.filterMap (fun w => w.callback)

/-- The items of a set queue in order, whether requested or not. -/
def set_items {PV : Type} (q : List (SetParamWork PV)) : List (SetParamWork PV) :=
  q.map (fun w => { w with already_requested := false })

/-- The items of a get queue in order, whether requested or not. -/
def get_items {PV : Type} (q : List (GetParamWork PV)) : List (GetParamWork PV) :=
  q.map (fun w => { w with already_requested := false })

/-- The callback id handed to the engine by a set submission. -/
def set_callback_submitted {PV : Type} : Op PV → List Nat
  | Op.set_param_async _ _ (some cb) _ => [cb]
  | _ => []

/-- The callback id handed to the engine by a get submission. -/
def get_callback_submitted {PV : Type} : Op PV → List Nat
  | Op.get_param_async _ _ (some cb) _ => [cb]
  | _ => []

/-- The set item that an operation adds to the set queue: the item of a
`set_param_async` whose name fits in `PARAM_ID_LEN`. -/
def set_accepted {PV : Type} (D : Deps PV) : Op PV → List (SetParamWork PV)
  | Op.set_param_async name value callback extended =>
    if name.length > D.PARAM_ID_LEN then []
    else
      [{ callback := callback, param_name := name, param_value := value, extended := extended,
         already_requested := false }]
  | _ => []

/-- The set callback that an operation answers at once, without queueing: the
one of a `set_param_async` whose name is too long. -/
def set_immediate {PV : Type} (D : Deps PV) : Op PV → List Nat
  | Op.set_param_async name _ (some cb) _ => if name.length > D.PARAM_ID_LEN then [cb] else []
  | _ => []

/-- The get item that an operation adds to the get queue: the item of a
`get_param_async` whose name fits in `PARAM_ID_LEN` and is not a key of the
cache of `s`. -/
def get_accepted {PV : Type} (D : Deps PV) (s : State PV) : Op PV → List (GetParamWork PV)
  | Op.get_param_async name value_type callback extended =>
    if name.length > D.PARAM_ID_LEN then []
    else
      match cache_find s._cache name with
      | some _ => []
      | none =>
        [{ callback := callback, param_name := name, param_value_type := value_type,
           extended := extended, already_requested := false }]
  | _ => []

/-- The get callback that an operation answers at once, without queueing: the
one of a `get_param_async` whose name is too long or is a key of the cache. -/
def get_immediate {PV : Type} (D : Deps PV) (s : State PV) : Op PV → List Nat
  | Op.get_param_async name _ (some cb) _ =>
    if name.length > D.PARAM_ID_LEN then [cb]
    else
      match cache_find s._cache name with
      | some _ => [cb]
      | none => []
  | _ => []

/-- What one operation with outcome `r` does to the set queue of `s`: it removes
the first `k` items, `k` being 0 or 1, appends the accepted item if there is
one, and the set callbacks it invokes are those of the removed items followed by
the one answered at once. -/
def set_queue_step {PV : Type} (D : Deps PV) (s : State PV) (op : Op PV)
    (r : State PV × List (Effect PV)) : Prop :=
  ∃ k : Nat, k ≤ 1 ∧ k ≤ s._set_param_queue.length ∧
    set_items r.1._set_param_queue =
      (set_items s._set_param_queue).drop k ++ set_accepted D op ∧
    set_callbacks_invoked r.2 =
      set_callbacks_pending (s._set_param_queue.take k) ++ set_immediate D op

/-- What one operation with outcome `r` does to the get queue of `s`: as
`set_queue_step`. -/
def get_queue_step {PV : Type} (D : Deps PV) (s : State PV) (op : Op PV)
    (r : State PV × List (Effect PV)) : Prop :=
  ∃ k : Nat, k ≤ 1 ∧ k ≤ s._get_param_queue.length ∧
    get_items r.1._get_param_queue =
      (get_items s._get_param_queue).drop k ++ get_accepted D s op ∧
    get_callbacks_invoked r.2 =
      get_callbacks_pending (s._get_param_queue.take k) ++ get_immediate D s op

/-- All set items accepted by a sequence of operations, in order. -/
def all_set_accepted {PV : Type} (D : Deps PV) : List (Op PV) → List (SetParamWork PV)
  | [] => []
  | op :: ops => set_accepted D op ++ all_set_accepted D ops

/-- All get items accepted by a sequence of operations run from `s`, in order. -/
def all_get_accepted {PV : Type} (D : Deps PV) : State PV → List (Op PV) →
    List (GetParamWork PV)
  | _, [] => []
  | s, op :: ops => get_accepted D s op ++ all_get_accepted D (apply_op D s op).1 ops

/-- All set callback ids handed to the engine by a sequence of operations. -/
def all_set_submitted {PV : Type} : List (Op PV) → List Nat
  | [] => []
  | op :: ops => set_callback_submitted op ++ all_set_submitted ops

/-- All get callback ids handed to the engine by a sequence of operations. -/
def all_get_submitted {PV : Type} : List (Op PV) → List Nat
  | [] => []
  | op :: ops => get_callback_submitted op ++ all_get_submitted ops

/-- A name of exactly 16 bytes, the identifier width of `deps16`. -/
def name16 : List Nat :=
  List.replicate 16 65

/-- A 16-byte identifier that differs from `name16` in its last byte only. -/
def id16_other : List Nat :=
  List.replicate 15 65 ++ [66]

/-- A get of `name16` is submitted and its request sent. -/
def state_get16_in_flight : State ParamValue :=
  (run deps16 (State.init ParamValue)
    [Op.get_param_async name16 (real32 0) (some 5) true, Op.do_work send_ok]).1

/-- The get item for `name16`, in flight. -/
def get16_in_flight : GetParamWork ParamValue :=
  { callback := some 5, param_name := name16, param_value_type := real32 0, extended := true,
    already_requested := true }

/-- Two outcomes `r` (from `s`) and `r2` (from `s2`, which is `s` with another
extended flag on the head of the get queue) agree: the calls are the same, and
the resulting states are the same or, when the get queue of `s` was left as it
was, the same except for the get queue, which is still the one of `s2`. -/
def same_up_to_get_head {PV : Type} (s s2 : State PV) (r r2 : State PV × List (Effect PV)) :
    Prop :=
  r2.2 = r.2 ∧
  (r2.1 = r.1 ∨
    (r.1._get_param_queue = s._get_param_queue ∧
      r2.1 = { r.1 with _get_param_queue := s2._get_param_queue }))

/-- Two outcomes `r` (from `s`) and `r2` (from `s2`, which is `s` with another
extended flag on the head of the set queue) agree: the calls are the same, and
the resulting states are the same or, when the set queue of `s` was left as it
was, the same except for the set queue, which is still the one of `s2`. -/
def same_up_to_set_head {PV : Type} (s s2 : State PV) (r r2 : State PV × List (Effect PV)) :
    Prop :=
  r2.2 = r.2 ∧
  (r2.1 = r.1 ∨
    (r.1._set_param_queue = s._set_param_queue ∧
      r2.1 = { r.1 with _set_param_queue := s2._set_param_queue }))

/-- The state `state_two_sets_one_get` with the in-flight get of "C" marked as an
extended request. -/
def state_get_C_extended : State ParamValue :=
  { state_two_sets_one_get with
    _get_param_queue := [{ get_C_in_flight with extended := true }] }

/-- The state `state_get_answered_first` with the in-flight set of "A" marked as
an extended request. -/
def state_set_A_extended : State ParamValue :=
  { state_get_answered_first with
    _set_param_queue := [{ set_A_in_flight with extended := true }] }

/-- A value of MAVLink extended type 11 (`MAV_PARAM_EXT_TYPE_CUSTOM`), a string,
with the given bytes. -/
def custom (bytes : List Nat) : ParamValue :=
  { type_tag := 11, payload := bytes }

/-- An extended get of "S" expecting a string is submitted and its request sent. -/
def state_get_string_in_flight : State ParamValue :=
  (run deps16 (State.init ParamValue)
    [Op.get_param_async [83] (custom []) (some 6) true, Op.do_work send_ok]).1

/-- The get item for "S", expecting a string, in flight. -/
def get_S_in_flight : GetParamWork ParamValue :=
  { callback := some 6, param_name := [83], param_value_type := custom [], extended := true,
    already_requested := true }

/-- The `param_id` field of an outgoing message, as packed. -/
def message_param_id : mavlink_message_t → List Nat
  | mavlink_message_t.param_ext_set _ _ _ _ param_id _ _ => param_id
  | mavlink_message_t.param_set _ _ _ _ param_id _ _ => param_id
  | mavlink_message_t.param_ext_request_read _ _ _ _ param_id _ => param_id
  | mavlink_message_t.param_request_read _ _ _ _ param_id _ => param_id

/-- An extended get of `name16` is submitted; `do_work` has not run. -/
def state_get16_submitted : State ParamValue :=
  (run deps16 (State.init ParamValue) [Op.get_param_async name16 (real32 0) (some 5) true]).1

/-- The get item for `name16` as submitted, not yet requested. -/
def get16_waiting : GetParamWork ParamValue :=
  { callback := some 5, param_name := name16, param_value_type := real32 0, extended := true,
    already_requested := false }

/-- A set of `name16` is submitted; `do_work` has not run. -/
def state_set16_submitted : State ParamValue :=
  (run deps16 (State.init ParamValue) [Op.set_param_async name16 (real32 7) (some 8) false]).1

/-- The set item for `name16` as submitted, not yet requested. -/
def set16_waiting : SetParamWork ParamValue :=
  { callback := some 8, param_name := name16, param_value := real32 7, extended := false,
    already_requested := false }

/-- The messages handed to the transport in a list of calls, in order. -/
def sent_messages {PV : Type} (e : List (Effect PV)) : List mavlink_message_t :=
  e.filterMap (fun x =>
    match x with
    | Effect.send_message m _ => some m
    | _ => none)

/-- The request still to be sent for a set queue: the one of its head, when the
head is not yet requested. -/
def set_request {PV : Type} (D : Deps PV) (q : List (SetParamWork PV)) :
    List mavlink_message_t :=
  match q with
  | w :: _ => if w.already_requested then [] else [set_message D w]
  | [] => []

/-- The request still to be sent for a get queue: the one of its head, when the
head is not yet requested. -/
def get_request {PV : Type} (D : Deps PV) (q : List (GetParamWork PV)) :
    List mavlink_message_t :=
  match q with
  | w :: _ => if w.already_requested then [] else [get_message D w]
  | [] => []

theorem tail_idle_nil {T : Type} (flag : T → Bool) : tail_idle flag ([] : List T) := by
  intro w hw
  simp at hw

theorem tail_idle_push_back {T : Type} (flag : T → Bool) (q : List T) (x : T)
    (hq : tail_idle flag q) (hx : flag x = false) : tail_idle flag (push_back q x) := by
  intro w hw
  cases q with
  | nil => simp [push_back] at hw
  | cons a rest =>
    simp only [push_back, List.cons_append, List.tail_cons, List.mem_append,
      List.mem_singleton] at hw
    rcases hw with hw | hw
    · exact hq w (by simpa using hw)
    · rw [hw]; exact hx

theorem tail_idle_pop_front {T : Type} (flag : T → Bool) (q : List T)
    (hq : tail_idle flag q) : tail_idle flag (pop_front q) := by
  intro w hw
  cases q with
  | nil => simp [pop_front] at hw
  | cons a rest =>
    simp only [pop_front, List.tail_cons] at hw
    exact hq w (by simpa using List.mem_of_mem_tail hw)

theorem tail_idle_head {T : Type} (flag : T → Bool) (a b : T) (rest : List T)
    (hq : tail_idle flag (a :: rest)) : tail_idle flag (b :: rest) := by
  intro w hw
  exact hq w (by simpa using hw)

theorem tail_idle_count {T : Type} (flag : T → Bool) (q : List T) (hq : tail_idle flag q) :
    q.countP flag ≤ 1 := by
  cases q with
  | nil => simp
  | cons a rest =>
    have h0 : rest.countP flag = 0 := by
      rw [List.countP_eq_zero]
      intro w hw
      simpa using hq w (by simpa using hw)
    rw [List.countP_cons, h0]
    split <;> simp

theorem tail_idle_index {T : Type} (flag : T → Bool) (q : List T) (hq : tail_idle flag q)
    (i : Nat) (w : T) (hi : q[i]? = some w) (hw : flag w = true) : i = 0 := by
  cases i with
  | zero => rfl
  | succ j =>
    cases q with
    | nil => simp at hi
    | cons a rest =>
      simp only [List.getElem?_cons_succ] at hi
      have hmem : w ∈ rest := List.getElem?_mem hi
      have := hq w (by simpa using hmem)
      rw [this] at hw
      cases hw

theorem queues_ok_set_param_async {PV : Type} (D : Deps PV) (s : State PV) (name : List Nat)
    (value : PV) (callback : Option Nat) (extended : Bool) (h : queues_ok s) :
    queues_ok (set_param_async D s name value callback extended).1 := by
  unfold set_param_async
  split
  · exact h
  · exact ⟨tail_idle_push_back _ _ _ h.1 rfl, h.2⟩

theorem queues_ok_get_param_async {PV : Type} (D : Deps PV) (s : State PV) (name : List Nat)
    (value_type : PV) (callback : Option Nat) (extended : Bool) (h : queues_ok s) :
    queues_ok (get_param_async D s name value_type callback extended).1 := by
  unfold get_param_async
  split
  · exact h
  · split
    · exact h
    · exact ⟨h.1, tail_idle_push_back _ _ _ h.2 rfl⟩

theorem queues_ok_do_work_get {PV : Type} (D : Deps PV) (send_message : mavlink_message_t → Bool)
    (s : State PV) (h : queues_ok s) : queues_ok (do_work_get D send_message s).1 := by
  unfold do_work_get
  split
  · exact h
  · rename_i w rest hq
    have h2 : tail_idle (fun w : GetParamWork PV => w.already_requested) (w :: rest) :=
      hq ▸ h.2
    dsimp only
    split
    · split
      · exact ⟨h.1, tail_idle_pop_front _ _ h2⟩
      · exact ⟨h.1, tail_idle_head _ _ _ _ h2⟩
    · exact ⟨h.1, h2⟩

theorem queues_ok_do_work {PV : Type} (D : Deps PV) (send_message : mavlink_message_t → Bool)
    (s : State PV) (h : queues_ok s) : queues_ok (do_work D send_message s).1 := by
  unfold do_work
  split
  · exact queues_ok_do_work_get D send_message s h
  · rename_i w rest hq
    have h1 : tail_idle (fun w : SetParamWork PV => w.already_requested) (w :: rest) :=
      hq ▸ h.1
    dsimp only
    split
    · split
      · exact ⟨tail_idle_pop_front _ _ h1, h.2⟩
      · exact queues_ok_do_work_get D send_message _ ⟨tail_idle_head _ _ _ _ h1, h.2⟩
    · exact queues_ok_do_work_get D send_message _ ⟨h1, h.2⟩

theorem queues_ok_process_param_value {PV : Type} (D : Deps PV) (s : State PV)
    (m : mavlink_param_value_t) (h : queues_ok s) :
    queues_ok (process_param_value D s m).1 := by
  unfold process_param_value
  split
  · rename_i w rest hq
    have h2 : tail_idle (fun w : GetParamWork PV => w.already_requested) (w :: rest) :=
      hq ▸ h.2
    dsimp only
    split
    · split
      · split
        · exact ⟨h.1, tail_idle_pop_front _ _ h2⟩
        · exact ⟨h.1, tail_idle_pop_front _ _ h2⟩
      · exact ⟨h.1, h2⟩
    · exact ⟨h.1, h2⟩
  · split
    · rename_i w rest hq
      have h1 : tail_idle (fun w : SetParamWork PV => w.already_requested) (w :: rest) :=
        hq ▸ h.1
      split
      · split
        · exact ⟨tail_idle_pop_front _ _ h1, h.2⟩
        · exact ⟨h1, h.2⟩
      · exact ⟨h1, h.2⟩
    · exact h

theorem queues_ok_process_param_ext_value {PV : Type} (D : Deps PV) (s : State PV)
    (m : mavlink_param_ext_value_t) (h : queues_ok s) :
    queues_ok (process_param_ext_value D s m).1 := by
  unfold process_param_ext_value
  split
  · rename_i w rest hq
    have h2 : tail_idle (fun w : GetParamWork PV => w.already_requested) (w :: rest) :=
      hq ▸ h.2
    dsimp only
    split
    · split
      · split
        · exact ⟨h.1, tail_idle_pop_front _ _ h2⟩
        · exact ⟨h.1, tail_idle_pop_front _ _ h2⟩
      · exact ⟨h.1, h2⟩
    · exact ⟨h.1, h2⟩
  · exact h

theorem queues_ok_process_param_ext_ack {PV : Type} (D : Deps PV) (s : State PV)
    (m : mavlink_param_ext_ack_t) (h : queues_ok s) :
    queues_ok (process_param_ext_ack D s m).1 := by
  unfold process_param_ext_ack
  split
  · rename_i w rest hq
    have h1 : tail_idle (fun w : SetParamWork PV => w.already_requested) (w :: rest) :=
      hq ▸ h.1
    split
    · split
      · split
        · exact ⟨tail_idle_pop_front _ _ h1, h.2⟩
        · split
          · exact ⟨h1, h.2⟩
          · exact ⟨tail_idle_pop_front _ _ h1, h.2⟩
      · exact ⟨h1, h.2⟩
    · exact ⟨h1, h.2⟩
  · exact h

theorem queues_ok_receive_timeout {PV : Type} (D : Deps PV) (s : State PV) (h : queues_ok s) :
    queues_ok (receive_timeout D s).1 := by
  unfold receive_timeout
  have hr : queues_ok
      (match s._get_param_queue with
        | get_param_work :: rest =>
          if get_param_work.already_requested then
            (({ s with _get_param_queue := pop_front (get_param_work :: rest) } : State PV),
              (call_get get_param_work.callback Result.TIMEOUT D.empty_param :
                List (Effect PV)))
          else
            ({ s with _get_param_queue := return_front (get_param_work :: rest) }, [])
        | [] => (s, [])).1 := by
    split
    · rename_i w rest hq
      have h2 : tail_idle (fun w : GetParamWork PV => w.already_requested) (w :: rest) :=
        hq ▸ h.2
      split
      · exact ⟨h.1, tail_idle_pop_front _ _ h2⟩
      · exact ⟨h.1, h2⟩
    · exact h
  dsimp only
  split
  · rename_i w rest hq
    have h1 := hr.1
    rw [hq] at h1
    split
    · exact ⟨tail_idle_pop_front _ _ h1, hr.2⟩
    · exact ⟨h1, hr.2⟩
  · exact hr

theorem queues_ok_apply_op {PV : Type} (D : Deps PV) (s : State PV) (op : Op PV)
    (h : queues_ok s) : queues_ok (apply_op D s op).1 := by
  cases op with
  | set_param_async name value callback extended =>
    exact queues_ok_set_param_async D s name value callback extended h
  | get_param_async name value_type callback extended =>
    exact queues_ok_get_param_async D s name value_type callback extended h
  | do_work send_message => exact queues_ok_do_work D send_message s h
  | process_param_value m => exact queues_ok_process_param_value D s m h
  | process_param_ext_value m => exact queues_ok_process_param_ext_value D s m h
  | process_param_ext_ack m => exact queues_ok_process_param_ext_ack D s m h
  | receive_timeout => exact queues_ok_receive_timeout D _ h
  | reset_cache => exact h

theorem queues_ok_run {PV : Type} (D : Deps PV) (ops : List (Op PV)) :
    ∀ s : State PV, queues_ok s → queues_ok (run D s ops).1 := by
  induction ops with
  | nil => intro s h; exact h
  | cons op ops ih =>
    intro s h
    exact ih _ (queues_ok_apply_op D s op h)

theorem queues_ok_init (PV : Type) : queues_ok (State.init PV) :=
  ⟨tail_idle_nil _, tail_idle_nil _⟩

/-- C1: in every state reachable from the initial engine state by any sequence
of operations, with any arguments and send outcomes, each of the two queues
holds at most one item with `already_requested == true`, and such an item is at
index 0, the head of its queue. -/
theorem at_most_one_in_flight {PV : Type} (D : Deps PV) (s : State PV) (h : Reachable D s) :
    s._set_param_queue.countP (fun w => w.already_requested) ≤ 1 ∧
    (∀ (i : Nat) (w : SetParamWork PV),
      s._set_param_queue[i]? = some w → w.already_requested = true → i = 0) ∧
    s._get_param_queue.countP (fun w => w.already_requested) ≤ 1 ∧
    (∀ (i : Nat) (w : GetParamWork PV),
      s._get_param_queue[i]? = some w → w.already_requested = true → i = 0) := by
  obtain ⟨ops, rfl⟩ := h
  have hq := queues_ok_run D ops (State.init PV) (queues_ok_init PV)
  exact ⟨tail_idle_count _ _ hq.1, fun i w hi hw => tail_idle_index _ _ hq.1 i w hi hw,
    tail_idle_count _ _ hq.2, fun i w hi hw => tail_idle_index _ _ hq.2 i w hi hw⟩

/-- Witness of C1: the state after two sets and a get were submitted and
`do_work` ran is reachable; both heads are in flight there. -/
theorem at_most_one_in_flight_witness :
    Reachable deps16 state_two_sets_one_get ∧
    (state_two_sets_one_get._set_param_queue.countP (fun w => w.already_requested) ≤ 1 ∧
    (∀ (i : Nat) (w : SetParamWork ParamValue),
      state_two_sets_one_get._set_param_queue[i]? = some w →
        w.already_requested = true → i = 0) ∧
    state_two_sets_one_get._get_param_queue.countP (fun w => w.already_requested) ≤ 1 ∧
    (∀ (i : Nat) (w : GetParamWork ParamValue),
      state_two_sets_one_get._get_param_queue[i]? = some w →
        w.already_requested = true → i = 0)) :=
  ⟨⟨ops_two_sets_one_get, rfl⟩,
    at_most_one_in_flight deps16 state_two_sets_one_get ⟨ops_two_sets_one_get, rfl⟩⟩

theorem cache_find_assign_same {PV : Type} (c : List (List Nat × PV)) (name : List Nat)
    (value : PV) : cache_find (cache_assign c name value) name = some value := by
  induction c with
  | nil => simp [cache_assign, cache_find]
  | cons p rest ih =>
    obtain ⟨k, v⟩ := p
    by_cases hk : k = name
    · simp [cache_assign, cache_find, hk]
    · simp [cache_assign, cache_find, hk, ih]

theorem cache_find_assign_other {PV : Type} (c : List (List Nat × PV)) (name key : List Nat)
    (value : PV) (hne : key ≠ name) :
    cache_find (cache_assign c name value) key = cache_find c key := by
  induction c with
  | nil =>
    have : ¬ name = key := fun h => hne h.symm
    simp [cache_assign, cache_find, this]
  | cons p rest ih =>
    obtain ⟨k, v⟩ := p
    by_cases hk : k = name
    · have : ¬ name = key := fun h => hne h.symm
      simp [cache_assign, cache_find, hk, this]
    · by_cases hk2 : k = key
      · subst hk2
        simp [cache_assign, cache_find, hk]
      · simp [cache_assign, cache_find, hk, hk2, ih]

theorem process_param_value_get_resolved {PV : Type} (D : Deps PV) (s : State PV)
    (m : mavlink_param_value_t) (w : GetParamWork PV) (rest : List (GetParamWork PV))
    (hq : s._get_param_queue = w :: rest) (hw : w.already_requested = true)
    (hm : strncmp w.param_name m.param_id D.PARAM_ID_LEN = 0) :
    process_param_value D s m =
      if D.is_same_type (D.set_from_mavlink_param_value m) w.param_value_type then
        ({ _set_param_queue := s._set_param_queue, _get_param_queue := rest,
           _cache := cache_assign s._cache w.param_name (D.set_from_mavlink_param_value m),
           _timeout := unregister_timeout_handler s._timeout },
          call_get w.callback Result.SUCCESS (D.set_from_mavlink_param_value m) ++
            [Effect.unregister_timeout_handler])
      else
        ({ _set_param_queue := s._set_param_queue, _get_param_queue := rest,
           _cache := s._cache, _timeout := unregister_timeout_handler s._timeout },
          call_get w.callback Result.WRONG_TYPE D.empty_param ++
            [Effect.unregister_timeout_handler]) := by
  unfold process_param_value
  rw [hq]
  simp [hw, hm, pop_front]

theorem process_param_ext_value_get_resolved {PV : Type} (D : Deps PV) (s : State PV)
    (m : mavlink_param_ext_value_t) (w : GetParamWork PV) (rest : List (GetParamWork PV))
    (hq : s._get_param_queue = w :: rest) (hw : w.already_requested = true)
    (hm : strncmp w.param_name m.param_id D.PARAM_ID_LEN = 0) :
    process_param_ext_value D s m =
      if D.is_same_type (D.set_from_mavlink_param_ext_value m) w.param_value_type then
        ({ _set_param_queue := s._set_param_queue, _get_param_queue := rest,
           _cache := cache_assign s._cache w.param_name (D.set_from_mavlink_param_ext_value m),
           _timeout := unregister_timeout_handler s._timeout },
          call_get w.callback Result.SUCCESS (D.set_from_mavlink_param_ext_value m) ++
            [Effect.unregister_timeout_handler])
      else
        ({ _set_param_queue := s._set_param_queue, _get_param_queue := rest,
           _cache := s._cache, _timeout := unregister_timeout_handler s._timeout },
          call_get w.callback Result.WRONG_TYPE D.empty_param ++
            [Effect.unregister_timeout_handler]) := by
  unfold process_param_ext_value
  rw [hq]
  simp [hw, hm, pop_front]

theorem process_param_value_get_ignored {PV : Type} (D : Deps PV) (s : State PV)
    (m : mavlink_param_value_t) (w : GetParamWork PV) (rest : List (GetParamWork PV))
    (hq : s._get_param_queue = w :: rest)
    (hw : w.already_requested = false ∨ strncmp w.param_name m.param_id D.PARAM_ID_LEN ≠ 0) :
    process_param_value D s m = (s, []) := by
  obtain ⟨sq, gq, c, t⟩ := s
  simp only at hq
  subst hq
  rcases hw with hw | hw
  · simp [process_param_value, return_front, hw]
  · simp [process_param_value, return_front, hw]

theorem process_param_value_set_resolved {PV : Type} (D : Deps PV) (s : State PV)
    (m : mavlink_param_value_t) (w : SetParamWork PV) (rest : List (SetParamWork PV))
    (hg : s._get_param_queue = []) (hq : s._set_param_queue = w :: rest)
    (hw : w.already_requested = true)
    (hm : strncmp w.param_name m.param_id D.PARAM_ID_LEN = 0) :
    process_param_value D s m =
      ({ _set_param_queue := rest, _get_param_queue := [],
         _cache := cache_assign s._cache w.param_name w.param_value,
         _timeout := unregister_timeout_handler s._timeout },
        call_set w.callback Result.SUCCESS ++ [Effect.unregister_timeout_handler]) := by
  unfold process_param_value
  rw [hg, hq]
  simp [hw, hm, pop_front, hg]

theorem process_param_value_set_ignored {PV : Type} (D : Deps PV) (s : State PV)
    (m : mavlink_param_value_t) (hg : s._get_param_queue = [])
    (hq : s._set_param_queue = [] ∨
      ∃ (w : SetParamWork PV) (rest : List (SetParamWork PV)), s._set_param_queue = w :: rest ∧
        (w.already_requested = false ∨ strncmp w.param_name m.param_id D.PARAM_ID_LEN ≠ 0)) :
    process_param_value D s m = (s, []) := by
  obtain ⟨sq, gq, c, t⟩ := s
  simp only at hg hq
  subst hg
  rcases hq with hq | ⟨w, rest, hq, hw⟩
  · subst hq
    simp [process_param_value]
  · subst hq
    rcases hw with hw | hw
    · simp [process_param_value, return_front, hw]
    · simp [process_param_value, return_front, hw]

theorem process_param_ext_ack_matched {PV : Type} (D : Deps PV) (s : State PV)
    (m : mavlink_param_ext_ack_t) (w : SetParamWork PV) (rest : List (SetParamWork PV))
    (hq : s._set_param_queue = w :: rest) (hw : w.already_requested = true)
    (hm : strncmp w.param_name m.param_id D.PARAM_ID_LEN = 0) :
    process_param_ext_ack D s m =
      if m.param_result = PARAM_ACK_ACCEPTED then
        ({ _set_param_queue := rest, _get_param_queue := s._get_param_queue,
           _cache := cache_assign s._cache w.param_name w.param_value,
           _timeout := unregister_timeout_handler s._timeout },
          call_set w.callback Result.SUCCESS ++ [Effect.unregister_timeout_handler])
      else if m.param_result = PARAM_ACK_IN_PROGRESS then
        ({ _set_param_queue := w :: rest, _get_param_queue := s._get_param_queue,
           _cache := s._cache, _timeout := refresh_timeout_handler s._timeout },
          [Effect.refresh_timeout_handler])
      else
        ({ _set_param_queue := rest, _get_param_queue := s._get_param_queue,
           _cache := s._cache, _timeout := unregister_timeout_handler s._timeout },
          call_set w.callback Result.TIMEOUT ++ [Effect.unregister_timeout_handler]) := by
  unfold process_param_ext_ack
  rw [hq]
  simp [hw, hm, pop_front, return_front]

/-- C3: for a name longer than `PARAM_ID_LEN`, in any state and with any value,
expected type and extended flag, `set_param_async` and `get_param_async` return
the state unchanged (both queues, cache, timeout) and their only call is the one
invocation of the non-null callback with `PARAM_NAME_TOO_LONG` (and the default
empty value for a get), so nothing is sent; with a null callback they do
nothing. For a name of length at most `PARAM_ID_LEN` no callback is invoked
with `PARAM_NAME_TOO_LONG`. -/
theorem name_too_long_rejected {PV : Type} (D : Deps PV) (s : State PV)
    (long short : List Nat) (value value_type : PV) (cb : Nat) (callback : Option Nat)
    (extended : Bool) (hlong : long.length > D.PARAM_ID_LEN)
    (hshort : short.length ≤ D.PARAM_ID_LEN) :
    set_param_async D s long value (some cb) extended =
      (s, [Effect.set_callback cb Result.PARAM_NAME_TOO_LONG]) ∧
    get_param_async D s long value_type (some cb) extended =
      (s, [Effect.get_callback cb Result.PARAM_NAME_TOO_LONG D.empty_param]) ∧
    set_param_async D s long value none extended = (s, []) ∧
    get_param_async D s long value_type none extended = (s, []) ∧
    (∀ c : Nat, Effect.set_callback c Result.PARAM_NAME_TOO_LONG ∉
      (set_param_async D s short value callback extended).2) ∧
    (∀ (c : Nat) (v : PV), Effect.get_callback c Result.PARAM_NAME_TOO_LONG v ∉
      (get_param_async D s short value_type callback extended).2) := by
  have hs : ¬ short.length > D.PARAM_ID_LEN := Nat.not_lt.mpr hshort
  refine ⟨?_, ?_, ?_, ?_, ?_, ?_⟩
  · simp [set_param_async, hlong, call_set]
  · simp [get_param_async, hlong, call_get]
  · simp [set_param_async, hlong, call_set]
  · simp [get_param_async, hlong, call_get]
  · intro c
    simp [set_param_async, hs]
  · intro c v
    unfold get_param_async
    rw [if_neg hs]
    split
    · cases callback <;> simp [call_get]
    · simp

/-- Witness of C3: a 17-byte name and the 1-byte name "A" with 16-byte
identifiers, in the state where both heads are in flight. -/
theorem name_too_long_rejected_witness :
    name17.length > deps16.PARAM_ID_LEN ∧ [65].length ≤ deps16.PARAM_ID_LEN ∧
    (set_param_async deps16 state_two_sets_one_get name17 (real32 1) (some 9) true =
      (state_two_sets_one_get, [Effect.set_callback 9 Result.PARAM_NAME_TOO_LONG]) ∧
    get_param_async deps16 state_two_sets_one_get name17 (int32 0) (some 9) true =
      (state_two_sets_one_get,
        [Effect.get_callback 9 Result.PARAM_NAME_TOO_LONG deps16.empty_param]) ∧
    set_param_async deps16 state_two_sets_one_get name17 (real32 1) none true =
      (state_two_sets_one_get, []) ∧
    get_param_async deps16 state_two_sets_one_get name17 (int32 0) none true =
      (state_two_sets_one_get, []) ∧
    (∀ c : Nat, Effect.set_callback c Result.PARAM_NAME_TOO_LONG ∉
      (set_param_async deps16 state_two_sets_one_get [65] (real32 1) (some 4) true).2) ∧
    (∀ (c : Nat) (v : ParamValue), Effect.get_callback c Result.PARAM_NAME_TOO_LONG v ∉
      (get_param_async deps16 state_two_sets_one_get [65] (int32 0) (some 4) true).2)) :=
  ⟨by decide, by decide,
    name_too_long_rejected deps16 state_two_sets_one_get name17 [65] (real32 1) (int32 0) 9
      (some 4) true (by decide) (by decide)⟩

/-- C4: in any state `s`, for a name of length at most `PARAM_ID_LEN` that is a
key of the cache, `get_param_async` returns the state unchanged (queues, cache,
timeout) and its only call is the one invocation of the callback with `SUCCESS`
and the cached value, whatever the expected type and the extended flag (the
expected type is not compared with the cached value); nothing is sent. In any
state `s2`, for a name of length at most `PARAM_ID_LEN` that is not a key of the
cache of `s2`, no call is made and one item with that name, expected type and
extended flag, not yet requested, is appended at the back of the get queue. -/
theorem cached_get_answered {PV : Type} (D : Deps PV) (s s2 : State PV)
    (name miss : List Nat) (value_type cached : PV) (cb : Nat) (callback : Option Nat)
    (extended : Bool)
    (hlen : name.length ≤ D.PARAM_ID_LEN) (hhit : cache_find s._cache name = some cached)
    (hlen2 : miss.length ≤ D.PARAM_ID_LEN) (hmiss : cache_find s2._cache miss = none) :
    get_param_async D s name value_type (some cb) extended =
      (s, [Effect.get_callback cb Result.SUCCESS cached]) ∧
    get_param_async D s name value_type none extended = (s, []) ∧
    get_param_async D s2 miss value_type callback extended =
      ({ _set_param_queue := s2._set_param_queue,
         _get_param_queue := s2._get_param_queue ++
           [{ callback := callback, param_name := miss, param_value_type := value_type,
              extended := extended, already_requested := false }],
         _cache := s2._cache, _timeout := s2._timeout }, []) := by
  have h1 : ¬ name.length > D.PARAM_ID_LEN := Nat.not_lt.mpr hlen
  have h2 : ¬ miss.length > D.PARAM_ID_LEN := Nat.not_lt.mpr hlen2
  refine ⟨?_, ?_, ?_⟩
  · simp [get_param_async, h1, hhit, call_get]
  · simp [get_param_async, h1, hhit, call_get]
  · simp [get_param_async, h2, hmiss, push_back]

/-- Witness of C4: "B" is cached as a float32 after its get was answered; a get
of "B" expecting an int32 is answered from the cache. On the engine as
constructed, with an empty cache and empty queues, a get of "C" is queued. -/
theorem cached_get_answered_witness :
    [66].length ≤ deps16.PARAM_ID_LEN ∧
    cache_find state_get_answered_first._cache [66] = some (real32 5) ∧
    [67].length ≤ deps16.PARAM_ID_LEN ∧
    cache_find (State.init ParamValue)._cache [67] = none ∧
    (get_param_async deps16 state_get_answered_first [66] (int32 0) (some 9) true =
      (state_get_answered_first, [Effect.get_callback 9 Result.SUCCESS (real32 5)]) ∧
    get_param_async deps16 state_get_answered_first [66] (int32 0) none true =
      (state_get_answered_first, []) ∧
    get_param_async deps16 (State.init ParamValue) [67] (int32 0) (some 4) true =
      ({ _set_param_queue := (State.init ParamValue)._set_param_queue,
         _get_param_queue := (State.init ParamValue)._get_param_queue ++
           [{ callback := some 4, param_name := [67], param_value_type := int32 0,
              extended := true, already_requested := false }],
         _cache := (State.init ParamValue)._cache,
         _timeout := (State.init ParamValue)._timeout }, [])) :=
  ⟨by decide, by decide, by decide, by decide,
    cached_get_answered deps16 state_get_answered_first (State.init ParamValue) [66] [67]
      (int32 0) (real32 5) 9 (some 4) true (by decide) (by decide) (by decide) (by decide)⟩

theorem cache_updated_assign {PV : Type} (c : List (List Nat × PV)) (name : List Nat)
    (value : PV) : cache_updated c (cache_assign c name value) name value :=
  ⟨cache_find_assign_same c name value,
    fun key hne => cache_find_assign_other c name key value hne⟩

theorem get_head_resolved_intro {PV : Type} (s : State PV) (w : GetParamWork PV)
    (rest : List (GetParamWork PV)) (result : Result) (value : PV)
    (c : List (List Nat × PV)) :
    get_head_resolved s w rest result value
      (({ _set_param_queue := s._set_param_queue, _get_param_queue := rest, _cache := c,
          _timeout := unregister_timeout_handler s._timeout } : State PV),
        call_get w.callback result value ++ [Effect.unregister_timeout_handler]) := by
  refine ⟨?_, ?_, rfl, rfl, rfl⟩
  · intro cb hcb
    simp [hcb, call_get]
  · intro hcb
    simp [hcb, call_get]

theorem set_head_resolved_intro {PV : Type} (s : State PV) (w : SetParamWork PV)
    (rest : List (SetParamWork PV)) (result : Result) (c : List (List Nat × PV)) :
    set_head_resolved s w rest result
      (({ _set_param_queue := rest, _get_param_queue := s._get_param_queue, _cache := c,
          _timeout := unregister_timeout_handler s._timeout } : State PV),
        call_set w.callback result ++ [Effect.unregister_timeout_handler]) := by
  refine ⟨?_, ?_, rfl, rfl, rfl⟩
  · intro cb hcb
    simp [hcb, call_set]
  · intro hcb
    simp [hcb, call_set]

/-- C5: when the head `w` of the get queue of `s` is in flight, a `PARAM_VALUE`
whose `param_id` matches the name of `w` under `strncmp` over `PARAM_ID_LEN`
bytes and whose decoded value has the type expected by `w` makes
`process_param_value` invoke the callback of `w` exactly once with `SUCCESS` and
the decoded value, bind the name of `w` to the decoded value in the cache with
all other keys unchanged, disarm the timeout, and remove exactly the head of the
get queue; the rest of the get queue and the set queue are unchanged. The same
holds, for any state `sx` with any in-flight get head `wx` (of any expected
type), for a matching `PARAM_EXT_VALUE` of the expected type under
`process_param_ext_value`. -/
theorem get_response_resolves_head {PV : Type} (D : Deps PV) (s sx : State PV)
    (w : GetParamWork PV) (rest : List (GetParamWork PV)) (m : mavlink_param_value_t)
    (wx : GetParamWork PV) (restx : List (GetParamWork PV)) (mx : mavlink_param_ext_value_t)
    (hq : s._get_param_queue = w :: rest) (hw : w.already_requested = true)
    (hm : strncmp w.param_name m.param_id D.PARAM_ID_LEN = 0)
    (ht : D.is_same_type (D.set_from_mavlink_param_value m) w.param_value_type = true)
    (hqx : sx._get_param_queue = wx :: restx) (hwx : wx.already_requested = true)
    (hmx : strncmp wx.param_name mx.param_id D.PARAM_ID_LEN = 0)
    (htx : D.is_same_type (D.set_from_mavlink_param_ext_value mx) wx.param_value_type =
      true) :
    (get_head_resolved s w rest Result.SUCCESS (D.set_from_mavlink_param_value m)
        (process_param_value D s m) ∧
      cache_updated s._cache (process_param_value D s m).1._cache w.param_name
        (D.set_from_mavlink_param_value m)) ∧
    (get_head_resolved sx wx restx Result.SUCCESS (D.set_from_mavlink_param_ext_value mx)
        (process_param_ext_value D sx mx) ∧
      cache_updated sx._cache (process_param_ext_value D sx mx).1._cache wx.param_name
        (D.set_from_mavlink_param_ext_value mx)) := by
  rw [process_param_value_get_resolved D s m w rest hq hw hm, if_pos ht,
    process_param_ext_value_get_resolved D sx mx wx restx hqx hwx hmx, if_pos htx]
  exact ⟨⟨get_head_resolved_intro s w rest _ _ _, cache_updated_assign _ _ _⟩,
    ⟨get_head_resolved_intro sx wx restx _ _ _, cache_updated_assign _ _ _⟩⟩

/-- Witness of C5: the get of "C" expecting a float32 is in flight and a
`PARAM_VALUE` for "C" of type 9 resolves it; the extended get of "S" expecting a
string (type 11) is in flight and a `PARAM_EXT_VALUE` for "S" of type 11
carrying "hi" resolves it. -/
theorem get_response_resolves_head_witness :
    state_two_sets_one_get._get_param_queue = get_C_in_flight :: [] ∧
    get_C_in_flight.already_requested = true ∧
    strncmp get_C_in_flight.param_name (param_value_msg [67] 9 5).param_id
      deps16.PARAM_ID_LEN = 0 ∧
    state_get_string_in_flight._get_param_queue = get_S_in_flight :: [] ∧
    get_S_in_flight.already_requested = true ∧
    strncmp get_S_in_flight.param_name (param_ext_value_msg [83] 11 [104, 105]).param_id
      deps16.PARAM_ID_LEN = 0 ∧
    process_param_value deps16 state_two_sets_one_get (param_value_msg [67] 9 5) =
      ({ _set_param_queue := [set_A_in_flight, set_B_waiting], _get_param_queue := [],
         _cache := [([67], real32 5)], _timeout := { armed := false } },
        [Effect.get_callback 3 Result.SUCCESS (real32 5), Effect.unregister_timeout_handler]) ∧
    process_param_ext_value deps16 state_get_string_in_flight
        (param_ext_value_msg [83] 11 [104, 105]) =
      ({ _set_param_queue := [], _get_param_queue := [],
         _cache := [([83], custom [104, 105])], _timeout := { armed := false } },
        [Effect.get_callback 6 Result.SUCCESS (custom [104, 105]),
          Effect.unregister_timeout_handler]) ∧
    ((get_head_resolved state_two_sets_one_get get_C_in_flight [] Result.SUCCESS
        (deps16.set_from_mavlink_param_value (param_value_msg [67] 9 5))
        (process_param_value deps16 state_two_sets_one_get (param_value_msg [67] 9 5)) ∧
      cache_updated state_two_sets_one_get._cache
        (process_param_value deps16 state_two_sets_one_get (param_value_msg [67] 9 5)).1._cache
        get_C_in_flight.param_name
        (deps16.set_from_mavlink_param_value (param_value_msg [67] 9 5))) ∧
    (get_head_resolved state_get_string_in_flight get_S_in_flight [] Result.SUCCESS
        (deps16.set_from_mavlink_param_ext_value (param_ext_value_msg [83] 11 [104, 105]))
        (process_param_ext_value deps16 state_get_string_in_flight
          (param_ext_value_msg [83] 11 [104, 105])) ∧
      cache_updated state_get_string_in_flight._cache
        (process_param_ext_value deps16 state_get_string_in_flight
          (param_ext_value_msg [83] 11 [104, 105])).1._cache
        get_S_in_flight.param_name
        (deps16.set_from_mavlink_param_ext_value
          (param_ext_value_msg [83] 11 [104, 105])))) :=
  ⟨by decide, by decide, by decide, by decide, by decide, by decide, by decide, by decide,
    get_response_resolves_head deps16 state_two_sets_one_get state_get_string_in_flight
      get_C_in_flight [] (param_value_msg [67] 9 5) get_S_in_flight []
      (param_ext_value_msg [83] 11 [104, 105])
      (by decide) (by decide) (by decide) (by decide) (by decide) (by decide) (by decide)
      (by decide)⟩

/-- C6: when the head `w` of the get queue is in flight, a `PARAM_VALUE` or
`PARAM_EXT_VALUE` whose `param_id` matches the name of `w` but whose decoded
value is not of the type expected by `w` makes the handler invoke the callback
of `w` exactly once with `WRONG_TYPE` and the default empty value, leave the
cache unchanged, disarm the timeout and remove the head of the get queue. -/
theorem get_response_wrong_type {PV : Type} (D : Deps PV) (s : State PV)
    (w : GetParamWork PV) (rest : List (GetParamWork PV)) (m : mavlink_param_value_t)
    (mx : mavlink_param_ext_value_t)
    (hq : s._get_param_queue = w :: rest) (hw : w.already_requested = true)
    (hm : strncmp w.param_name m.param_id D.PARAM_ID_LEN = 0)
    (ht : D.is_same_type (D.set_from_mavlink_param_value m) w.param_value_type = false)
    (hmx : strncmp w.param_name mx.param_id D.PARAM_ID_LEN = 0)
    (htx : D.is_same_type (D.set_from_mavlink_param_ext_value mx) w.param_value_type = false) :
    (get_head_resolved s w rest Result.WRONG_TYPE D.empty_param (process_param_value D s m) ∧
      (process_param_value D s m).1._cache = s._cache) ∧
    (get_head_resolved s w rest Result.WRONG_TYPE D.empty_param
        (process_param_ext_value D s mx) ∧
      (process_param_ext_value D s mx).1._cache = s._cache) := by
  have ht2 : ¬ D.is_same_type (D.set_from_mavlink_param_value m) w.param_value_type = true := by
    simp [ht]
  have htx2 :
      ¬ D.is_same_type (D.set_from_mavlink_param_ext_value mx) w.param_value_type = true := by
    simp [htx]
  rw [process_param_value_get_resolved D s m w rest hq hw hm, if_neg ht2,
    process_param_ext_value_get_resolved D s mx w rest hq hw hmx, if_neg htx2]
  exact ⟨⟨get_head_resolved_intro s w rest _ _ _, rfl⟩,
    ⟨get_head_resolved_intro s w rest _ _ _, rfl⟩⟩

/-- Witness of C6: the get of "C" expects a float32 (type 9) and the device
answers with an int32 (type 6). -/
theorem get_response_wrong_type_witness :
    state_two_sets_one_get._get_param_queue = get_C_in_flight :: [] ∧
    get_C_in_flight.already_requested = true ∧
    strncmp get_C_in_flight.param_name (param_value_msg [67] 6 5).param_id
      deps16.PARAM_ID_LEN = 0 ∧
    deps16.is_same_type (deps16.set_from_mavlink_param_value (param_value_msg [67] 6 5))
      get_C_in_flight.param_value_type = false ∧
    process_param_value deps16 state_two_sets_one_get (param_value_msg [67] 6 5) =
      ({ _set_param_queue := [set_A_in_flight, set_B_waiting], _get_param_queue := [],
         _cache := [], _timeout := { armed := false } },
        [Effect.get_callback 3 Result.WRONG_TYPE deps16.empty_param,
          Effect.unregister_timeout_handler]) ∧
    ((get_head_resolved state_two_sets_one_get get_C_in_flight [] Result.WRONG_TYPE
        deps16.empty_param
        (process_param_value deps16 state_two_sets_one_get (param_value_msg [67] 6 5)) ∧
      (process_param_value deps16 state_two_sets_one_get (param_value_msg [67] 6 5)).1._cache =
        state_two_sets_one_get._cache) ∧
    (get_head_resolved state_two_sets_one_get get_C_in_flight [] Result.WRONG_TYPE
        deps16.empty_param
        (process_param_ext_value deps16 state_two_sets_one_get
          (param_ext_value_msg [67] 6 [5])) ∧
      (process_param_ext_value deps16 state_two_sets_one_get
        (param_ext_value_msg [67] 6 [5])).1._cache = state_two_sets_one_get._cache)) :=
  ⟨by decide, by decide, by decide, by decide, by decide,
    get_response_wrong_type deps16 state_two_sets_one_get get_C_in_flight []
      (param_value_msg [67] 6 5) (param_ext_value_msg [67] 6 [5])
      (by decide) (by decide) (by decide) (by decide) (by decide) (by decide)⟩

/-- C7: when the get queue is not empty and its head is not in flight or the
`param_id` of a `PARAM_VALUE` does not match the name of the head,
`process_param_value` makes no call (no callback) and returns the state as it
was: same get queue with the same head and flag, same set queue, cache and
timeout, whatever the set queue holds (the set queue is not looked at). -/
theorem unmatched_value_ignored {PV : Type} (D : Deps PV) (s : State PV)
    (w : GetParamWork PV) (rest : List (GetParamWork PV)) (m : mavlink_param_value_t)
    (hq : s._get_param_queue = w :: rest)
    (hw : w.already_requested = false ∨ strncmp w.param_name m.param_id D.PARAM_ID_LEN ≠ 0) :
    process_param_value D s m = (s, []) :=
  process_param_value_get_ignored D s m w rest hq hw

/-- Witness of C7: the get of "C" is in flight and a `PARAM_VALUE` for "A"
arrives, while the set of "A" is in flight at the head of the set queue and
matches the message. -/
theorem unmatched_value_ignored_witness :
    state_two_sets_one_get._get_param_queue = get_C_in_flight :: [] ∧
    strncmp get_C_in_flight.param_name (param_value_msg [65] 9 5).param_id
      deps16.PARAM_ID_LEN ≠ 0 ∧
    state_two_sets_one_get._set_param_queue = [set_A_in_flight, set_B_waiting] ∧
    set_A_in_flight.already_requested = true ∧
    strncmp set_A_in_flight.param_name (param_value_msg [65] 9 5).param_id
      deps16.PARAM_ID_LEN = 0 ∧
    process_param_value deps16 state_two_sets_one_get (param_value_msg [65] 9 5) =
      (state_two_sets_one_get, []) :=
  ⟨by decide, by decide, by decide, by decide, by decide,
    unmatched_value_ignored deps16 state_two_sets_one_get get_C_in_flight []
      (param_value_msg [65] 9 5) (by decide) (Or.inr (by decide))⟩

/-- C8: when the get queue is empty and the head `w` of the set queue is in
flight, a `PARAM_VALUE` whose `param_id` matches the name of `w` makes
`process_param_value` invoke the callback of `w` exactly once with `SUCCESS`,
bind the name of `w` in the cache to the value stored in `w` (not to the value
of the message), disarm the timeout and remove the head of the set queue. When
the get queue of a state `s2` is empty and its set queue is empty, or its head
is not in flight, or its head does not match, the state is returned as it was
and no call is made. -/
theorem value_acknowledges_set {PV : Type} (D : Deps PV) (s s2 : State PV)
    (w : SetParamWork PV) (rest : List (SetParamWork PV)) (m m2 : mavlink_param_value_t)
    (hg : s._get_param_queue = []) (hq : s._set_param_queue = w :: rest)
    (hw : w.already_requested = true)
    (hm : strncmp w.param_name m.param_id D.PARAM_ID_LEN = 0)
    (hg2 : s2._get_param_queue = [])
    (hq2 : s2._set_param_queue = [] ∨
      ∃ (w2 : SetParamWork PV) (rest2 : List (SetParamWork PV)),
        s2._set_param_queue = w2 :: rest2 ∧
        (w2.already_requested = false ∨
          strncmp w2.param_name m2.param_id D.PARAM_ID_LEN ≠ 0)) :
    set_head_resolved s w rest Result.SUCCESS (process_param_value D s m) ∧
    cache_updated s._cache (process_param_value D s m).1._cache w.param_name w.param_value ∧
    process_param_value D s2 m2 = (s2, []) := by
  rw [process_param_value_set_resolved D s m w rest hg hq hw hm]
  refine ⟨?_, cache_updated_assign _ _ _, process_param_value_set_ignored D s2 m2 hg2 hq2⟩
  have h := set_head_resolved_intro s w rest Result.SUCCESS
    (cache_assign s._cache w.param_name w.param_value)
  rw [hg] at h
  exact h

/-- Witness of C8: the get queue is empty and the set of "A" with value 7 is in
flight; a `PARAM_VALUE` for "A" carrying 5 resolves it and 7 is cached, a
`PARAM_VALUE` for "B" changes nothing. -/
theorem value_acknowledges_set_witness :
    state_get_answered_first._get_param_queue = [] ∧
    state_get_answered_first._set_param_queue = set_A_in_flight :: [] ∧
    set_A_in_flight.already_requested = true ∧
    strncmp set_A_in_flight.param_name (param_value_msg [65] 9 5).param_id
      deps16.PARAM_ID_LEN = 0 ∧
    strncmp set_A_in_flight.param_name (param_value_msg [66] 9 5).param_id
      deps16.PARAM_ID_LEN ≠ 0 ∧
    process_param_value deps16 state_get_answered_first (param_value_msg [65] 9 5) =
      ({ _set_param_queue := [], _get_param_queue := [],
         _cache := [([66], real32 5), ([65], real32 7)], _timeout := { armed := false } },
        [Effect.set_callback 1 Result.SUCCESS, Effect.unregister_timeout_handler]) ∧
    (set_head_resolved state_get_answered_first set_A_in_flight [] Result.SUCCESS
      (process_param_value deps16 state_get_answered_first (param_value_msg [65] 9 5)) ∧
    cache_updated state_get_answered_first._cache
      (process_param_value deps16 state_get_answered_first (param_value_msg [65] 9 5)).1._cache
      set_A_in_flight.param_name set_A_in_flight.param_value ∧
    process_param_value deps16 state_get_answered_first (param_value_msg [66] 9 5) =
      (state_get_answered_first, [])) :=
  ⟨by decide, by decide, by decide, by decide, by decide, by decide,
    value_acknowledges_set deps16 state_get_answered_first state_get_answered_first
      set_A_in_flight [] (param_value_msg [65] 9 5) (param_value_msg [66] 9 5)
      (by decide) (by decide) (by decide) (by decide) (by decide)
      (Or.inr ⟨set_A_in_flight, [], by decide, Or.inr (by decide)⟩)⟩

/-- C9: when the head `w` of the set queue is in flight, a `PARAM_EXT_ACK` whose
`param_id` matches the name of `w` and whose result is `PARAM_ACK_ACCEPTED`
makes `process_param_ext_ack` invoke the callback of `w` exactly once with
`SUCCESS`, bind the name of `w` in the cache to the value submitted in `w`,
disarm the timeout and remove the head of the set queue; the get queue is
unchanged. -/
theorem accepted_ack_resolves_set {PV : Type} (D : Deps PV) (s : State PV)
    (w : SetParamWork PV) (rest : List (SetParamWork PV)) (m : mavlink_param_ext_ack_t)
    (hq : s._set_param_queue = w :: rest) (hw : w.already_requested = true)
    (hm : strncmp w.param_name m.param_id D.PARAM_ID_LEN = 0)
    (hr : m.param_result = PARAM_ACK_ACCEPTED) :
    set_head_resolved s w rest Result.SUCCESS (process_param_ext_ack D s m) ∧
    cache_updated s._cache (process_param_ext_ack D s m).1._cache w.param_name
      w.param_value := by
  rw [process_param_ext_ack_matched D s m w rest hq hw hm, if_pos hr]
  exact ⟨set_head_resolved_intro s w rest _ _, cache_updated_assign _ _ _⟩

/-- Witness of C9: the set of "A" with value 7 is in flight (and so is the get
of "C"); an accepted `PARAM_EXT_ACK` for "A" resolves it. -/
theorem accepted_ack_resolves_set_witness :
    state_two_sets_one_get._set_param_queue = set_A_in_flight :: [set_B_waiting] ∧
    set_A_in_flight.already_requested = true ∧
    strncmp set_A_in_flight.param_name (param_ext_ack_msg [65] 0).param_id
      deps16.PARAM_ID_LEN = 0 ∧
    (param_ext_ack_msg [65] 0).param_result = PARAM_ACK_ACCEPTED ∧
    process_param_ext_ack deps16 state_two_sets_one_get (param_ext_ack_msg [65] 0) =
      ({ _set_param_queue := [set_B_waiting], _get_param_queue := [get_C_in_flight],
         _cache := [([65], real32 7)], _timeout := { armed := false } },
        [Effect.set_callback 1 Result.SUCCESS, Effect.unregister_timeout_handler]) ∧
    (set_head_resolved state_two_sets_one_get set_A_in_flight [set_B_waiting] Result.SUCCESS
      (process_param_ext_ack deps16 state_two_sets_one_get (param_ext_ack_msg [65] 0)) ∧
    cache_updated state_two_sets_one_get._cache
      (process_param_ext_ack deps16 state_two_sets_one_get (param_ext_ack_msg [65] 0)).1._cache
      set_A_in_flight.param_name set_A_in_flight.param_value) :=
  ⟨by decide, by decide, by decide, by decide, by decide,
    accepted_ack_resolves_set deps16 state_two_sets_one_get set_A_in_flight [set_B_waiting]
      (param_ext_ack_msg [65] 0) (by decide) (by decide) (by decide) (by decide)⟩

/-- C10: when the head `w` of the set queue is in flight, a `PARAM_EXT_ACK`
whose `param_id` matches the name of `w` and whose result is
`PARAM_ACK_IN_PROGRESS` makes `process_param_ext_ack` call
`refresh_timeout_handler` and nothing else (no callback, no
`unregister_timeout_handler`); the timeout is armed afterwards, and the set
queue (head still `w`, still in flight), the get queue and the cache are
unchanged. -/
theorem in_progress_ack_refreshes {PV : Type} (D : Deps PV) (s : State PV)
    (w : SetParamWork PV) (rest : List (SetParamWork PV)) (m : mavlink_param_ext_ack_t)
    (hq : s._set_param_queue = w :: rest) (hw : w.already_requested = true)
    (hm : strncmp w.param_name m.param_id D.PARAM_ID_LEN = 0)
    (hr : m.param_result = PARAM_ACK_IN_PROGRESS) :
    (process_param_ext_ack D s m).2 = [Effect.refresh_timeout_handler] ∧
    (process_param_ext_ack D s m).1._timeout = refresh_timeout_handler s._timeout ∧
    (process_param_ext_ack D s m).1._timeout.armed = true ∧
    (process_param_ext_ack D s m).1._set_param_queue = s._set_param_queue ∧
    set_head_in_flight (process_param_ext_ack D s m).1._set_param_queue = true ∧
    (process_param_ext_ack D s m).1._get_param_queue = s._get_param_queue ∧
    (process_param_ext_ack D s m).1._cache = s._cache := by
  have hna : ¬ m.param_result = PARAM_ACK_ACCEPTED := by
    rw [hr]
    decide
  rw [process_param_ext_ack_matched D s m w rest hq hw hm, if_neg hna, if_pos hr]
  refine ⟨rfl, rfl, rfl, hq.symm, ?_, rfl, rfl⟩
  simpa [set_head_in_flight] using hw

/-- Witness of C10: the set of "A" is in flight and the timeout is armed; an
in-progress `PARAM_EXT_ACK` for "A" leaves everything in place. -/
theorem in_progress_ack_refreshes_witness :
    state_two_sets_one_get._set_param_queue = set_A_in_flight :: [set_B_waiting] ∧
    set_A_in_flight.already_requested = true ∧
    strncmp set_A_in_flight.param_name (param_ext_ack_msg [65] 3).param_id
      deps16.PARAM_ID_LEN = 0 ∧
    (param_ext_ack_msg [65] 3).param_result = PARAM_ACK_IN_PROGRESS ∧
    process_param_ext_ack deps16 state_two_sets_one_get (param_ext_ack_msg [65] 3) =
      (state_two_sets_one_get, [Effect.refresh_timeout_handler]) ∧
    ((process_param_ext_ack deps16 state_two_sets_one_get (param_ext_ack_msg [65] 3)).2 =
      [Effect.refresh_timeout_handler] ∧
    (process_param_ext_ack deps16 state_two_sets_one_get
      (param_ext_ack_msg [65] 3)).1._timeout =
      refresh_timeout_handler state_two_sets_one_get._timeout ∧
    (process_param_ext_ack deps16 state_two_sets_one_get
      (param_ext_ack_msg [65] 3)).1._timeout.armed = true ∧
    (process_param_ext_ack deps16 state_two_sets_one_get
      (param_ext_ack_msg [65] 3)).1._set_param_queue =
      state_two_sets_one_get._set_param_queue ∧
    set_head_in_flight (process_param_ext_ack deps16 state_two_sets_one_get
      (param_ext_ack_msg [65] 3)).1._set_param_queue = true ∧
    (process_param_ext_ack deps16 state_two_sets_one_get
      (param_ext_ack_msg [65] 3)).1._get_param_queue =
      state_two_sets_one_get._get_param_queue ∧
    (process_param_ext_ack deps16 state_two_sets_one_get
      (param_ext_ack_msg [65] 3)).1._cache = state_two_sets_one_get._cache) :=
  ⟨by decide, by decide, by decide, by decide, by decide,
    in_progress_ack_refreshes deps16 state_two_sets_one_get set_A_in_flight [set_B_waiting]
      (param_ext_ack_msg [65] 3) (by decide) (by decide) (by decide) (by decide)⟩

/-- C11: when the head `w` of the set queue is in flight, a `PARAM_EXT_ACK`
whose `param_id` matches the name of `w` and whose result is neither
`PARAM_ACK_ACCEPTED` nor `PARAM_ACK_IN_PROGRESS` makes `process_param_ext_ack`
invoke the callback of `w` exactly once with `TIMEOUT`, leave the cache
unchanged, disarm the timeout and remove the head of the set queue. -/
theorem rejected_ack_reports_timeout {PV : Type} (D : Deps PV) (s : State PV)
    (w : SetParamWork PV) (rest : List (SetParamWork PV)) (m : mavlink_param_ext_ack_t)
    (hq : s._set_param_queue = w :: rest) (hw : w.already_requested = true)
    (hm : strncmp w.param_name m.param_id D.PARAM_ID_LEN = 0)
    (hna : m.param_result ≠ PARAM_ACK_ACCEPTED)
    (hnp : m.param_result ≠ PARAM_ACK_IN_PROGRESS) :
    set_head_resolved s w rest Result.TIMEOUT (process_param_ext_ack D s m) ∧
    (process_param_ext_ack D s m).1._cache = s._cache := by
  rw [process_param_ext_ack_matched D s m w rest hq hw hm, if_neg hna, if_neg hnp]
  exact ⟨set_head_resolved_intro s w rest _ _, rfl⟩

/-- Witness of C11: the set of "A" is in flight and a `PARAM_EXT_ACK` for "A"
with result 2 (`PARAM_ACK_FAILED`) arrives. -/
theorem rejected_ack_reports_timeout_witness :
    state_two_sets_one_get._set_param_queue = set_A_in_flight :: [set_B_waiting] ∧
    set_A_in_flight.already_requested = true ∧
    strncmp set_A_in_flight.param_name (param_ext_ack_msg [65] 2).param_id
      deps16.PARAM_ID_LEN = 0 ∧
    (param_ext_ack_msg [65] 2).param_result ≠ PARAM_ACK_ACCEPTED ∧
    (param_ext_ack_msg [65] 2).param_result ≠ PARAM_ACK_IN_PROGRESS ∧
    process_param_ext_ack deps16 state_two_sets_one_get (param_ext_ack_msg [65] 2) =
      ({ _set_param_queue := [set_B_waiting], _get_param_queue := [get_C_in_flight],
         _cache := [], _timeout := { armed := false } },
        [Effect.set_callback 1 Result.TIMEOUT, Effect.unregister_timeout_handler]) ∧
    (set_head_resolved state_two_sets_one_get set_A_in_flight [set_B_waiting] Result.TIMEOUT
      (process_param_ext_ack deps16 state_two_sets_one_get (param_ext_ack_msg [65] 2)) ∧
    (process_param_ext_ack deps16 state_two_sets_one_get (param_ext_ack_msg [65] 2)).1._cache =
      state_two_sets_one_get._cache) :=
  ⟨by decide, by decide, by decide, by decide, by decide, by decide,
    rejected_ack_reports_timeout deps16 state_two_sets_one_get set_A_in_flight [set_B_waiting]
      (param_ext_ack_msg [65] 2) (by decide) (by decide) (by decide) (by decide) (by decide)⟩

theorem do_work_get_send_failed {PV : Type} (D : Deps PV)
    (send_message : mavlink_message_t → Bool) (s : State PV) (w : GetParamWork PV)
    (rest : List (GetParamWork PV)) (hq : s._get_param_queue = w :: rest)
    (hw : w.already_requested = false) (hs : send_message (get_message D w) = false) :
    do_work_get D send_message s =
      ({ _set_param_queue := s._set_param_queue, _get_param_queue := rest, _cache := s._cache,
         _timeout := s._timeout },
        Effect.send_message (get_message D w) false ::
          call_get w.callback Result.CONNECTION_ERROR D.empty_param) := by
  unfold do_work_get
  rw [hq]
  simp [hw, hs, pop_front]

theorem do_work_get_send_ok {PV : Type} (D : Deps PV)
    (send_message : mavlink_message_t → Bool) (s : State PV) (w : GetParamWork PV)
    (rest : List (GetParamWork PV)) (hq : s._get_param_queue = w :: rest)
    (hw : w.already_requested = false) (hs : send_message (get_message D w) = true) :
    do_work_get D send_message s =
      ({ _set_param_queue := s._set_param_queue,
         _get_param_queue := { w with already_requested := true } :: rest, _cache := s._cache,
         _timeout := register_timeout_handler s._timeout },
        [Effect.send_message (get_message D w) true, Effect.register_timeout_handler]) := by
  unfold do_work_get
  rw [hq]
  simp [hw, hs, return_front]

theorem do_work_get_idle {PV : Type} (D : Deps PV)
    (send_message : mavlink_message_t → Bool) (s : State PV)
    (hq : s._get_param_queue = [] ∨ get_head_in_flight s._get_param_queue = true) :
    do_work_get D send_message s = (s, []) := by
  obtain ⟨sq, gq, c, t⟩ := s
  cases gq with
  | nil => simp [do_work_get]
  | cons w rest =>
    rcases hq with hq | hq
    · simp at hq
    · simp only [get_head_in_flight] at hq
      simp [do_work_get, hq, return_front]

theorem do_work_set_idle {PV : Type} (D : Deps PV)
    (send_message : mavlink_message_t → Bool) (s : State PV)
    (hq : s._set_param_queue = [] ∨ set_head_in_flight s._set_param_queue = true) :
    do_work D send_message s = do_work_get D send_message s := by
  obtain ⟨sq, gq, c, t⟩ := s
  cases sq with
  | nil => simp [do_work]
  | cons w rest =>
    rcases hq with hq | hq
    · simp at hq
    · simp only [set_head_in_flight] at hq
      simp [do_work, hq, return_front]

theorem do_work_set_send_failed {PV : Type} (D : Deps PV)
    (send_message : mavlink_message_t → Bool) (s : State PV) (w : SetParamWork PV)
    (rest : List (SetParamWork PV)) (hq : s._set_param_queue = w :: rest)
    (hw : w.already_requested = false) (hs : send_message (set_message D w) = false) :
    do_work D send_message s =
      ({ _set_param_queue := rest, _get_param_queue := s._get_param_queue, _cache := s._cache,
         _timeout := s._timeout },
        Effect.send_message (set_message D w) false ::
          call_set w.callback Result.CONNECTION_ERROR) := by
  unfold do_work
  rw [hq]
  simp [hw, hs, pop_front]

theorem do_work_set_send_ok {PV : Type} (D : Deps PV)
    (send_message : mavlink_message_t → Bool) (s : State PV) (w : SetParamWork PV)
    (rest : List (SetParamWork PV)) (hq : s._set_param_queue = w :: rest)
    (hw : w.already_requested = false) (hs : send_message (set_message D w) = true) :
    do_work D send_message s =
      ((do_work_get D send_message
          { _set_param_queue := { w with already_requested := true } :: rest,
            _get_param_queue := s._get_param_queue, _cache := s._cache,
            _timeout := register_timeout_handler s._timeout }).1,
        [Effect.send_message (set_message D w) true, Effect.register_timeout_handler] ++
          (do_work_get D send_message
            { _set_param_queue := { w with already_requested := true } :: rest,
              _get_param_queue := s._get_param_queue, _cache := s._cache,
              _timeout := register_timeout_handler s._timeout }).2) := by
  unfold do_work
  rw [hq]
  simp [hw, hs, return_front]

/-- C12: when the head `w` of the set queue is not yet requested and the send of
its request fails, `do_work` invokes the callback of `w` exactly once with
`CONNECTION_ERROR`, removes `w` from the set queue, leaves the cache and the
timeout as they were and makes no `register_timeout_handler` call. When the head
`wa` of the get queue is not yet requested and the send of its request fails
(the set queue has nothing to send), the callback of `wa` is invoked exactly
once with `CONNECTION_ERROR` and the default empty value, `wa` is removed, cache
and timeout are as they were. When the set request of the same call was sent
with success before the get send fails, the only registration is the one made
for the set item before the failed send; none follows it. -/
theorem failed_send_connection_error {PV : Type} (D : Deps PV)
    (send_message send_a send_b : mavlink_message_t → Bool) (s sa sb : State PV)
    (w : SetParamWork PV) (rest : List (SetParamWork PV))
    (wa : GetParamWork PV) (resta : List (GetParamWork PV))
    (wb : GetParamWork PV) (restb : List (GetParamWork PV))
    (ws : SetParamWork PV) (rs : List (SetParamWork PV))
    (hq : s._set_param_queue = w :: rest) (hw : w.already_requested = false)
    (hs : send_message (set_message D w) = false)
    (hqa : sa._get_param_queue = wa :: resta) (hwa : wa.already_requested = false)
    (hsa : send_a (get_message D wa) = false)
    (hida : sa._set_param_queue = [] ∨ set_head_in_flight sa._set_param_queue = true)
    (hqb : sb._get_param_queue = wb :: restb) (hwb : wb.already_requested = false)
    (hsb : send_b (get_message D wb) = false)
    (hqs : sb._set_param_queue = ws :: rs) (hws : ws.already_requested = false)
    (hss : send_b (set_message D ws) = true) :
    do_work D send_message s =
      ({ _set_param_queue := rest, _get_param_queue := s._get_param_queue,
         _cache := s._cache, _timeout := s._timeout },
        Effect.send_message (set_message D w) false ::
          call_set w.callback Result.CONNECTION_ERROR) ∧
    do_work D send_a sa =
      ({ _set_param_queue := sa._set_param_queue, _get_param_queue := resta,
         _cache := sa._cache, _timeout := sa._timeout },
        Effect.send_message (get_message D wa) false ::
          call_get wa.callback Result.CONNECTION_ERROR D.empty_param) ∧
    do_work D send_b sb =
      ({ _set_param_queue := { ws with already_requested := true } :: rs,
         _get_param_queue := restb, _cache := sb._cache,
         _timeout := register_timeout_handler sb._timeout },
        [Effect.send_message (set_message D ws) true, Effect.register_timeout_handler,
          Effect.send_message (get_message D wb) false] ++
          call_get wb.callback Result.CONNECTION_ERROR D.empty_param) := by
  refine ⟨do_work_set_send_failed D send_message s w rest hq hw hs, ?_, ?_⟩
  · rw [do_work_set_idle D send_a sa hida,
      do_work_get_send_failed D send_a sa wa resta hqa hwa hsa]
  · rw [do_work_set_send_ok D send_b sb ws rs hqs hws hss,
      do_work_get_send_failed D send_b
        { _set_param_queue := { ws with already_requested := true } :: rs,
          _get_param_queue := sb._get_param_queue, _cache := sb._cache,
          _timeout := register_timeout_handler sb._timeout } wb restb hqb hwb hsb]
    simp

/-- Witness of C12: with both heads not yet requested a transport that fails
every send makes the set of "A" fail; with the set of "A" in flight it makes the
get of "C" fail; a transport that takes writes and fails reads makes the get of
"C" fail after the set of "A" was sent. -/
theorem failed_send_connection_error_witness :
    state_submitted._set_param_queue = set_A_waiting :: [set_B_waiting] ∧
    state_get_waiting._get_param_queue = get_C_waiting :: [] ∧
    set_head_in_flight state_get_waiting._set_param_queue = true ∧
    state_submitted._get_param_queue = get_C_waiting :: [] ∧
    (do_work deps16 send_fails state_submitted =
      ({ _set_param_queue := [set_B_waiting],
         _get_param_queue := state_submitted._get_param_queue,
         _cache := state_submitted._cache, _timeout := state_submitted._timeout },
        Effect.send_message (set_message deps16 set_A_waiting) false ::
          call_set set_A_waiting.callback Result.CONNECTION_ERROR) ∧
    do_work deps16 send_fails state_get_waiting =
      ({ _set_param_queue := state_get_waiting._set_param_queue, _get_param_queue := [],
         _cache := state_get_waiting._cache, _timeout := state_get_waiting._timeout },
        Effect.send_message (get_message deps16 get_C_waiting) false ::
          call_get get_C_waiting.callback Result.CONNECTION_ERROR deps16.empty_param) ∧
    do_work deps16 send_sets_only state_submitted =
      ({ _set_param_queue := { set_A_waiting with already_requested := true } ::
           [set_B_waiting],
         _get_param_queue := [], _cache := state_submitted._cache,
         _timeout := register_timeout_handler state_submitted._timeout },
        [Effect.send_message (set_message deps16 set_A_waiting) true,
          Effect.register_timeout_handler,
          Effect.send_message (get_message deps16 get_C_waiting) false] ++
          call_get get_C_waiting.callback Result.CONNECTION_ERROR deps16.empty_param)) ∧
    (do_work deps16 send_fails state_submitted).2 =
      [Effect.send_message
          (mavlink_message_t.param_set 245 190 1 1
            [65, 0, 0, 0, 0, 0, 0, 0, 0, 0, 0, 0, 0, 0, 0, 0] 7 9) false,
        Effect.set_callback 1 Result.CONNECTION_ERROR] ∧
    (do_work deps16 send_fails state_get_waiting).2 =
      [Effect.send_message
          (mavlink_message_t.param_request_read 245 190 1 1
            [67, 0, 0, 0, 0, 0, 0, 0, 0, 0, 0, 0, 0, 0, 0, 0] (-1)) false,
        Effect.get_callback 3 Result.CONNECTION_ERROR deps16.empty_param] :=
  ⟨by decide, by decide, by decide, by decide,
    failed_send_connection_error deps16 send_fails send_fails send_sets_only
      state_submitted state_get_waiting state_submitted
      set_A_waiting [set_B_waiting] get_C_waiting [] get_C_waiting []
      set_A_waiting [set_B_waiting]
      (by decide) (by decide) (by decide) (by decide) (by decide) (by decide)
      (Or.inr (by decide)) (by decide) (by decide) (by decide) (by decide) (by decide)
      (by decide),
    by decide, by decide⟩

theorem do_work_get_set_queue {PV : Type} (D : Deps PV)
    (send_message : mavlink_message_t → Bool) (s : State PV) :
    (do_work_get D send_message s).1._set_param_queue = s._set_param_queue := by
  unfold do_work_get
  split
  · rfl
  · dsimp only
    split
    · split <;> rfl
    · rfl

theorem do_work_ok_set_head {PV : Type} (D : Deps PV)
    (send_message : mavlink_message_t → Bool) (s : State PV) (w : SetParamWork PV)
    (rest : List (SetParamWork PV)) (hsend : ∀ m, send_message m = true)
    (hq : s._set_param_queue = w :: rest) (hw : w.already_requested = false) :
    Effect.send_message (set_message D w) true ∈ (do_work D send_message s).2 ∧
    (do_work D send_message s).1._set_param_queue =
      { w with already_requested := true } :: rest := by
  rw [do_work_set_send_ok D send_message s w rest hq hw (hsend _)]
  refine ⟨by simp, ?_⟩
  rw [do_work_get_set_queue]

theorem do_work_ok_get_head {PV : Type} (D : Deps PV)
    (send_message : mavlink_message_t → Bool) (s : State PV) (w : GetParamWork PV)
    (rest : List (GetParamWork PV)) (hsend : ∀ m, send_message m = true)
    (hq : s._get_param_queue = w :: rest) (hw : w.already_requested = false) :
    Effect.send_message (get_message D w) true ∈ (do_work D send_message s).2 ∧
    (do_work D send_message s).1._get_param_queue =
      { w with already_requested := true } :: rest := by
  cases hs : s._set_param_queue with
  | nil =>
    rw [do_work_set_idle D send_message s (Or.inl hs),
      do_work_get_send_ok D send_message s w rest hq hw (hsend _)]
    simp
  | cons w2 rest2 =>
    by_cases hw2 : w2.already_requested = true
    · have hfl : set_head_in_flight s._set_param_queue = true := by
        rw [hs]
        simpa [set_head_in_flight] using hw2
      rw [do_work_set_idle D send_message s (Or.inr hfl),
        do_work_get_send_ok D send_message s w rest hq hw (hsend _)]
      simp
    · have hw3 : w2.already_requested = false := by simpa using hw2
      rw [do_work_set_send_ok D send_message s w2 rest2 hs hw3 (hsend _),
        do_work_get_send_ok D send_message
          { _set_param_queue := { w2 with already_requested := true } :: rest2,
            _get_param_queue := s._get_param_queue, _cache := s._cache,
            _timeout := register_timeout_handler s._timeout } w rest hq hw (hsend _)]
      simp

theorem receive_timeout_eq {PV : Type} (D : Deps PV) (s : State PV) :
    receive_timeout D s =
      ({ _set_param_queue :=
           if set_head_in_flight s._set_param_queue then s._set_param_queue.tail
           else s._set_param_queue,
         _get_param_queue :=
           if get_head_in_flight s._get_param_queue then s._get_param_queue.tail
           else s._get_param_queue,
         _cache := s._cache, _timeout := s._timeout },
        (match s._get_param_queue with
          | w :: _ =>
            if w.already_requested then call_get w.callback Result.TIMEOUT D.empty_param
            else []
          | [] => []) ++
        (match s._set_param_queue with
          | w :: _ => if w.already_requested then call_set w.callback Result.TIMEOUT else []
          | [] => [])) := by
  obtain ⟨sq, gq, c, t⟩ := s
  cases gq with
  | nil =>
    cases sq with
    | nil => simp [receive_timeout, set_head_in_flight, get_head_in_flight]
    | cons w rest =>
      by_cases hw : w.already_requested = true <;>
        simp [receive_timeout, set_head_in_flight, get_head_in_flight, hw, pop_front,
          return_front]
  | cons g grest =>
    cases sq with
    | nil =>
      by_cases hg : g.already_requested = true <;>
        simp [receive_timeout, set_head_in_flight, get_head_in_flight, hg, pop_front,
          return_front]
    | cons w rest =>
      by_cases hg : g.already_requested = true <;> by_cases hw : w.already_requested = true <;>
        simp [receive_timeout, set_head_in_flight, get_head_in_flight, hg, hw, pop_front,
          return_front]

theorem tail_idle_after_timeout {T : Type} (flag : T → Bool) (q : List T)
    (hq : tail_idle flag q) :
    ∀ w ∈ (if (match q with
                | a :: _ => flag a
                | [] => false) = true then q.tail else q), flag w = false := by
  cases q with
  | nil => simp
  | cons a rest =>
    by_cases ha : flag a = true
    · simp only [ha, if_true, List.tail_cons]
      intro w hw
      exact hq w (by simpa using hw)
    · simp only [ha, Bool.false_eq_true, if_false]
      intro w hw
      rcases List.mem_cons.mp hw with h | h
      · rw [h]; simpa using ha
      · exact hq w (by simpa using h)

theorem set_queue_idle_after_timeout {PV : Type} (q : List (SetParamWork PV))
    (hq : tail_idle (fun w : SetParamWork PV => w.already_requested) q) :
    ∀ w ∈ (if set_head_in_flight q = true then q.tail else q), w.already_requested = false := by
  cases q with
  | nil => simp
  | cons a rest => simpa [set_head_in_flight] using tail_idle_after_timeout _ (a :: rest) hq

theorem get_queue_idle_after_timeout {PV : Type} (q : List (GetParamWork PV))
    (hq : tail_idle (fun w : GetParamWork PV => w.already_requested) q) :
    ∀ w ∈ (if get_head_in_flight q = true then q.tail else q), w.already_requested = false := by
  cases q with
  | nil => simp
  | cons a rest => simpa [get_head_in_flight] using tail_idle_after_timeout _ (a :: rest) hq

theorem send_not_mem_call_get {PV : Type} (callback : Option Nat) (result : Result)
    (value : PV) (m : mavlink_message_t) (ok : Bool) :
    Effect.send_message m ok ∉ call_get callback result value := by
  cases callback <;> simp [call_get]

theorem send_not_mem_call_set {PV : Type} (callback : Option Nat) (result : Result)
    (m : mavlink_message_t) (ok : Bool) :
    Effect.send_message m ok ∉ (call_set callback result : List (Effect PV)) := by
  cases callback <;> simp [call_set]

/-- C13: in every state, `receive_timeout` removes exactly the head of each
queue whose head is in flight and leaves a queue whose head is absent or not in
flight as it is; its calls are, in this order, the callback of an in-flight get
head with `TIMEOUT` and the default empty value, and the callback of an
in-flight set head with `TIMEOUT`, each exactly once, and nothing else: no
message is sent. Cache and timeout are as before. In a reachable state no item
of either queue is in flight afterwards, and a following `do_work` whose sends
all succeed sends the request of each new head and marks it in flight. -/
theorem timeout_resolves_in_flight_heads {PV : Type} (D : Deps PV) (s : State PV)
    (send_message : mavlink_message_t → Bool) :
    (receive_timeout D s).1 =
      { _set_param_queue :=
          if set_head_in_flight s._set_param_queue then s._set_param_queue.tail
          else s._set_param_queue,
        _get_param_queue :=
          if get_head_in_flight s._get_param_queue then s._get_param_queue.tail
          else s._get_param_queue,
        _cache := s._cache, _timeout := s._timeout } ∧
    (receive_timeout D s).2 =
      (match s._get_param_queue with
        | w :: _ =>
          if w.already_requested then call_get w.callback Result.TIMEOUT D.empty_param
          else []
        | [] => []) ++
      (match s._set_param_queue with
        | w :: _ => if w.already_requested then call_set w.callback Result.TIMEOUT else []
        | [] => []) ∧
    (∀ (m : mavlink_message_t) (ok : Bool),
      Effect.send_message m ok ∉ (receive_timeout D s).2) ∧
    (Reachable D s →
      (∀ w ∈ (receive_timeout D s).1._set_param_queue, w.already_requested = false) ∧
      (∀ w ∈ (receive_timeout D s).1._get_param_queue, w.already_requested = false) ∧
      ((∀ m, send_message m = true) →
        (∀ (w : SetParamWork PV) (rest : List (SetParamWork PV)),
          (receive_timeout D s).1._set_param_queue = w :: rest →
            Effect.send_message (set_message D w) true ∈
              (do_work D send_message (receive_timeout D s).1).2 ∧
            (do_work D send_message (receive_timeout D s).1).1._set_param_queue =
              { w with already_requested := true } :: rest) ∧
        (∀ (w : GetParamWork PV) (rest : List (GetParamWork PV)),
          (receive_timeout D s).1._get_param_queue = w :: rest →
            Effect.send_message (get_message D w) true ∈
              (do_work D send_message (receive_timeout D s).1).2 ∧
            (do_work D send_message (receive_timeout D s).1).1._get_param_queue =
              { w with already_requested := true } :: rest))) := by
  have hidle : Reachable D s →
      (∀ w ∈ (receive_timeout D s).1._set_param_queue, w.already_requested = false) ∧
      (∀ w ∈ (receive_timeout D s).1._get_param_queue, w.already_requested = false) := by
    intro hr
    obtain ⟨ops, rfl⟩ := hr
    have hq := queues_ok_run D ops (State.init PV) (queues_ok_init PV)
    rw [receive_timeout_eq]
    exact ⟨set_queue_idle_after_timeout _ hq.1, get_queue_idle_after_timeout _ hq.2⟩
  refine ⟨by rw [receive_timeout_eq], by rw [receive_timeout_eq], ?_, ?_⟩
  · intro m ok
    rw [receive_timeout_eq]
    dsimp only
    intro hmem
    rcases List.mem_append.mp hmem with h | h
    · split at h
      · split at h
        · exact send_not_mem_call_get _ _ _ m ok h
        · simp at h
      · simp at h
    · split at h
      · split at h
        · exact send_not_mem_call_set _ _ m ok h
        · simp at h
      · simp at h
  · intro hr
    obtain ⟨h1, h2⟩ := hidle hr
    refine ⟨h1, h2, ?_⟩
    intro hsend
    constructor
    · intro w rest hq
      exact do_work_ok_set_head D send_message _ w rest hsend hq
        (h1 w (by rw [hq]; simp))
    · intro w rest hq
      exact do_work_ok_get_head D send_message _ w rest hsend hq
        (h2 w (by rw [hq]; simp))

/-- Witness of C13: the set of "A" and the get of "C" are in flight and "B"
waits; the timeout handler reports `TIMEOUT` to callbacks 3 and 1, removes both
heads, and the next `do_work` sends the write request for "B". -/
theorem timeout_resolves_in_flight_heads_witness :
    Reachable deps16 state_two_sets_one_get ∧
    (∀ m, send_ok m = true) ∧
    receive_timeout deps16 state_two_sets_one_get =
      ({ _set_param_queue := [set_B_waiting], _get_param_queue := [], _cache := [],
         _timeout := { armed := true } },
        [Effect.get_callback 3 Result.TIMEOUT deps16.empty_param,
          Effect.set_callback 1 Result.TIMEOUT]) ∧
    ((∀ w ∈ (receive_timeout deps16 state_two_sets_one_get).1._set_param_queue,
        w.already_requested = false) ∧
      (∀ w ∈ (receive_timeout deps16 state_two_sets_one_get).1._get_param_queue,
        w.already_requested = false)) ∧
    (Effect.send_message (set_message deps16 set_B_waiting) true ∈
        (do_work deps16 send_ok (receive_timeout deps16 state_two_sets_one_get).1).2 ∧
      (do_work deps16 send_ok
        (receive_timeout deps16 state_two_sets_one_get).1).1._set_param_queue =
        { set_B_waiting with already_requested := true } :: []) :=
  ⟨⟨ops_two_sets_one_get, rfl⟩, fun _ => rfl, by decide,
    ⟨((timeout_resolves_in_flight_heads deps16 state_two_sets_one_get send_ok).2.2.2
        ⟨ops_two_sets_one_get, rfl⟩).1,
      ((timeout_resolves_in_flight_heads deps16 state_two_sets_one_get send_ok).2.2.2
        ⟨ops_two_sets_one_get, rfl⟩).2.1⟩,
    (((timeout_resolves_in_flight_heads deps16 state_two_sets_one_get send_ok).2.2.2
        ⟨ops_two_sets_one_get, rfl⟩).2.2 (fun _ => rfl)).1 set_B_waiting [] (by decide)⟩

theorem set_callbacks_invoked_append {PV : Type} (a b : List (Effect PV)) :
    set_callbacks_invoked (a ++ b) = set_callbacks_invoked a ++ set_callbacks_invoked b := by
  simp [set_callbacks_invoked]

theorem get_callbacks_invoked_append {PV : Type} (a b : List (Effect PV)) :
    get_callbacks_invoked (a ++ b) = get_callbacks_invoked a ++ get_callbacks_invoked b := by
  simp [get_callbacks_invoked]

theorem set_callbacks_invoked_call_set {PV : Type} (w : SetParamWork PV) (result : Result) :
    set_callbacks_invoked (call_set w.callback result : List (Effect PV)) =
      set_callbacks_pending [w] := by
  cases h : w.callback <;> simp [call_set, set_callbacks_invoked, set_callbacks_pending, h]

theorem get_callbacks_invoked_call_get {PV : Type} (w : GetParamWork PV) (result : Result)
    (value : PV) :
    get_callbacks_invoked (call_get w.callback result value) = get_callbacks_pending [w] := by
  cases h : w.callback <;> simp [call_get, get_callbacks_invoked, get_callbacks_pending, h]

theorem set_callbacks_invoked_call_get {PV : Type} (callback : Option Nat) (result : Result)
    (value : PV) : set_callbacks_invoked (call_get callback result value) = [] := by
  cases callback <;> simp [call_get, set_callbacks_invoked]

theorem get_callbacks_invoked_call_set {PV : Type} (callback : Option Nat) (result : Result) :
    get_callbacks_invoked (call_set callback result : List (Effect PV)) = [] := by
  cases callback <;> simp [call_set, get_callbacks_invoked]

theorem set_items_head {PV : Type} (w : SetParamWork PV) (rest : List (SetParamWork PV))
    (b : Bool) :
    set_items ({ w with already_requested := b } :: rest) = set_items (w :: rest) := by
  simp [set_items]

theorem get_items_head {PV : Type} (w : GetParamWork PV) (rest : List (GetParamWork PV))
    (b : Bool) :
    get_items ({ w with already_requested := b } :: rest) = get_items (w :: rest) := by
  simp [get_items]

theorem do_work_get_set_callbacks {PV : Type} (D : Deps PV)
    (send_message : mavlink_message_t → Bool) (s : State PV) :
    set_callbacks_invoked (do_work_get D send_message s).2 = [] := by
  unfold do_work_get
  split
  · rfl
  · dsimp only
    split
    · split
      · rw [show ∀ (x : Effect PV) (l : List (Effect PV)), x :: l = [x] ++ l from fun _ _ => rfl,
          set_callbacks_invoked_append, set_callbacks_invoked_call_get]
        rfl
      · rfl
    · rfl

theorem do_work_get_step {PV : Type} (D : Deps PV)
    (send_message : mavlink_message_t → Bool) (s : State PV) :
    ∃ k : Nat, k ≤ 1 ∧ k ≤ s._get_param_queue.length ∧
      get_items (do_work_get D send_message s).1._get_param_queue =
        (get_items s._get_param_queue).drop k ∧
      get_callbacks_invoked (do_work_get D send_message s).2 =
        get_callbacks_pending (s._get_param_queue.take k) := by
  obtain ⟨sq, gq, c, t⟩ := s
  cases gq with
  | nil => exact ⟨0, by simp, by simp, by simp [do_work_get], by simp [do_work_get,
      get_callbacks_invoked, get_callbacks_pending]⟩
  | cons w rest =>
    by_cases hw : w.already_requested = true
    · refine ⟨0, by simp, by simp, ?_, ?_⟩
      · simp [do_work_get, hw, return_front]
      · simp [do_work_get, hw, get_callbacks_invoked, get_callbacks_pending]
    · have hw2 : w.already_requested = false := by simpa using hw
      by_cases hs : send_message (get_message D w) = true
      · refine ⟨0, by simp, by simp, ?_, ?_⟩
        · rw [do_work_get_send_ok D send_message _ w rest rfl hw2 hs]
          exact get_items_head w rest true
        · rw [do_work_get_send_ok D send_message _ w rest rfl hw2 hs]
          simp [get_callbacks_invoked, get_callbacks_pending]
      · have hs2 : send_message (get_message D w) = false := by simpa using hs
        refine ⟨1, by simp, by simp, ?_, ?_⟩
        · rw [do_work_get_send_failed D send_message _ w rest rfl hw2 hs2]
          simp [get_items]
        · rw [do_work_get_send_failed D send_message _ w rest rfl hw2 hs2]
          rw [show ∀ (x : Effect PV) (l : List (Effect PV)), x :: l = [x] ++ l from
            fun _ _ => rfl, get_callbacks_invoked_append, get_callbacks_invoked_call_get]
          simp [get_callbacks_invoked]

theorem process_param_ext_value_get_ignored {PV : Type} (D : Deps PV) (s : State PV)
    (m : mavlink_param_ext_value_t)
    (hq : s._get_param_queue = [] ∨
      ∃ (w : GetParamWork PV) (rest : List (GetParamWork PV)), s._get_param_queue = w :: rest ∧
        (w.already_requested = false ∨ strncmp w.param_name m.param_id D.PARAM_ID_LEN ≠ 0)) :
    process_param_ext_value D s m = (s, []) := by
  obtain ⟨sq, gq, c, t⟩ := s
  simp only at hq
  rcases hq with hq | ⟨w, rest, hq, hw⟩
  · subst hq
    simp [process_param_ext_value]
  · subst hq
    rcases hw with hw | hw
    · simp [process_param_ext_value, return_front, hw]
    · simp [process_param_ext_value, return_front, hw]

theorem process_param_ext_ack_ignored {PV : Type} (D : Deps PV) (s : State PV)
    (m : mavlink_param_ext_ack_t)
    (hq : s._set_param_queue = [] ∨
      ∃ (w : SetParamWork PV) (rest : List (SetParamWork PV)), s._set_param_queue = w :: rest ∧
        (w.already_requested = false ∨ strncmp w.param_name m.param_id D.PARAM_ID_LEN ≠ 0)) :
    process_param_ext_ack D s m = (s, []) := by
  obtain ⟨sq, gq, c, t⟩ := s
  simp only at hq
  rcases hq with hq | ⟨w, rest, hq, hw⟩
  · subst hq
    simp [process_param_ext_ack]
  · subst hq
    rcases hw with hw | hw
    · simp [process_param_ext_ack, return_front, hw]
    · simp [process_param_ext_ack, return_front, hw]

theorem not_matched_cases (flag : Bool) (c : Int) (h : ¬ (flag = true ∧ c = 0)) :
    flag = false ∨ c ≠ 0 := by
  cases flag
  · exact Or.inl rfl
  · exact Or.inr (fun hc => h ⟨rfl, hc⟩)

theorem set_queue_step_unchanged {PV : Type} (D : Deps PV) (s : State PV) (op : Op PV)
    (r : State PV × List (Effect PV)) (ha : set_accepted D op = [])
    (hi : set_immediate D op = []) (hq : set_items r.1._set_param_queue =
      set_items s._set_param_queue) (he : set_callbacks_invoked r.2 = []) :
    set_queue_step D s op r :=
  ⟨0, by simp, by simp, by simp [hq, ha], by simp [he, hi, set_callbacks_pending]⟩

theorem get_queue_step_unchanged {PV : Type} (D : Deps PV) (s : State PV) (op : Op PV)
    (r : State PV × List (Effect PV)) (ha : get_accepted D s op = [])
    (hi : get_immediate D s op = []) (hq : get_items r.1._get_param_queue =
      get_items s._get_param_queue) (he : get_callbacks_invoked r.2 = []) :
    get_queue_step D s op r :=
  ⟨0, by simp, by simp, by simp [hq, ha], by simp [he, hi, get_callbacks_pending]⟩

theorem set_queue_step_removed {PV : Type} (D : Deps PV) (s : State PV) (op : Op PV)
    (r : State PV × List (Effect PV)) (w : SetParamWork PV) (rest : List (SetParamWork PV))
    (ha : set_accepted D op = []) (hi : set_immediate D op = [])
    (hs : s._set_param_queue = w :: rest) (hq : r.1._set_param_queue = rest)
    (he : set_callbacks_invoked r.2 = set_callbacks_pending [w]) :
    set_queue_step D s op r :=
  ⟨1, by simp, by simp [hs], by simp [hq, hs, ha, set_items], by simp [he, hi, hs]⟩

theorem get_queue_step_removed {PV : Type} (D : Deps PV) (s : State PV) (op : Op PV)
    (r : State PV × List (Effect PV)) (w : GetParamWork PV) (rest : List (GetParamWork PV))
    (ha : get_accepted D s op = []) (hi : get_immediate D s op = [])
    (hs : s._get_param_queue = w :: rest) (hq : r.1._get_param_queue = rest)
    (he : get_callbacks_invoked r.2 = get_callbacks_pending [w]) :
    get_queue_step D s op r :=
  ⟨1, by simp, by simp [hs], by simp [hq, hs, ha, get_items], by simp [he, hi, hs]⟩

theorem set_callbacks_none {PV : Type} :
    set_callbacks_invoked ([Effect.unregister_timeout_handler] : List (Effect PV)) = [] ∧
    set_callbacks_invoked ([Effect.refresh_timeout_handler] : List (Effect PV)) = [] ∧
    set_callbacks_invoked ([Effect.register_timeout_handler] : List (Effect PV)) = [] ∧
    set_callbacks_invoked ([] : List (Effect PV)) = [] ∧
    (∀ m ok, set_callbacks_invoked ([Effect.send_message m ok] : List (Effect PV)) = []) :=
  ⟨rfl, rfl, rfl, rfl, fun _ _ => rfl⟩

theorem get_callbacks_none {PV : Type} :
    get_callbacks_invoked ([Effect.unregister_timeout_handler] : List (Effect PV)) = [] ∧
    get_callbacks_invoked ([Effect.refresh_timeout_handler] : List (Effect PV)) = [] ∧
    get_callbacks_invoked ([Effect.register_timeout_handler] : List (Effect PV)) = [] ∧
    get_callbacks_invoked ([] : List (Effect PV)) = [] ∧
    (∀ m ok, get_callbacks_invoked ([Effect.send_message m ok] : List (Effect PV)) = []) :=
  ⟨rfl, rfl, rfl, rfl, fun _ _ => rfl⟩

theorem set_queue_step_set_param_async {PV : Type} (D : Deps PV) (s : State PV)
    (name : List Nat) (value : PV) (callback : Option Nat) (extended : Bool) :
    set_queue_step D s (Op.set_param_async name value callback extended)
      (set_param_async D s name value callback extended) := by
  by_cases h : name.length > D.PARAM_ID_LEN
  · refine ⟨0, by simp, by simp, ?_, ?_⟩
    · simp [set_param_async, h, set_accepted]
    · cases callback <;>
        simp [set_param_async, h, set_immediate, call_set, set_callbacks_invoked,
          set_callbacks_pending]
  · refine ⟨0, by simp, by simp, ?_, ?_⟩
    · simp [set_param_async, h, set_accepted, set_items, push_back]
    · cases callback <;>
        simp [set_param_async, h, set_immediate, set_callbacks_invoked, set_callbacks_pending]

theorem get_queue_step_get_param_async {PV : Type} (D : Deps PV) (s : State PV)
    (name : List Nat) (value_type : PV) (callback : Option Nat) (extended : Bool) :
    get_queue_step D s (Op.get_param_async name value_type callback extended)
      (get_param_async D s name value_type callback extended) := by
  by_cases h : name.length > D.PARAM_ID_LEN
  · refine ⟨0, by simp, by simp, ?_, ?_⟩
    · simp [get_param_async, h, get_accepted]
    · cases callback <;>
        simp [get_param_async, h, get_immediate, call_get, get_callbacks_invoked,
          get_callbacks_pending]
  · cases hc : cache_find s._cache name with
    | some cached =>
      refine ⟨0, by simp, by simp, ?_, ?_⟩
      · simp [get_param_async, h, hc, get_accepted]
      · cases callback <;>
          simp [get_param_async, h, hc, get_immediate, call_get, get_callbacks_invoked,
            get_callbacks_pending]
    | none =>
      refine ⟨0, by simp, by simp, ?_, ?_⟩
      · simp [get_param_async, h, hc, get_accepted, get_items, push_back]
      · cases callback <;>
          simp [get_param_async, h, hc, get_immediate, get_callbacks_invoked,
            get_callbacks_pending]

theorem get_queue_step_set_param_async {PV : Type} (D : Deps PV) (s : State PV)
    (name : List Nat) (value : PV) (callback : Option Nat) (extended : Bool) :
    get_queue_step D s (Op.set_param_async name value callback extended)
      (set_param_async D s name value callback extended) := by
  refine get_queue_step_unchanged D s _ _ (by rfl) (by rfl) ?_ ?_
  · unfold set_param_async
    split <;> rfl
  · unfold set_param_async
    split
    · exact get_callbacks_invoked_call_set _ _
    · rfl

theorem set_queue_step_get_param_async {PV : Type} (D : Deps PV) (s : State PV)
    (name : List Nat) (value_type : PV) (callback : Option Nat) (extended : Bool) :
    set_queue_step D s (Op.get_param_async name value_type callback extended)
      (get_param_async D s name value_type callback extended) := by
  refine set_queue_step_unchanged D s _ _ (by rfl) (by rfl) ?_ ?_
  · unfold get_param_async
    split
    · rfl
    · split <;> rfl
  · unfold get_param_async
    split
    · exact set_callbacks_invoked_call_get _ _ _
    · split
      · exact set_callbacks_invoked_call_get _ _ _
      · rfl

theorem set_queue_step_do_work {PV : Type} (D : Deps PV)
    (send_message : mavlink_message_t → Bool) (s : State PV) :
    set_queue_step D s (Op.do_work send_message) (do_work D send_message s) := by
  cases hs : s._set_param_queue with
  | nil =>
    rw [do_work_set_idle D send_message s (Or.inl hs)]
    refine set_queue_step_unchanged D s _ _ (by rfl) (by rfl) ?_ ?_
    · rw [do_work_get_set_queue]
    · exact do_work_get_set_callbacks D send_message s
  | cons w rest =>
    by_cases hw : w.already_requested = true
    · have hfl : set_head_in_flight s._set_param_queue = true := by
        rw [hs]
        simpa [set_head_in_flight] using hw
      rw [do_work_set_idle D send_message s (Or.inr hfl)]
      refine set_queue_step_unchanged D s _ _ (by rfl) (by rfl) ?_ ?_
      · rw [do_work_get_set_queue]
      · exact do_work_get_set_callbacks D send_message s
    · have hw2 : w.already_requested = false := by simpa using hw
      by_cases hok : send_message (set_message D w) = true
      · rw [do_work_set_send_ok D send_message s w rest hs hw2 hok]
        refine set_queue_step_unchanged D s _ _ (by rfl) (by rfl) ?_ ?_
        · dsimp only
          rw [do_work_get_set_queue, hs]
          exact set_items_head w rest true
        · dsimp only
          rw [set_callbacks_invoked_append, do_work_get_set_callbacks]
          rfl
      · have hok2 : send_message (set_message D w) = false := by simpa using hok
        rw [do_work_set_send_failed D send_message s w rest hs hw2 hok2]
        refine set_queue_step_removed D s _ _ w rest (by rfl) (by rfl) hs (by rfl) ?_
        dsimp only
        rw [show ∀ (x : Effect PV) (l : List (Effect PV)), x :: l = [x] ++ l from
          fun _ _ => rfl, set_callbacks_invoked_append, set_callbacks_invoked_call_set]
        rfl

theorem get_queue_step_do_work_get {PV : Type} (D : Deps PV)
    (send_message : mavlink_message_t → Bool) (s s1 : State PV)
    (hq : s1._get_param_queue = s._get_param_queue) :
    get_queue_step D s (Op.do_work send_message) (do_work_get D send_message s1) := by
  obtain ⟨k, hk1, hk2, hitems, hcalls⟩ := do_work_get_step D send_message s1
  rw [hq] at hk2 hitems hcalls
  exact ⟨k, hk1, hk2, by simpa [get_accepted] using hitems,
    by simpa [get_immediate] using hcalls⟩

theorem get_queue_step_do_work {PV : Type} (D : Deps PV)
    (send_message : mavlink_message_t → Bool) (s : State PV) :
    get_queue_step D s (Op.do_work send_message) (do_work D send_message s) := by
  cases hs : s._set_param_queue with
  | nil =>
    rw [do_work_set_idle D send_message s (Or.inl hs)]
    exact get_queue_step_do_work_get D send_message s s rfl
  | cons w rest =>
    by_cases hw : w.already_requested = true
    · have hfl : set_head_in_flight s._set_param_queue = true := by
        rw [hs]
        simpa [set_head_in_flight] using hw
      rw [do_work_set_idle D send_message s (Or.inr hfl)]
      exact get_queue_step_do_work_get D send_message s s rfl
    · have hw2 : w.already_requested = false := by simpa using hw
      by_cases hok : send_message (set_message D w) = true
      · rw [do_work_set_send_ok D send_message s w rest hs hw2 hok]
        obtain ⟨k, hk1, hk2, hitems, hcalls⟩ :=
          get_queue_step_do_work_get D send_message s
            { _set_param_queue := { w with already_requested := true } :: rest,
              _get_param_queue := s._get_param_queue, _cache := s._cache,
              _timeout := register_timeout_handler s._timeout } rfl
        refine ⟨k, hk1, hk2, hitems, ?_⟩
        dsimp only
        rw [get_callbacks_invoked_append, hcalls]
        rfl
      · have hok2 : send_message (set_message D w) = false := by simpa using hok
        rw [do_work_set_send_failed D send_message s w rest hs hw2 hok2]
        refine get_queue_step_unchanged D s _ _ (by rfl) (by rfl) (by rfl) ?_
        dsimp only
        rw [show ∀ (x : Effect PV) (l : List (Effect PV)), x :: l = [x] ++ l from
          fun _ _ => rfl, get_callbacks_invoked_append, get_callbacks_invoked_call_set]
        rfl

theorem set_callbacks_resolved_get {PV : Type} (callback : Option Nat) (result : Result)
    (value : PV) :
    set_callbacks_invoked
      (call_get callback result value ++ [Effect.unregister_timeout_handler]) = [] := by
  rw [set_callbacks_invoked_append, set_callbacks_invoked_call_get]
  rfl

theorem get_callbacks_resolved_set {PV : Type} (callback : Option Nat) (result : Result) :
    get_callbacks_invoked
      (call_set callback result ++ [Effect.unregister_timeout_handler] : List (Effect PV)) =
      [] := by
  rw [get_callbacks_invoked_append, get_callbacks_invoked_call_set]
  rfl

theorem get_callbacks_resolved_get {PV : Type} (w : GetParamWork PV) (result : Result)
    (value : PV) :
    get_callbacks_invoked
      (call_get w.callback result value ++ [Effect.unregister_timeout_handler]) =
      get_callbacks_pending [w] := by
  rw [get_callbacks_invoked_append, get_callbacks_invoked_call_get]
  simp [get_callbacks_invoked]

theorem set_callbacks_resolved_set {PV : Type} (w : SetParamWork PV) (result : Result) :
    set_callbacks_invoked
      (call_set w.callback result ++ [Effect.unregister_timeout_handler] : List (Effect PV)) =
      set_callbacks_pending [w] := by
  rw [set_callbacks_invoked_append, set_callbacks_invoked_call_set]
  simp [set_callbacks_invoked]

theorem queue_steps_process_param_value {PV : Type} (D : Deps PV) (s : State PV)
    (m : mavlink_param_value_t) :
    set_queue_step D s (Op.process_param_value m) (process_param_value D s m) ∧
    get_queue_step D s (Op.process_param_value m) (process_param_value D s m) := by
  cases hg : s._get_param_queue with
  | cons g grest =>
    by_cases hc : g.already_requested = true ∧
        strncmp g.param_name m.param_id D.PARAM_ID_LEN = 0
    · rw [process_param_value_get_resolved D s m g grest hg hc.1 hc.2]
      split
      · exact ⟨set_queue_step_unchanged D s _ _ (by rfl) (by rfl) (by rfl)
            (set_callbacks_resolved_get _ _ _),
          get_queue_step_removed D s _ _ g grest (by rfl) (by rfl) hg (by rfl)
            (get_callbacks_resolved_get _ _ _)⟩
      · exact ⟨set_queue_step_unchanged D s _ _ (by rfl) (by rfl) (by rfl)
            (set_callbacks_resolved_get _ _ _),
          get_queue_step_removed D s _ _ g grest (by rfl) (by rfl) hg (by rfl)
            (get_callbacks_resolved_get _ _ _)⟩
    · rw [process_param_value_get_ignored D s m g grest hg (not_matched_cases _ _ hc)]
      exact ⟨set_queue_step_unchanged D s _ _ (by rfl) (by rfl) (by rfl) (by rfl),
        get_queue_step_unchanged D s _ _ (by rfl) (by rfl) (by rfl) (by rfl)⟩
  | nil =>
    cases hs : s._set_param_queue with
    | nil =>
      rw [process_param_value_set_ignored D s m hg (Or.inl hs)]
      exact ⟨set_queue_step_unchanged D s _ _ (by rfl) (by rfl) (by rfl) (by rfl),
        get_queue_step_unchanged D s _ _ (by rfl) (by rfl) (by rfl) (by rfl)⟩
    | cons w rest =>
      by_cases hc : w.already_requested = true ∧
          strncmp w.param_name m.param_id D.PARAM_ID_LEN = 0
      · rw [process_param_value_set_resolved D s m w rest hg hs hc.1 hc.2]
        exact ⟨set_queue_step_removed D s _ _ w rest (by rfl) (by rfl) hs (by rfl)
            (set_callbacks_resolved_set _ _),
          get_queue_step_unchanged D s _ _ (by rfl) (by rfl) (by rw [hg])
            (get_callbacks_resolved_set _ _)⟩
      · rw [process_param_value_set_ignored D s m hg
          (Or.inr ⟨w, rest, hs, not_matched_cases _ _ hc⟩)]
        exact ⟨set_queue_step_unchanged D s _ _ (by rfl) (by rfl) (by rfl) (by rfl),
          get_queue_step_unchanged D s _ _ (by rfl) (by rfl) (by rfl) (by rfl)⟩

theorem queue_steps_process_param_ext_value {PV : Type} (D : Deps PV) (s : State PV)
    (m : mavlink_param_ext_value_t) :
    set_queue_step D s (Op.process_param_ext_value m) (process_param_ext_value D s m) ∧
    get_queue_step D s (Op.process_param_ext_value m) (process_param_ext_value D s m) := by
  cases hg : s._get_param_queue with
  | cons g grest =>
    by_cases hc : g.already_requested = true ∧
        strncmp g.param_name m.param_id D.PARAM_ID_LEN = 0
    · rw [process_param_ext_value_get_resolved D s m g grest hg hc.1 hc.2]
      split
      · exact ⟨set_queue_step_unchanged D s _ _ (by rfl) (by rfl) (by rfl)
            (set_callbacks_resolved_get _ _ _),
          get_queue_step_removed D s _ _ g grest (by rfl) (by rfl) hg (by rfl)
            (get_callbacks_resolved_get _ _ _)⟩
      · exact ⟨set_queue_step_unchanged D s _ _ (by rfl) (by rfl) (by rfl)
            (set_callbacks_resolved_get _ _ _),
          get_queue_step_removed D s _ _ g grest (by rfl) (by rfl) hg (by rfl)
            (get_callbacks_resolved_get _ _ _)⟩
    · rw [process_param_ext_value_get_ignored D s m
        (Or.inr ⟨g, grest, hg, not_matched_cases _ _ hc⟩)]
      exact ⟨set_queue_step_unchanged D s _ _ (by rfl) (by rfl) (by rfl) (by rfl),
        get_queue_step_unchanged D s _ _ (by rfl) (by rfl) (by rfl) (by rfl)⟩
  | nil =>
    rw [process_param_ext_value_get_ignored D s m (Or.inl hg)]
    exact ⟨set_queue_step_unchanged D s _ _ (by rfl) (by rfl) (by rfl) (by rfl),
      get_queue_step_unchanged D s _ _ (by rfl) (by rfl) (by rfl) (by rfl)⟩

theorem queue_steps_process_param_ext_ack {PV : Type} (D : Deps PV) (s : State PV)
    (m : mavlink_param_ext_ack_t) :
    set_queue_step D s (Op.process_param_ext_ack m) (process_param_ext_ack D s m) ∧
    get_queue_step D s (Op.process_param_ext_ack m) (process_param_ext_ack D s m) := by
  cases hs : s._set_param_queue with
  | cons w rest =>
    by_cases hc : w.already_requested = true ∧
        strncmp w.param_name m.param_id D.PARAM_ID_LEN = 0
    · rw [process_param_ext_ack_matched D s m w rest hs hc.1 hc.2]
      split
      · exact ⟨set_queue_step_removed D s _ _ w rest (by rfl) (by rfl) hs (by rfl)
            (set_callbacks_resolved_set _ _),
          get_queue_step_unchanged D s _ _ (by rfl) (by rfl) (by rfl)
            (get_callbacks_resolved_set _ _)⟩
      · split
        · exact ⟨set_queue_step_unchanged D s _ _ (by rfl) (by rfl) (by rw [hs]) (by rfl),
            get_queue_step_unchanged D s _ _ (by rfl) (by rfl) (by rfl) (by rfl)⟩
        · exact ⟨set_queue_step_removed D s _ _ w rest (by rfl) (by rfl) hs (by rfl)
              (set_callbacks_resolved_set _ _),
            get_queue_step_unchanged D s _ _ (by rfl) (by rfl) (by rfl)
              (get_callbacks_resolved_set _ _)⟩
    · rw [process_param_ext_ack_ignored D s m
        (Or.inr ⟨w, rest, hs, not_matched_cases _ _ hc⟩)]
      exact ⟨set_queue_step_unchanged D s _ _ (by rfl) (by rfl) (by rfl) (by rfl),
        get_queue_step_unchanged D s _ _ (by rfl) (by rfl) (by rfl) (by rfl)⟩
  | nil =>
    rw [process_param_ext_ack_ignored D s m (Or.inl hs)]
    exact ⟨set_queue_step_unchanged D s _ _ (by rfl) (by rfl) (by rfl) (by rfl),
      get_queue_step_unchanged D s _ _ (by rfl) (by rfl) (by rfl) (by rfl)⟩

theorem queue_steps_receive_timeout {PV : Type} (D : Deps PV) (s s0 : State PV)
    (hsq : s._set_param_queue = s0._set_param_queue)
    (hgq : s._get_param_queue = s0._get_param_queue) :
    set_queue_step D s0 Op.receive_timeout (receive_timeout D s) ∧
    get_queue_step D s0 Op.receive_timeout (receive_timeout D s) := by
  rw [receive_timeout_eq, hsq, hgq]
  constructor
  · cases hs : s0._set_param_queue with
    | nil =>
      refine set_queue_step_unchanged D s0 _ _ (by rfl) (by rfl) ?_ ?_
      · simp [set_head_in_flight, hs]
      · dsimp only
        rw [set_callbacks_invoked_append]
        have h1 : set_callbacks_invoked (match s0._get_param_queue with
            | w :: _ =>
              if w.already_requested then call_get w.callback Result.TIMEOUT D.empty_param
              else []
            | [] => []) = [] := by
          split
          · split
            · exact set_callbacks_invoked_call_get _ _ _
            · rfl
          · rfl
        rw [h1]
        rfl
    | cons w rest =>
      have h1 : set_callbacks_invoked (match s0._get_param_queue with
          | w :: _ =>
            if w.already_requested then call_get w.callback Result.TIMEOUT D.empty_param
            else []
          | [] => []) = [] := by
        split
        · split
          · exact set_callbacks_invoked_call_get _ _ _
          · rfl
        · rfl
      by_cases hw : w.already_requested = true
      · refine set_queue_step_removed D s0 _ _ w rest (by rfl) (by rfl) hs ?_ ?_
        · simp [set_head_in_flight, hw]
        · dsimp only
          rw [set_callbacks_invoked_append, h1]
          simp only [hw, if_true, List.nil_append]
          exact set_callbacks_invoked_call_set w _
      · refine set_queue_step_unchanged D s0 _ _ (by rfl) (by rfl) ?_ ?_
        · simp [set_head_in_flight, hw, hs]
        · dsimp only
          rw [set_callbacks_invoked_append, h1]
          simp only [hw, if_false, List.nil_append]
          rfl
  · have h2 : get_callbacks_invoked (match s0._set_param_queue with
        | w :: _ => if w.already_requested then call_set w.callback Result.TIMEOUT else []
        | [] => [] : List (Effect PV)) = [] := by
      split
      · split
        · exact get_callbacks_invoked_call_set _ _
        · rfl
      · rfl
    cases hg : s0._get_param_queue with
    | nil =>
      refine get_queue_step_unchanged D s0 _ _ (by rfl) (by rfl) ?_ ?_
      · simp [get_head_in_flight, hg]
      · dsimp only
        rw [get_callbacks_invoked_append, h2]
        rfl
    | cons g grest =>
      by_cases hw : g.already_requested = true
      · refine get_queue_step_removed D s0 _ _ g grest (by rfl) (by rfl) hg ?_ ?_
        · simp [get_head_in_flight, hw]
        · dsimp only
          rw [get_callbacks_invoked_append, h2]
          simp only [hw, if_true, List.append_nil]
          exact get_callbacks_invoked_call_get g _ _
      · refine get_queue_step_unchanged D s0 _ _ (by rfl) (by rfl) ?_ ?_
        · simp [get_head_in_flight, hw, hg]
        · dsimp only
          rw [get_callbacks_invoked_append, h2]
          simp only [hw, if_false, List.append_nil]
          rfl

theorem queue_steps_apply_op {PV : Type} (D : Deps PV) (s : State PV) (op : Op PV) :
    set_queue_step D s op (apply_op D s op) ∧ get_queue_step D s op (apply_op D s op) := by
  cases op with
  | set_param_async name value callback extended =>
    exact ⟨set_queue_step_set_param_async D s name value callback extended,
      get_queue_step_set_param_async D s name value callback extended⟩
  | get_param_async name value_type callback extended =>
    exact ⟨set_queue_step_get_param_async D s name value_type callback extended,
      get_queue_step_get_param_async D s name value_type callback extended⟩
  | do_work send_message =>
    exact ⟨set_queue_step_do_work D send_message s, get_queue_step_do_work D send_message s⟩
  | process_param_value m => exact queue_steps_process_param_value D s m
  | process_param_ext_value m => exact queue_steps_process_param_ext_value D s m
  | process_param_ext_ack m => exact queue_steps_process_param_ext_ack D s m
  | receive_timeout => exact queue_steps_receive_timeout D _ s rfl rfl
  | reset_cache =>
    exact ⟨set_queue_step_unchanged D s _ _ (by rfl) (by rfl) (by rfl) (by rfl),
      get_queue_step_unchanged D s _ _ (by rfl) (by rfl) (by rfl) (by rfl)⟩

theorem set_callbacks_pending_items {PV : Type} (q : List (SetParamWork PV)) :
    set_callbacks_pending (set_items q) = set_callbacks_pending q := by
  induction q with
  | nil => rfl
  | cons w rest ih =>
    simp only [set_items, set_callbacks_pending, List.map_cons, List.filterMap_cons] at ih ⊢
    cases w.callback <;> simp [ih]

theorem get_callbacks_pending_items {PV : Type} (q : List (GetParamWork PV)) :
    get_callbacks_pending (get_items q) = get_callbacks_pending q := by
  induction q with
  | nil => rfl
  | cons w rest ih =>
    simp only [get_items, get_callbacks_pending, List.map_cons, List.filterMap_cons] at ih ⊢
    cases w.callback <;> simp [ih]

theorem set_submitted_split {PV : Type} (D : Deps PV) (op : Op PV) :
    set_callbacks_pending (set_accepted D op) ++ set_immediate D op =
      set_callback_submitted op := by
  cases op with
  | set_param_async name value callback extended =>
    by_cases h : name.length > D.PARAM_ID_LEN <;> cases callback <;>
      simp [set_accepted, set_immediate, set_callback_submitted, set_callbacks_pending, h]
  | _ => rfl

theorem get_submitted_split {PV : Type} (D : Deps PV) (s : State PV) (op : Op PV) :
    get_callbacks_pending (get_accepted D s op) ++ get_immediate D s op =
      get_callback_submitted op := by
  cases op with
  | get_param_async name value_type callback extended =>
    by_cases h : name.length > D.PARAM_ID_LEN
    · cases callback <;>
        simp [get_accepted, get_immediate, get_callback_submitted, get_callbacks_pending, h]
    · cases hc : cache_find s._cache name <;> cases callback <;>
        simp [get_accepted, get_immediate, get_callback_submitted, get_callbacks_pending, h,
          hc]
  | _ => rfl

theorem set_callbacks_step_perm {PV : Type} (D : Deps PV) (s : State PV) (op : Op PV) :
    List.Perm
      (set_callbacks_invoked (apply_op D s op).2 ++
        set_callbacks_pending (apply_op D s op).1._set_param_queue)
      (set_callbacks_pending s._set_param_queue ++ set_callback_submitted op) := by
  obtain ⟨k, _, _, hitems, hcalls⟩ := (queue_steps_apply_op D s op).1
  have hp : set_callbacks_pending (apply_op D s op).1._set_param_queue =
      set_callbacks_pending (s._set_param_queue.drop k) ++
        set_callbacks_pending (set_accepted D op) := by
    rw [← set_callbacks_pending_items (apply_op D s op).1._set_param_queue, hitems,
      ← set_callbacks_pending_items (s._set_param_queue.drop k)]
    simp [set_callbacks_pending, set_items, List.map_drop]
  have hsplit : set_callbacks_pending s._set_param_queue =
      set_callbacks_pending (s._set_param_queue.take k) ++
        set_callbacks_pending (s._set_param_queue.drop k) := by
    unfold set_callbacks_pending
    rw [← List.filterMap_append, List.take_append_drop]
  rw [hcalls, hp, hsplit, ← set_submitted_split D op]
  simp only [List.append_assoc]
  refine List.Perm.append_left _ ?_
  rw [← List.append_assoc, ← List.append_assoc]
  refine List.Perm.trans (List.Perm.append_right _ List.perm_append_comm) ?_
  rw [List.append_assoc, List.append_assoc]
  exact List.Perm.append_left _ List.perm_append_comm

theorem get_callbacks_step_perm {PV : Type} (D : Deps PV) (s : State PV) (op : Op PV) :
    List.Perm
      (get_callbacks_invoked (apply_op D s op).2 ++
        get_callbacks_pending (apply_op D s op).1._get_param_queue)
      (get_callbacks_pending s._get_param_queue ++ get_callback_submitted op) := by
  obtain ⟨k, _, _, hitems, hcalls⟩ := (queue_steps_apply_op D s op).2
  have hp : get_callbacks_pending (apply_op D s op).1._get_param_queue =
      get_callbacks_pending (s._get_param_queue.drop k) ++
        get_callbacks_pending (get_accepted D s op) := by
    rw [← get_callbacks_pending_items (apply_op D s op).1._get_param_queue, hitems,
      ← get_callbacks_pending_items (s._get_param_queue.drop k)]
    simp [get_callbacks_pending, get_items, List.map_drop]
  have hsplit : get_callbacks_pending s._get_param_queue =
      get_callbacks_pending (s._get_param_queue.take k) ++
        get_callbacks_pending (s._get_param_queue.drop k) := by
    unfold get_callbacks_pending
    rw [← List.filterMap_append, List.take_append_drop]
  rw [hcalls, hp, hsplit, ← get_submitted_split D s op]
  simp only [List.append_assoc]
  refine List.Perm.append_left _ ?_
  rw [← List.append_assoc, ← List.append_assoc]
  refine List.Perm.trans (List.Perm.append_right _ List.perm_append_comm) ?_
  rw [List.append_assoc, List.append_assoc]
  exact List.Perm.append_left _ List.perm_append_comm

theorem set_callbacks_run_perm {PV : Type} (D : Deps PV) (ops : List (Op PV)) :
    ∀ s : State PV, List.Perm
      (set_callbacks_invoked (run D s ops).2 ++
        set_callbacks_pending (run D s ops).1._set_param_queue)
      (set_callbacks_pending s._set_param_queue ++ all_set_submitted ops) := by
  induction ops with
  | nil =>
    intro s
    simp [run, all_set_submitted, set_callbacks_invoked]
  | cons op ops ih =>
    intro s
    simp only [run, all_set_submitted, set_callbacks_invoked_append, List.append_assoc]
    refine List.Perm.trans (List.Perm.append_left _ (ih (apply_op D s op).1)) ?_
    rw [← List.append_assoc, ← List.append_assoc]
    exact List.Perm.append_right _ (set_callbacks_step_perm D s op)

theorem get_callbacks_run_perm {PV : Type} (D : Deps PV) (ops : List (Op PV)) :
    ∀ s : State PV, List.Perm
      (get_callbacks_invoked (run D s ops).2 ++
        get_callbacks_pending (run D s ops).1._get_param_queue)
      (get_callbacks_pending s._get_param_queue ++ all_get_submitted ops) := by
  induction ops with
  | nil =>
    intro s
    simp [run, all_get_submitted, get_callbacks_invoked]
  | cons op ops ih =>
    intro s
    simp only [run, all_get_submitted, get_callbacks_invoked_append, List.append_assoc]
    refine List.Perm.trans (List.Perm.append_left _ (ih (apply_op D s op).1)) ?_
    rw [← List.append_assoc, ← List.append_assoc]
    exact List.Perm.append_right _ (get_callbacks_step_perm D s op)

/-- C14: every step of the engine (any operation `op` in any state `s`) removes
the first `k` items of a queue, `k` being 0 or 1, and the callbacks it invokes
are exactly those of the removed items, followed by the callback of a submission
that is answered at once (name too long, cache hit) and never queued; all other
queued items stay, in order. Hence after every sequence of operations from the
initial state the callbacks invoked so far together with those still held by the
queues are, up to order, the callbacks that were submitted: no callback is
invoked more often than it was submitted, and a callback that is neither pending
nor invoked does not exist. -/
theorem callback_invoked_iff_removed {PV : Type} (D : Deps PV) (s : State PV) (op : Op PV)
    (ops : List (Op PV)) :
    set_queue_step D s op (apply_op D s op) ∧
    get_queue_step D s op (apply_op D s op) ∧
    List.Perm
      (set_callbacks_invoked (run D (State.init PV) ops).2 ++
        set_callbacks_pending (run D (State.init PV) ops).1._set_param_queue)
      (all_set_submitted ops) ∧
    List.Perm
      (get_callbacks_invoked (run D (State.init PV) ops).2 ++
        get_callbacks_pending (run D (State.init PV) ops).1._get_param_queue)
      (all_get_submitted ops) ∧
    (∀ cb : Nat, (set_callbacks_invoked (run D (State.init PV) ops).2).count cb ≤
      (all_set_submitted ops).count cb) ∧
    (∀ cb : Nat, (get_callbacks_invoked (run D (State.init PV) ops).2).count cb ≤
      (all_get_submitted ops).count cb) := by
  have hs := set_callbacks_run_perm D ops (State.init PV)
  have hg := get_callbacks_run_perm D ops (State.init PV)
  have h0 : set_callbacks_pending (State.init PV)._set_param_queue = [] := rfl
  have h1 : get_callbacks_pending (State.init PV)._get_param_queue = [] := rfl
  rw [h0, List.nil_append] at hs
  rw [h1, List.nil_append] at hg
  refine ⟨(queue_steps_apply_op D s op).1, (queue_steps_apply_op D s op).2, hs, hg, ?_, ?_⟩
  · intro cb
    have := hs.count_eq cb
    rw [List.count_append] at this
    omega
  · intro cb
    have := hg.count_eq cb
    rw [List.count_append] at this
    omega

/-- C15 fails on the code: with the set of "A" and the get of "C" both not yet
requested and a transport that fails write requests and takes read requests,
`do_work` reports `CONNECTION_ERROR` for "A" and returns; the get queue is left
as it was, the read request for "C" is not sent. With the same get queue, the
same transport and an empty set queue the read request for "C" is sent and "C"
is in flight with the timeout armed. -/
theorem failed_set_send_skips_get_queue :
    do_work deps16 send_gets_only state_submitted =
      ({ _set_param_queue := [set_B_waiting], _get_param_queue := [get_C_waiting],
         _cache := [], _timeout := { armed := false } },
        [Effect.send_message
            (mavlink_message_t.param_set 245 190 1 1
              [65, 0, 0, 0, 0, 0, 0, 0, 0, 0, 0, 0, 0, 0, 0, 0] 7 9) false,
          Effect.set_callback 1 Result.CONNECTION_ERROR]) ∧
    do_work deps16 send_gets_only { state_submitted with _set_param_queue := [] } =
      ({ _set_param_queue := [], _get_param_queue := [get_C_in_flight],
         _cache := [], _timeout := { armed := true } },
        [Effect.send_message
            (mavlink_message_t.param_request_read 245 190 1 1
              [67, 0, 0, 0, 0, 0, 0, 0, 0, 0, 0, 0, 0, 0, 0, 0] (-1)) true,
          Effect.register_timeout_handler]) := by
  constructor <;> decide

theorem do_work_get_depends_on_get_queue {PV : Type} (D : Deps PV)
    (send_message : mavlink_message_t → Bool) (s s1 : State PV)
    (h : s1._get_param_queue = s._get_param_queue) :
    (do_work_get D send_message s1).1._get_param_queue =
      (do_work_get D send_message s).1._get_param_queue := by
  obtain ⟨sq, gq, c, t⟩ := s
  obtain ⟨sq1, gq1, c1, t1⟩ := s1
  simp only at h
  subst h
  cases gq1 with
  | nil => simp [do_work_get]
  | cons w rest =>
    by_cases hw : w.already_requested = true
    · simp [do_work_get, hw]
    · by_cases hs : send_message (get_message D w) = true <;> simp [do_work_get, hw, hs]

theorem do_work_get_heads_ok {PV : Type} (D : Deps PV)
    (send_message : mavlink_message_t → Bool) (s : State PV)
    (hsend : ∀ m, send_message m = true) :
    (do_work_get D send_message s).1._get_param_queue = [] ∨
      get_head_in_flight (do_work_get D send_message s).1._get_param_queue = true := by
  cases hg : s._get_param_queue with
  | nil =>
    rw [do_work_get_idle D send_message s (Or.inl hg)]
    exact Or.inl hg
  | cons w rest =>
    by_cases hw : w.already_requested = true
    · have hfl : get_head_in_flight s._get_param_queue = true := by
        rw [hg]
        simpa [get_head_in_flight] using hw
      rw [do_work_get_idle D send_message s (Or.inr hfl)]
      exact Or.inr hfl
    · have hw2 : w.already_requested = false := by simpa using hw
      rw [do_work_get_send_ok D send_message s w rest hg hw2 (hsend _)]
      exact Or.inr rfl

theorem do_work_heads_ok {PV : Type} (D : Deps PV)
    (send_message : mavlink_message_t → Bool) (s : State PV)
    (hsend : ∀ m, send_message m = true) :
    ((do_work D send_message s).1._set_param_queue = [] ∨
      set_head_in_flight (do_work D send_message s).1._set_param_queue = true) ∧
    ((do_work D send_message s).1._get_param_queue = [] ∨
      get_head_in_flight (do_work D send_message s).1._get_param_queue = true) := by
  cases hs : s._set_param_queue with
  | nil =>
    rw [do_work_set_idle D send_message s (Or.inl hs)]
    refine ⟨Or.inl ?_, do_work_get_heads_ok D send_message s hsend⟩
    rw [do_work_get_set_queue, hs]
  | cons w rest =>
    by_cases hw : w.already_requested = true
    · have hfl : set_head_in_flight s._set_param_queue = true := by
        rw [hs]
        simpa [set_head_in_flight] using hw
      rw [do_work_set_idle D send_message s (Or.inr hfl)]
      refine ⟨Or.inr ?_, do_work_get_heads_ok D send_message s hsend⟩
      rw [do_work_get_set_queue]
      exact hfl
    · have hw2 : w.already_requested = false := by simpa using hw
      refine ⟨Or.inr ?_, ?_⟩
      · rw [(do_work_ok_set_head D send_message s w rest hsend hs hw2).2]
        rfl
      · rw [do_work_set_send_ok D send_message s w rest hs hw2 (hsend _)]
        exact do_work_get_heads_ok D send_message _ hsend

theorem do_work_nothing_to_send {PV : Type} (D : Deps PV)
    (send_message : mavlink_message_t → Bool) (s : State PV)
    (hset : s._set_param_queue = [] ∨ set_head_in_flight s._set_param_queue = true)
    (hget : s._get_param_queue = [] ∨ get_head_in_flight s._get_param_queue = true) :
    do_work D send_message s = (s, []) := by
  rw [do_work_set_idle D send_message s hset, do_work_get_idle D send_message s hget]

theorem sent_messages_do_work_get {PV : Type} (D : Deps PV)
    (send_message : mavlink_message_t → Bool) (s : State PV)
    (hsend : ∀ m, send_message m = true) :
    sent_messages (do_work_get D send_message s).2 = get_request D s._get_param_queue := by
  cases hg : s._get_param_queue with
  | nil =>
    rw [do_work_get_idle D send_message s (Or.inl hg)]
    rfl
  | cons w rest =>
    by_cases hw : w.already_requested = true
    · have hfl : get_head_in_flight s._get_param_queue = true := by
        rw [hg]
        simpa [get_head_in_flight] using hw
      rw [do_work_get_idle D send_message s (Or.inr hfl)]
      simp [get_request, hw, sent_messages]
    · have hw2 : w.already_requested = false := by simpa using hw
      rw [do_work_get_send_ok D send_message s w rest hg hw2 (hsend _)]
      simp [get_request, hw2, sent_messages]

theorem sent_messages_do_work {PV : Type} (D : Deps PV)
    (send_message : mavlink_message_t → Bool) (s : State PV)
    (hsend : ∀ m, send_message m = true) :
    sent_messages (do_work D send_message s).2 =
      set_request D s._set_param_queue ++ get_request D s._get_param_queue := by
  cases hs : s._set_param_queue with
  | nil =>
    rw [do_work_set_idle D send_message s (Or.inl hs),
      sent_messages_do_work_get D send_message s hsend]
    rfl
  | cons w rest =>
    by_cases hw : w.already_requested = true
    · have hfl : set_head_in_flight s._set_param_queue = true := by
        rw [hs]
        simpa [set_head_in_flight] using hw
      rw [do_work_set_idle D send_message s (Or.inr hfl),
        sent_messages_do_work_get D send_message s hsend]
      simp [set_request, hw]
    · have hw2 : w.already_requested = false := by simpa using hw
      rw [do_work_set_send_ok D send_message s w rest hs hw2 (hsend _)]
      have hget := sent_messages_do_work_get D send_message
        { _set_param_queue := { w with already_requested := true } :: rest,
          _get_param_queue := s._get_param_queue, _cache := s._cache,
          _timeout := register_timeout_handler s._timeout } hsend
      simp only [sent_messages] at hget ⊢
      simp [set_request, hw2, hget]

/-- C16: in a state where each queue is empty or has its head in flight,
`do_work` makes no call at all (no send, no callback, no timeout call) and
returns the state as it was, whatever the transport would answer. When all sends
of a `do_work` succeed, a second `do_work` (with any transport) changes nothing
and sends nothing: the two calls together give the state and the calls of the
first one alone. The messages sent by the first call, and so by both calls
together, are exactly the request of each head that was not yet requested, once
each, the set request first. -/
theorem do_work_issues_request_once {PV : Type} (D : Deps PV)
    (send_message send_first send_second : mavlink_message_t → Bool) (s s0 : State PV)
    (hset : s._set_param_queue = [] ∨ set_head_in_flight s._set_param_queue = true)
    (hget : s._get_param_queue = [] ∨ get_head_in_flight s._get_param_queue = true)
    (hsend : ∀ m, send_first m = true) :
    do_work D send_message s = (s, []) ∧
    do_work D send_second (do_work D send_first s0).1 = ((do_work D send_first s0).1, []) ∧
    run D s0 [Op.do_work send_first, Op.do_work send_second] = do_work D send_first s0 ∧
    sent_messages (do_work D send_first s0).2 =
      set_request D s0._set_param_queue ++ get_request D s0._get_param_queue ∧
    sent_messages (run D s0 [Op.do_work send_first, Op.do_work send_second]).2 =
      set_request D s0._set_param_queue ++ get_request D s0._get_param_queue := by
  have h2 : do_work D send_second (do_work D send_first s0).1 =
      ((do_work D send_first s0).1, []) :=
    do_work_nothing_to_send D send_second _ (do_work_heads_ok D send_first s0 hsend).1
      (do_work_heads_ok D send_first s0 hsend).2
  have h3 : run D s0 [Op.do_work send_first, Op.do_work send_second] =
      do_work D send_first s0 := by
    simp only [run, apply_op, h2, List.append_nil]
  refine ⟨do_work_nothing_to_send D send_message s hset hget, h2, h3,
    sent_messages_do_work D send_first s0 hsend, ?_⟩
  rw [h3]
  exact sent_messages_do_work D send_first s0 hsend

/-- Witness of C16: with the set of "A" and the get of "C" in flight a
`do_work` on a failing transport does nothing; from the state where nothing was
requested yet, two `do_work` calls on a working transport equal one, and send
the write request for "A" and the read request for "C" once each. -/
theorem do_work_issues_request_once_witness :
    set_head_in_flight state_two_sets_one_get._set_param_queue = true ∧
    get_head_in_flight state_two_sets_one_get._get_param_queue = true ∧
    (∀ m, send_ok m = true) ∧
    (do_work deps16 send_fails state_two_sets_one_get = (state_two_sets_one_get, []) ∧
    do_work deps16 send_fails (do_work deps16 send_ok state_submitted).1 =
      ((do_work deps16 send_ok state_submitted).1, []) ∧
    run deps16 state_submitted [Op.do_work send_ok, Op.do_work send_fails] =
      do_work deps16 send_ok state_submitted ∧
    sent_messages (do_work deps16 send_ok state_submitted).2 =
      set_request deps16 state_submitted._set_param_queue ++
        get_request deps16 state_submitted._get_param_queue ∧
    sent_messages
        (run deps16 state_submitted [Op.do_work send_ok, Op.do_work send_fails]).2 =
      set_request deps16 state_submitted._set_param_queue ++
        get_request deps16 state_submitted._get_param_queue) ∧
    (do_work deps16 send_ok state_submitted).1 = state_two_sets_one_get ∧
    sent_messages (run deps16 state_submitted [Op.do_work send_ok, Op.do_work send_ok]).2 =
      [mavlink_message_t.param_set 245 190 1 1
          [65, 0, 0, 0, 0, 0, 0, 0, 0, 0, 0, 0, 0, 0, 0, 0] 7 9,
        mavlink_message_t.param_request_read 245 190 1 1
          [67, 0, 0, 0, 0, 0, 0, 0, 0, 0, 0, 0, 0, 0, 0, 0] (-1)] :=
  ⟨by decide, by decide, fun _ => rfl,
    do_work_issues_request_once deps16 send_fails send_ok send_fails state_two_sets_one_get
      state_submitted (Or.inr (by decide)) (Or.inr (by decide)) (fun _ => rfl),
    by decide, by decide⟩

theorem set_items_run {PV : Type} (D : Deps PV) (ops : List (Op PV)) :
    ∀ s : State PV, ∃ k : Nat,
      set_items (run D s ops).1._set_param_queue =
        (set_items s._set_param_queue ++ all_set_accepted D ops).drop k := by
  induction ops with
  | nil =>
    intro s
    exact ⟨0, by simp [run, all_set_accepted]⟩
  | cons op ops ih =>
    intro s
    obtain ⟨k1, _, hk1, hitems, _⟩ := (queue_steps_apply_op D s op).1
    obtain ⟨k2, h2⟩ := ih (apply_op D s op).1
    refine ⟨k1 + k2, ?_⟩
    have hlen : k1 ≤ (set_items s._set_param_queue).length := by
      simpa [set_items] using hk1
    simp only [run, all_set_accepted]
    rw [h2, hitems, List.append_assoc, ← List.drop_append_of_le_length hlen, List.drop_drop]

theorem get_items_run {PV : Type} (D : Deps PV) (ops : List (Op PV)) :
    ∀ s : State PV, ∃ k : Nat,
      get_items (run D s ops).1._get_param_queue =
        (get_items s._get_param_queue ++ all_get_accepted D s ops).drop k := by
  induction ops with
  | nil =>
    intro s
    exact ⟨0, by simp [run, all_get_accepted]⟩
  | cons op ops ih =>
    intro s
    obtain ⟨k1, _, hk1, hitems, _⟩ := (queue_steps_apply_op D s op).2
    obtain ⟨k2, h2⟩ := ih (apply_op D s op).1
    refine ⟨k1 + k2, ?_⟩
    have hlen : k1 ≤ (get_items s._get_param_queue).length := by
      simpa [get_items] using hk1
    simp only [run, all_get_accepted]
    rw [h2, hitems, List.append_assoc, ← List.drop_append_of_le_length hlen, List.drop_drop]

/-- C17: for a name of length at most `PARAM_ID_LEN`, in any state,
`set_param_async` appends exactly one item with that name, value, callback and
extended flag and `already_requested == false` at the back of the set queue,
keeps the earlier items in order, makes no call (no callback, no send) and
leaves the get queue, the cache and the timeout unchanged. Every operation in
every state removes at most the head of a queue and adds at most one item at its
back, so after any sequence of operations from the initial state each queue
holds, in order, the items accepted so far without the first `k` of them: items
leave a queue in the order in which they entered it. -/
theorem set_param_async_appends_fifo {PV : Type} (D : Deps PV) (s : State PV)
    (name : List Nat) (value : PV) (callback : Option Nat) (extended : Bool)
    (ops : List (Op PV)) (hlen : name.length ≤ D.PARAM_ID_LEN) :
    set_param_async D s name value callback extended =
      ({ _set_param_queue := s._set_param_queue ++
           [{ callback := callback, param_name := name, param_value := value,
              extended := extended, already_requested := false }],
         _get_param_queue := s._get_param_queue, _cache := s._cache,
         _timeout := s._timeout }, []) ∧
    (∀ (s0 : State PV) (op : Op PV), ∃ k : Nat, k ≤ 1 ∧ k ≤ s0._set_param_queue.length ∧
      set_items (apply_op D s0 op).1._set_param_queue =
        (set_items s0._set_param_queue).drop k ++ set_accepted D op) ∧
    (∀ (s0 : State PV) (op : Op PV), ∃ k : Nat, k ≤ 1 ∧ k ≤ s0._get_param_queue.length ∧
      get_items (apply_op D s0 op).1._get_param_queue =
        (get_items s0._get_param_queue).drop k ++ get_accepted D s0 op) ∧
    (∃ k : Nat, set_items (run D (State.init PV) ops).1._set_param_queue =
      (all_set_accepted D ops).drop k) ∧
    (∃ k : Nat, get_items (run D (State.init PV) ops).1._get_param_queue =
      (all_get_accepted D (State.init PV) ops).drop k) := by
  have hn : ¬ name.length > D.PARAM_ID_LEN := Nat.not_lt.mpr hlen
  refine ⟨by simp [set_param_async, hn, push_back], ?_, ?_, ?_, ?_⟩
  · intro s0 op
    obtain ⟨k, h1, h2, h3, _⟩ := (queue_steps_apply_op D s0 op).1
    exact ⟨k, h1, h2, h3⟩
  · intro s0 op
    obtain ⟨k, h1, h2, h3, _⟩ := (queue_steps_apply_op D s0 op).2
    exact ⟨k, h1, h2, h3⟩
  · obtain ⟨k, hk⟩ := set_items_run D ops (State.init PV)
    exact ⟨k, by simpa [State.init, set_items] using hk⟩
  · obtain ⟨k, hk⟩ := get_items_run D ops (State.init PV)
    refine ⟨k, ?_⟩
    rw [hk]
    rfl

/-- Witness of C17: a set of "D" submitted while the set of "A" is in flight and
"B" waits goes behind "B"; after the two sets, the get and the `do_work` the set
queue holds the two accepted items. -/
theorem set_param_async_appends_fifo_witness :
    [68].length ≤ deps16.PARAM_ID_LEN ∧
    set_param_async deps16 state_two_sets_one_get [68] (real32 9) (some 4) true =
      ({ _set_param_queue := [set_A_in_flight, set_B_waiting,
           { callback := some 4, param_name := [68], param_value := real32 9,
             extended := true, already_requested := false }],
         _get_param_queue := [get_C_in_flight], _cache := [],
         _timeout := { armed := true } }, []) ∧
    set_items (run deps16 (State.init ParamValue) ops_two_sets_one_get).1._set_param_queue =
      (all_set_accepted deps16 ops_two_sets_one_get).drop 0 ∧
    (set_param_async deps16 state_two_sets_one_get [68] (real32 9) (some 4) true =
      ({ _set_param_queue := state_two_sets_one_get._set_param_queue ++
           [{ callback := some 4, param_name := [68], param_value := real32 9,
              extended := true, already_requested := false }],
         _get_param_queue := state_two_sets_one_get._get_param_queue,
         _cache := state_two_sets_one_get._cache,
         _timeout := state_two_sets_one_get._timeout }, [])) :=
  ⟨by decide, by decide, by decide,
    (set_param_async_appends_fifo deps16 state_two_sets_one_get [68] (real32 9) (some 4) true
      ops_two_sets_one_get (by decide)).1⟩

theorem strncmp_STRNCPY (n : Nat) : ∀ name : List Nat, strncmp name (STRNCPY name n) n = 0 := by
  induction n with
  | zero => intro name; simp [strncmp]
  | succ n ih =>
    intro name
    cases name with
    | nil => simp [strncmp, STRNCPY]
    | cons c cs =>
      by_cases hc : c = 0
      · simp [strncmp, STRNCPY, hc, List.replicate_succ]
      · simp [strncmp, STRNCPY, hc, ih cs]

theorem STRNCPY_length (n : Nat) : ∀ name : List Nat, (STRNCPY name n).length = n := by
  induction n with
  | zero => intro name; simp [STRNCPY]
  | succ n ih =>
    intro name
    cases name with
    | nil => simp [STRNCPY, ih]
    | cons c cs =>
      by_cases hc : c = 0
      · simp [STRNCPY, hc]
      · simp [STRNCPY, hc, ih cs]

theorem STRNCPY_pads (n : Nat) : ∀ name : List Nat, (∀ c ∈ name, c ≠ 0) → name.length ≤ n →
    STRNCPY name n = name ++ List.replicate (n - name.length) 0 := by
  induction n with
  | zero =>
    intro name _ hlen
    have : name = [] := List.length_eq_zero.mp (Nat.le_zero.mp hlen)
    subst this
    simp [STRNCPY]
  | succ n ih =>
    intro name hnz hlen
    cases name with
    | nil =>
      have h := ih [] (by simp) (by simp)
      simp only [List.length_nil, Nat.sub_zero, List.nil_append] at h ⊢
      simp [STRNCPY, h, List.replicate_succ]
    | cons c cs =>
      have hc : c ≠ 0 := hnz c (by simp)
      have h := ih cs (fun x hx => hnz x (by simp [hx])) (by simpa using hlen)
      simp [STRNCPY, hc, h]

theorem getD_zero_headD (l : List Nat) : l.getD 0 0 = l.headD 0 := by
  cases l <;> rfl

theorem getD_tail (l : List Nat) (i : Nat) : l.tail.getD i 0 = l.getD (i + 1) 0 := by
  cases l <;> simp

theorem strncmp_ne_zero_of_diff (n : Nat) : ∀ (a b : List Nat) (i : Nat), i < n →
    a.getD i 0 ≠ b.getD i 0 → (∀ j, j < i → a.getD j 0 ≠ 0) → strncmp a b n ≠ 0 := by
  induction n with
  | zero => intro a b i hi; omega
  | succ n ih =>
    intro a b i hi hd ht
    unfold strncmp
    by_cases h0 : a.headD 0 = b.headD 0
    · have hi0 : i ≠ 0 := by
        intro h
        subst h
        apply hd
        rw [getD_zero_headD, getD_zero_headD]
        exact h0
      obtain ⟨i1, rfl⟩ := Nat.exists_eq_succ_of_ne_zero hi0
      have ha : a.headD 0 ≠ 0 := by
        rw [← getD_zero_headD]
        exact ht 0 (Nat.succ_pos i1)
      simp only [ne_eq, h0, not_true_eq_false, if_false]
      rw [if_neg (by rw [← h0]; exact ha)]
      apply ih a.tail b.tail i1 (by omega)
      · rw [getD_tail, getD_tail]
        exact hd
      · intro j hj
        rw [getD_tail]
        exact ht (j + 1) (by omega)
    · rw [if_pos h0]
      omega

theorem get_message_param_id {PV : Type} (D : Deps PV) (w : GetParamWork PV) :
    message_param_id (get_message D w) = STRNCPY w.param_name D.PARAM_ID_LEN := by
  unfold get_message
  split <;> rfl

theorem set_message_param_id {PV : Type} (D : Deps PV) (w : SetParamWork PV) :
    message_param_id (set_message D w) = STRNCPY w.param_name D.PARAM_ID_LEN := by
  unfold set_message
  split <;> rfl

/-- C18: for every name of length at most `PARAM_ID_LEN` (also of exactly that
length, where the field has no terminator): when `do_work` sends the request of
a not yet requested get or set head with that name, the message it hands to the
transport carries as `param_id` the `PARAM_ID_LEN` bytes copied from the name
with `STRNCPY`, simple or extended, and a `PARAM_VALUE`, `PARAM_EXT_VALUE` or
`PARAM_EXT_ACK` that echoes the `param_id` of that message resolves the head,
which is then in flight. That field compares equal to the name under `strncmp`
over `PARAM_ID_LEN` bytes, has `PARAM_ID_LEN` bytes and, for a name without NUL
bytes, holds the name followed by NUL bytes. An identifier `other` that differs
from the name at a position `i` below `PARAM_ID_LEN`, with no NUL byte in the
name before `i`, does not compare equal, and a message carrying it is
ignored. -/
theorem param_id_round_trip {PV : Type} (D : Deps PV) (name : List Nat)
    (hlen : name.length ≤ D.PARAM_ID_LEN) :
    strncmp name (STRNCPY name D.PARAM_ID_LEN) D.PARAM_ID_LEN = 0 ∧
    (STRNCPY name D.PARAM_ID_LEN).length = D.PARAM_ID_LEN ∧
    ((∀ c ∈ name, c ≠ 0) →
      STRNCPY name D.PARAM_ID_LEN =
        name ++ List.replicate (D.PARAM_ID_LEN - name.length) 0) ∧
    (∀ (s : State PV) (w : GetParamWork PV) (rest : List (GetParamWork PV))
      (m : mavlink_param_value_t) (mx : mavlink_param_ext_value_t),
      s._get_param_queue = w :: rest → w.already_requested = true → w.param_name = name →
      (m.param_id = STRNCPY name D.PARAM_ID_LEN →
        (process_param_value D s m).1._get_param_queue = rest) ∧
      (mx.param_id = STRNCPY name D.PARAM_ID_LEN →
        (process_param_ext_value D s mx).1._get_param_queue = rest)) ∧
    (∀ (s : State PV) (w : SetParamWork PV) (rest : List (SetParamWork PV))
      (m : mavlink_param_ext_ack_t),
      s._set_param_queue = w :: rest → w.already_requested = true → w.param_name = name →
      m.param_result = PARAM_ACK_ACCEPTED → m.param_id = STRNCPY name D.PARAM_ID_LEN →
      (process_param_ext_ack D s m).1._set_param_queue = rest) ∧
    (∀ (other : List Nat) (i : Nat), i < D.PARAM_ID_LEN →
      name.getD i 0 ≠ other.getD i 0 → (∀ j, j < i → name.getD j 0 ≠ 0) →
      strncmp name other D.PARAM_ID_LEN ≠ 0 ∧
      (∀ (s : State PV) (w : GetParamWork PV) (rest : List (GetParamWork PV))
        (m : mavlink_param_value_t) (mx : mavlink_param_ext_value_t),
        s._get_param_queue = w :: rest → w.param_name = name →
        (m.param_id = other → process_param_value D s m = (s, [])) ∧
        (mx.param_id = other → process_param_ext_value D s mx = (s, []))) ∧
      (∀ (s : State PV) (w : SetParamWork PV) (rest : List (SetParamWork PV))
        (m : mavlink_param_ext_ack_t),
        s._set_param_queue = w :: rest → w.param_name = name → m.param_id = other →
        process_param_ext_ack D s m = (s, []))) ∧
    (∀ (s : State PV) (w : GetParamWork PV) (rest : List (GetParamWork PV))
      (send_message : mavlink_message_t → Bool),
      s._get_param_queue = w :: rest → w.already_requested = false → w.param_name = name →
      (∀ msg, send_message msg = true) →
      Effect.send_message (get_message D w) true ∈ (do_work D send_message s).2 ∧
      message_param_id (get_message D w) = STRNCPY name D.PARAM_ID_LEN ∧
      (do_work D send_message s).1._get_param_queue =
        { w with already_requested := true } :: rest ∧
      (∀ m : mavlink_param_value_t, m.param_id = message_param_id (get_message D w) →
        (process_param_value D (do_work D send_message s).1 m).1._get_param_queue = rest) ∧
      (∀ mx : mavlink_param_ext_value_t,
        mx.param_id = message_param_id (get_message D w) →
        (process_param_ext_value D (do_work D send_message s).1 mx).1._get_param_queue =
          rest)) ∧
    (∀ (s : State PV) (w : SetParamWork PV) (rest : List (SetParamWork PV))
      (send_message : mavlink_message_t → Bool),
      s._set_param_queue = w :: rest → w.already_requested = false → w.param_name = name →
      (∀ msg, send_message msg = true) →
      Effect.send_message (set_message D w) true ∈ (do_work D send_message s).2 ∧
      message_param_id (set_message D w) = STRNCPY name D.PARAM_ID_LEN ∧
      (do_work D send_message s).1._set_param_queue =
        { w with already_requested := true } :: rest ∧
      (∀ ma : mavlink_param_ext_ack_t, ma.param_id = message_param_id (set_message D w) →
        ma.param_result = PARAM_ACK_ACCEPTED →
        (process_param_ext_ack D (do_work D send_message s).1 ma).1._set_param_queue =
          rest) ∧
      (∀ m : mavlink_param_value_t, m.param_id = message_param_id (set_message D w) →
        (do_work D send_message s).1._get_param_queue = [] →
        (process_param_value D (do_work D send_message s).1 m).1._set_param_queue =
          rest)) := by
  have hget : ∀ (s : State PV) (w : GetParamWork PV) (rest : List (GetParamWork PV))
      (m : mavlink_param_value_t) (mx : mavlink_param_ext_value_t),
      s._get_param_queue = w :: rest → w.already_requested = true → w.param_name = name →
      (m.param_id = STRNCPY name D.PARAM_ID_LEN →
        (process_param_value D s m).1._get_param_queue = rest) ∧
      (mx.param_id = STRNCPY name D.PARAM_ID_LEN →
        (process_param_ext_value D s mx).1._get_param_queue = rest) := by
    intro s w rest m mx hq hw hn
    constructor
    · intro hm
      have hmatch : strncmp w.param_name m.param_id D.PARAM_ID_LEN = 0 := by
        rw [hn, hm]
        exact strncmp_STRNCPY _ name
      rw [process_param_value_get_resolved D s m w rest hq hw hmatch]
      split <;> rfl
    · intro hm
      have hmatch : strncmp w.param_name mx.param_id D.PARAM_ID_LEN = 0 := by
        rw [hn, hm]
        exact strncmp_STRNCPY _ name
      rw [process_param_ext_value_get_resolved D s mx w rest hq hw hmatch]
      split <;> rfl
  have hset : ∀ (s : State PV) (w : SetParamWork PV) (rest : List (SetParamWork PV))
      (m : mavlink_param_ext_ack_t),
      s._set_param_queue = w :: rest → w.already_requested = true → w.param_name = name →
      m.param_result = PARAM_ACK_ACCEPTED → m.param_id = STRNCPY name D.PARAM_ID_LEN →
      (process_param_ext_ack D s m).1._set_param_queue = rest := by
    intro s w rest m hq hw hn hr hm
    have hmatch : strncmp w.param_name m.param_id D.PARAM_ID_LEN = 0 := by
      rw [hn, hm]
      exact strncmp_STRNCPY _ name
    rw [process_param_ext_ack_matched D s m w rest hq hw hmatch, if_pos hr]
  refine ⟨strncmp_STRNCPY _ name, STRNCPY_length _ name,
    fun hnul => STRNCPY_pads _ name hnul hlen, hget, hset, ?_, ?_, ?_⟩
  · intro other i hi hd ht
    have hne := strncmp_ne_zero_of_diff D.PARAM_ID_LEN name other i hi hd ht
    refine ⟨hne, ?_, ?_⟩
    · intro s w rest m mx hq hn
      constructor
      · intro hm
        exact process_param_value_get_ignored D s m w rest hq
          (Or.inr (by rw [hn, hm]; exact hne))
      · intro hm
        exact process_param_ext_value_get_ignored D s mx
          (Or.inr ⟨w, rest, hq, Or.inr (by rw [hn, hm]; exact hne)⟩)
    · intro s w rest m hq hn hm
      exact process_param_ext_ack_ignored D s m
        (Or.inr ⟨w, rest, hq, Or.inr (by rw [hn, hm]; exact hne)⟩)
  · intro s w rest send_message hq hw hn hsend
    have hid : message_param_id (get_message D w) = STRNCPY name D.PARAM_ID_LEN := by
      rw [get_message_param_id, hn]
    obtain ⟨hmem, hq1⟩ := do_work_ok_get_head D send_message s w rest hsend hq hw
    refine ⟨hmem, hid, hq1, ?_, ?_⟩
    · intro m hm
      exact (hget (do_work D send_message s).1 { w with already_requested := true } rest m
        { param_count := 0, param_index := 0, param_id := [], param_value := [],
          param_type := 0 } hq1 rfl hn).1 (by rw [hm, hid])
    · intro mx hm
      exact (hget (do_work D send_message s).1 { w with already_requested := true } rest
        { param_value := 0, param_count := 0, param_index := 0, param_id := [],
          param_type := 0 } mx hq1 rfl hn).2 (by rw [hm, hid])
  · intro s w rest send_message hq hw hn hsend
    have hid : message_param_id (set_message D w) = STRNCPY name D.PARAM_ID_LEN := by
      rw [set_message_param_id, hn]
    obtain ⟨hmem, hq1⟩ := do_work_ok_set_head D send_message s w rest hsend hq hw
    refine ⟨hmem, hid, hq1, ?_, ?_⟩
    · intro ma hm hr
      exact hset (do_work D send_message s).1 { w with already_requested := true } rest ma
        hq1 rfl hn hr (by rw [hm, hid])
    · intro m hm hg
      have hmatch : strncmp ({ w with already_requested := true } : SetParamWork PV).param_name
          m.param_id D.PARAM_ID_LEN = 0 := by
        rw [hm, hid]
        show strncmp w.param_name (STRNCPY name D.PARAM_ID_LEN) D.PARAM_ID_LEN = 0
        rw [hn]
        exact strncmp_STRNCPY _ name
      rw [process_param_value_set_resolved D (do_work D send_message s).1 m
        { w with already_requested := true } rest hg hq1 rfl hmatch]

/-- Witness of C18: a name of exactly 16 bytes with 16-byte identifiers. The
extended get of the name is submitted, `do_work` sends
`PARAM_EXT_REQUEST_READ` with the 16 bytes of the name as `param_id`, and a
`PARAM_VALUE` echoing them resolves the head; an identifier that differs from
the name in the last byte is ignored. Likewise the set of the name is sent as
`PARAM_SET` and resolved by the echo. -/
theorem param_id_round_trip_witness :
    name16.length ≤ deps16.PARAM_ID_LEN ∧
    STRNCPY name16 deps16.PARAM_ID_LEN = name16 ∧
    state_get16_submitted._get_param_queue = get16_waiting :: [] ∧
    state_set16_submitted._set_param_queue = set16_waiting :: [] ∧
    (do_work deps16 send_ok state_get16_submitted).2 =
      [Effect.send_message
          (mavlink_message_t.param_ext_request_read 245 190 1 100 name16 (-1)) true,
        Effect.register_timeout_handler] ∧
    (do_work deps16 send_ok state_set16_submitted).2 =
      [Effect.send_message (mavlink_message_t.param_set 245 190 1 1 name16 7 9) true,
        Effect.register_timeout_handler] ∧
    (do_work deps16 send_ok state_get16_submitted).1 = state_get16_in_flight ∧
    strncmp name16 (STRNCPY name16 deps16.PARAM_ID_LEN) deps16.PARAM_ID_LEN = 0 ∧
    (Effect.send_message (get_message deps16 get16_waiting) true ∈
        (do_work deps16 send_ok state_get16_submitted).2 ∧
      message_param_id (get_message deps16 get16_waiting) =
        STRNCPY name16 deps16.PARAM_ID_LEN) ∧
    (process_param_value deps16 (do_work deps16 send_ok state_get16_submitted).1
      (param_value_msg (message_param_id (get_message deps16 get16_waiting)) 9
        5)).1._get_param_queue = [] ∧
    (process_param_value deps16 (do_work deps16 send_ok state_set16_submitted).1
      (param_value_msg (message_param_id (set_message deps16 set16_waiting)) 9
        5)).1._set_param_queue = [] ∧
    strncmp name16 id16_other deps16.PARAM_ID_LEN ≠ 0 ∧
    process_param_value deps16 state_get16_in_flight (param_value_msg id16_other 9 5) =
      (state_get16_in_flight, []) :=
  ⟨by decide, by decide, by decide, by decide, by decide, by decide, by decide,
    (param_id_round_trip deps16 name16 (by decide)).1,
    ⟨((param_id_round_trip deps16 name16 (by decide)).2.2.2.2.2.2.1 state_get16_submitted
        get16_waiting [] send_ok (by decide) (by decide) rfl (fun _ => rfl)).1,
      ((param_id_round_trip deps16 name16 (by decide)).2.2.2.2.2.2.1 state_get16_submitted
        get16_waiting [] send_ok (by decide) (by decide) rfl (fun _ => rfl)).2.1⟩,
    ((param_id_round_trip deps16 name16 (by decide)).2.2.2.2.2.2.1 state_get16_submitted
      get16_waiting [] send_ok (by decide) (by decide) rfl (fun _ => rfl)).2.2.2.1
      (param_value_msg (message_param_id (get_message deps16 get16_waiting)) 9 5) rfl,
    ((param_id_round_trip deps16 name16 (by decide)).2.2.2.2.2.2.2 state_set16_submitted
      set16_waiting [] send_ok (by decide) (by decide) rfl (fun _ => rfl)).2.2.2.2
      (param_value_msg (message_param_id (set_message deps16 set16_waiting)) 9 5) rfl
      (by decide),
    ((param_id_round_trip deps16 name16 (by decide)).2.2.2.2.2.1 id16_other 15 (by decide)
      (by decide) (by decide)).1,
    (((param_id_round_trip deps16 name16 (by decide)).2.2.2.2.2.1 id16_other 15 (by decide)
      (by decide) (by decide)).2.1 state_get16_in_flight get16_in_flight []
      (param_value_msg id16_other 9 5) (param_ext_value_msg [] 9 []) (by decide) rfl).1 rfl⟩

theorem process_param_value_depends_on_param_id {PV : Type} (D : Deps PV) (s : State PV)
    (m1 m2 : mavlink_param_value_t) (hg : s._get_param_queue = [])
    (hid : m1.param_id = m2.param_id) :
    process_param_value D s m1 = process_param_value D s m2 := by
  unfold process_param_value
  rw [hg, hid]

/-- C19: with an empty get queue and the head `w` of the set queue in flight,
two `PARAM_VALUE` messages `m1` and `m2` with the same `param_id` and any value,
type, count and index fields give the same outcome of `process_param_value`
(same state, same calls); and a message `m` whose `param_id` matches the name of
`w` resolves `w` with `SUCCESS` and binds the name in the cache to the value
stored in `w`, whatever value and type `m` carries. -/
theorem set_ack_ignores_reported_value {PV : Type} (D : Deps PV) (s : State PV)
    (w : SetParamWork PV) (rest : List (SetParamWork PV)) (m1 m2 m : mavlink_param_value_t)
    (hg : s._get_param_queue = []) (hq : s._set_param_queue = w :: rest)
    (hw : w.already_requested = true) (hid : m1.param_id = m2.param_id)
    (hm : strncmp w.param_name m.param_id D.PARAM_ID_LEN = 0) :
    process_param_value D s m1 = process_param_value D s m2 ∧
    set_head_resolved s w rest Result.SUCCESS (process_param_value D s m) ∧
    cache_updated s._cache (process_param_value D s m).1._cache w.param_name w.param_value ∧
    (process_param_value D s m).1._cache = cache_assign s._cache w.param_name w.param_value := by
  refine ⟨process_param_value_depends_on_param_id D s m1 m2 hg hid, ?_⟩
  rw [process_param_value_set_resolved D s m w rest hg hq hw hm]
  refine ⟨?_, cache_updated_assign _ _ _, rfl⟩
  have h := set_head_resolved_intro s w rest Result.SUCCESS
    (cache_assign s._cache w.param_name w.param_value)
  rw [hg] at h
  exact h

/-- Witness of C19: the set of "A" with the float32 value 7 is in flight and the
get queue is empty; a `PARAM_VALUE` for "A" reporting the float32 5 and one
reporting the int32 99 give the same outcome: `SUCCESS`, and 7 is cached. -/
theorem set_ack_ignores_reported_value_witness :
    state_get_answered_first._get_param_queue = [] ∧
    state_get_answered_first._set_param_queue = set_A_in_flight :: [] ∧
    set_A_in_flight.already_requested = true ∧
    (param_value_msg [65] 9 5).param_id = (param_value_msg [65] 6 99).param_id ∧
    strncmp set_A_in_flight.param_name (param_value_msg [65] 6 99).param_id
      deps16.PARAM_ID_LEN = 0 ∧
    process_param_value deps16 state_get_answered_first (param_value_msg [65] 6 99) =
      ({ _set_param_queue := [], _get_param_queue := [],
         _cache := [([66], real32 5), ([65], real32 7)], _timeout := { armed := false } },
        [Effect.set_callback 1 Result.SUCCESS, Effect.unregister_timeout_handler]) ∧
    (process_param_value deps16 state_get_answered_first (param_value_msg [65] 9 5) =
      process_param_value deps16 state_get_answered_first (param_value_msg [65] 6 99) ∧
    set_head_resolved state_get_answered_first set_A_in_flight [] Result.SUCCESS
      (process_param_value deps16 state_get_answered_first (param_value_msg [65] 6 99)) ∧
    cache_updated state_get_answered_first._cache
      (process_param_value deps16 state_get_answered_first
        (param_value_msg [65] 6 99)).1._cache
      set_A_in_flight.param_name set_A_in_flight.param_value ∧
    (process_param_value deps16 state_get_answered_first
        (param_value_msg [65] 6 99)).1._cache =
      cache_assign state_get_answered_first._cache set_A_in_flight.param_name
        set_A_in_flight.param_value) :=
  ⟨by decide, by decide, by decide, by decide, by decide, by decide,
    set_ack_ignores_reported_value deps16 state_get_answered_first set_A_in_flight []
      (param_value_msg [65] 9 5) (param_value_msg [65] 6 99) (param_value_msg [65] 6 99)
      (by decide) (by decide) (by decide) (by decide) (by decide)⟩

theorem value_ignores_get_extended {PV : Type} (D : Deps PV) (s : State PV)
    (w : GetParamWork PV) (rest : List (GetParamWork PV)) (e : Bool)
    (m : mavlink_param_value_t) (hq : s._get_param_queue = w :: rest) :
    same_up_to_get_head s { s with _get_param_queue := { w with extended := e } :: rest }
      (process_param_value D s m)
      (process_param_value D
        { s with _get_param_queue := { w with extended := e } :: rest } m) := by
  by_cases hc : w.already_requested = true ∧
      strncmp w.param_name m.param_id D.PARAM_ID_LEN = 0
  · rw [process_param_value_get_resolved D s m w rest hq hc.1 hc.2,
      process_param_value_get_resolved D
        { s with _get_param_queue := { w with extended := e } :: rest } m
        { w with extended := e } rest rfl hc.1 hc.2]
    dsimp only
    split <;> exact ⟨rfl, Or.inl rfl⟩
  · rw [process_param_value_get_ignored D s m w rest hq (not_matched_cases _ _ hc),
      process_param_value_get_ignored D
        { s with _get_param_queue := { w with extended := e } :: rest } m
        { w with extended := e } rest rfl (not_matched_cases _ _ hc)]
    exact ⟨rfl, Or.inr ⟨rfl, rfl⟩⟩

theorem ext_value_ignores_get_extended {PV : Type} (D : Deps PV) (s : State PV)
    (w : GetParamWork PV) (rest : List (GetParamWork PV)) (e : Bool)
    (m : mavlink_param_ext_value_t) (hq : s._get_param_queue = w :: rest) :
    same_up_to_get_head s { s with _get_param_queue := { w with extended := e } :: rest }
      (process_param_ext_value D s m)
      (process_param_ext_value D
        { s with _get_param_queue := { w with extended := e } :: rest } m) := by
  by_cases hc : w.already_requested = true ∧
      strncmp w.param_name m.param_id D.PARAM_ID_LEN = 0
  · rw [process_param_ext_value_get_resolved D s m w rest hq hc.1 hc.2,
      process_param_ext_value_get_resolved D
        { s with _get_param_queue := { w with extended := e } :: rest } m
        { w with extended := e } rest rfl hc.1 hc.2]
    dsimp only
    split <;> exact ⟨rfl, Or.inl rfl⟩
  · rw [process_param_ext_value_get_ignored D s m
        (Or.inr ⟨w, rest, hq, not_matched_cases _ _ hc⟩),
      process_param_ext_value_get_ignored D
        { s with _get_param_queue := { w with extended := e } :: rest } m
        (Or.inr ⟨{ w with extended := e }, rest, rfl, not_matched_cases _ _ hc⟩)]
    exact ⟨rfl, Or.inr ⟨rfl, rfl⟩⟩

theorem ext_ack_ignores_set_extended {PV : Type} (D : Deps PV) (s : State PV)
    (w : SetParamWork PV) (rest : List (SetParamWork PV)) (e : Bool)
    (m : mavlink_param_ext_ack_t) (hq : s._set_param_queue = w :: rest) :
    same_up_to_set_head s { s with _set_param_queue := { w with extended := e } :: rest }
      (process_param_ext_ack D s m)
      (process_param_ext_ack D
        { s with _set_param_queue := { w with extended := e } :: rest } m) := by
  by_cases hc : w.already_requested = true ∧
      strncmp w.param_name m.param_id D.PARAM_ID_LEN = 0
  · rw [process_param_ext_ack_matched D s m w rest hq hc.1 hc.2,
      process_param_ext_ack_matched D
        { s with _set_param_queue := { w with extended := e } :: rest } m
        { w with extended := e } rest rfl hc.1 hc.2]
    dsimp only
    split
    · exact ⟨rfl, Or.inl rfl⟩
    · split
      · exact ⟨rfl, Or.inr ⟨hq.symm, rfl⟩⟩
      · exact ⟨rfl, Or.inl rfl⟩
  · rw [process_param_ext_ack_ignored D s m
        (Or.inr ⟨w, rest, hq, not_matched_cases _ _ hc⟩),
      process_param_ext_ack_ignored D
        { s with _set_param_queue := { w with extended := e } :: rest } m
        (Or.inr ⟨{ w with extended := e }, rest, rfl, not_matched_cases _ _ hc⟩)]
    exact ⟨rfl, Or.inr ⟨rfl, rfl⟩⟩

theorem value_ignores_set_extended {PV : Type} (D : Deps PV) (s : State PV)
    (w : SetParamWork PV) (rest : List (SetParamWork PV)) (e : Bool)
    (m : mavlink_param_value_t) (hg : s._get_param_queue = [])
    (hq : s._set_param_queue = w :: rest) :
    same_up_to_set_head s { s with _set_param_queue := { w with extended := e } :: rest }
      (process_param_value D s m)
      (process_param_value D
        { s with _set_param_queue := { w with extended := e } :: rest } m) := by
  by_cases hc : w.already_requested = true ∧
      strncmp w.param_name m.param_id D.PARAM_ID_LEN = 0
  · rw [process_param_value_set_resolved D s m w rest hg hq hc.1 hc.2,
      process_param_value_set_resolved D
        { s with _set_param_queue := { w with extended := e } :: rest } m
        { w with extended := e } rest hg rfl hc.1 hc.2]
    exact ⟨rfl, Or.inl rfl⟩
  · rw [process_param_value_set_ignored D s m hg
        (Or.inr ⟨w, rest, hq, not_matched_cases _ _ hc⟩),
      process_param_value_set_ignored D
        { s with _set_param_queue := { w with extended := e } :: rest } m hg
        (Or.inr ⟨{ w with extended := e }, rest, rfl, not_matched_cases _ _ hc⟩)]
    exact ⟨rfl, Or.inr ⟨rfl, rfl⟩⟩

/-- C20: let `sg` be `s` with any other extended flag `e` on the head of its get
queue. For the same message, `process_param_value` and
`process_param_ext_value` make the same calls (same callback, same result and
value) from `s` and from `sg`, and end in the same state, except that a head
that was not resolved is still there with its own flag. Likewise for `t` and
`t` with another extended flag on the head of its set queue under
`process_param_ext_ack`, and under `process_param_value` when the get queue of
`t` is empty. The handlers never read the flag. -/
theorem response_matching_ignores_extended {PV : Type} (D : Deps PV) (s t : State PV)
    (wg : GetParamWork PV) (grest : List (GetParamWork PV))
    (ws : SetParamWork PV) (srest : List (SetParamWork PV)) (e : Bool)
    (mv mv2 : mavlink_param_value_t) (mx : mavlink_param_ext_value_t)
    (ma : mavlink_param_ext_ack_t)
    (hg : s._get_param_queue = wg :: grest) (hs : t._set_param_queue = ws :: srest) :
    same_up_to_get_head s { s with _get_param_queue := { wg with extended := e } :: grest }
      (process_param_value D s mv)
      (process_param_value D
        { s with _get_param_queue := { wg with extended := e } :: grest } mv) ∧
    same_up_to_get_head s { s with _get_param_queue := { wg with extended := e } :: grest }
      (process_param_ext_value D s mx)
      (process_param_ext_value D
        { s with _get_param_queue := { wg with extended := e } :: grest } mx) ∧
    same_up_to_set_head t { t with _set_param_queue := { ws with extended := e } :: srest }
      (process_param_ext_ack D t ma)
      (process_param_ext_ack D
        { t with _set_param_queue := { ws with extended := e } :: srest } ma) ∧
    (t._get_param_queue = [] →
      same_up_to_set_head t
        { t with _set_param_queue := { ws with extended := e } :: srest }
        (process_param_value D t mv2)
        (process_param_value D
          { t with _set_param_queue := { ws with extended := e } :: srest } mv2)) :=
  ⟨value_ignores_get_extended D s wg grest e mv hg,
    ext_value_ignores_get_extended D s wg grest e mx hg,
    ext_ack_ignores_set_extended D t ws srest e ma hs,
    fun htg => value_ignores_set_extended D t ws srest e mv2 htg hs⟩

/-- Witness of C20: the get of "C" and the set of "A" are in flight as simple
requests; the same states with both marked extended give the same outcomes. A
`PARAM_VALUE` resolves the extended get of "C" and the extended set of "A", a
`PARAM_EXT_VALUE` resolves the simple get of "C", a `PARAM_EXT_ACK` the simple
set of "A". -/
theorem response_matching_ignores_extended_witness :
    state_two_sets_one_get._get_param_queue = get_C_in_flight :: [] ∧
    state_get_answered_first._set_param_queue = set_A_in_flight :: [] ∧
    state_get_answered_first._get_param_queue = [] ∧
    process_param_value deps16 state_get_C_extended (param_value_msg [67] 9 5) =
      ({ _set_param_queue := [set_A_in_flight, set_B_waiting], _get_param_queue := [],
         _cache := [([67], real32 5)], _timeout := { armed := false } },
        [Effect.get_callback 3 Result.SUCCESS (real32 5), Effect.unregister_timeout_handler]) ∧
    process_param_ext_value deps16 state_two_sets_one_get (param_ext_value_msg [67] 9 [5]) =
      ({ _set_param_queue := [set_A_in_flight, set_B_waiting], _get_param_queue := [],
         _cache := [([67], real32 5)], _timeout := { armed := false } },
        [Effect.get_callback 3 Result.SUCCESS (real32 5), Effect.unregister_timeout_handler]) ∧
    process_param_ext_ack deps16 state_get_answered_first (param_ext_ack_msg [65] 0) =
      ({ _set_param_queue := [], _get_param_queue := [],
         _cache := [([66], real32 5), ([65], real32 7)], _timeout := { armed := false } },
        [Effect.set_callback 1 Result.SUCCESS, Effect.unregister_timeout_handler]) ∧
    process_param_value deps16 state_set_A_extended (param_value_msg [65] 9 5) =
      ({ _set_param_queue := [], _get_param_queue := [],
         _cache := [([66], real32 5), ([65], real32 7)], _timeout := { armed := false } },
        [Effect.set_callback 1 Result.SUCCESS, Effect.unregister_timeout_handler]) ∧
    (same_up_to_get_head state_two_sets_one_get
      { state_two_sets_one_get with
        _get_param_queue := { get_C_in_flight with extended := true } :: [] }
      (process_param_value deps16 state_two_sets_one_get (param_value_msg [67] 9 5))
      (process_param_value deps16
        { state_two_sets_one_get with
          _get_param_queue := { get_C_in_flight with extended := true } :: [] }
        (param_value_msg [67] 9 5)) ∧
    same_up_to_get_head state_two_sets_one_get
      { state_two_sets_one_get with
        _get_param_queue := { get_C_in_flight with extended := true } :: [] }
      (process_param_ext_value deps16 state_two_sets_one_get
        (param_ext_value_msg [67] 9 [5]))
      (process_param_ext_value deps16
        { state_two_sets_one_get with
          _get_param_queue := { get_C_in_flight with extended := true } :: [] }
        (param_ext_value_msg [67] 9 [5])) ∧
    same_up_to_set_head state_get_answered_first
      { state_get_answered_first with
        _set_param_queue := { set_A_in_flight with extended := true } :: [] }
      (process_param_ext_ack deps16 state_get_answered_first (param_ext_ack_msg [65] 0))
      (process_param_ext_ack deps16
        { state_get_answered_first with
          _set_param_queue := { set_A_in_flight with extended := true } :: [] }
        (param_ext_ack_msg [65] 0)) ∧
    same_up_to_set_head state_get_answered_first
      { state_get_answered_first with
        _set_param_queue := { set_A_in_flight with extended := true } :: [] }
      (process_param_value deps16 state_get_answered_first (param_value_msg [65] 9 5))
      (process_param_value deps16
        { state_get_answered_first with
          _set_param_queue := { set_A_in_flight with extended := true } :: [] }
        (param_value_msg [65] 9 5))) :=
  ⟨by decide, by decide, by decide, by decide, by decide, by decide, by decide,
    (response_matching_ignores_extended deps16 state_two_sets_one_get
      state_get_answered_first get_C_in_flight [] set_A_in_flight [] true
      (param_value_msg [67] 9 5) (param_value_msg [65] 9 5) (param_ext_value_msg [67] 9 [5])
      (param_ext_ack_msg [65] 0) (by decide) (by decide)).1,
    (response_matching_ignores_extended deps16 state_two_sets_one_get
      state_get_answered_first get_C_in_flight [] set_A_in_flight [] true
      (param_value_msg [67] 9 5) (param_value_msg [65] 9 5) (param_ext_value_msg [67] 9 [5])
      (param_ext_ack_msg [65] 0) (by decide) (by decide)).2.1,
    (response_matching_ignores_extended deps16 state_two_sets_one_get
      state_get_answered_first get_C_in_flight [] set_A_in_flight [] true
      (param_value_msg [67] 9 5) (param_value_msg [65] 9 5) (param_ext_value_msg [67] 9 [5])
      (param_ext_ack_msg [65] 0) (by decide) (by decide)).2.2.1,
    (response_matching_ignores_extended deps16 state_two_sets_one_get
      state_get_answered_first get_C_in_flight [] set_A_in_flight [] true
      (param_value_msg [67] 9 5) (param_value_msg [65] 9 5) (param_ext_value_msg [67] 9 [5])
      (param_ext_ack_msg [65] 0) (by decide) (by decide)).2.2.2 (by decide)⟩

end MAVLinkParameters

